import Mathlib

/-!
# UserDashboard front end: session store, auth service, route guard, form validation

A shallow embedding of the client-side logic of the UserDashboard repository
(`src/frontend/src`), followed by theorems about it.

Modelling conventions

* JavaScript values that travel through the code (response bodies, rejection
  reasons, parsed user snapshots) are values of `JVal`.  Numbers are restricted
  to integers; no claim depends on arithmetic.
* JavaScript strings are Lean strings.  `jsLength` is the `.length` of the
  string, counted in UTF-16 code units.  Lone surrogates are not representable.
* `localStorage` is an association list from keys to strings (`Storage`).
* An `await`ed HTTP call is represented by its settled outcome
  (`Except JVal JVal`): `.ok data` is a 2xx response whose `response.data` is
  `data`; `.error e` is a rejection with reason `e` (axios rejects non-2xx
  statuses, timeouts and network failures).  Each operation runs atomically:
  nothing else touches the store between the request and its continuation.
* `JSON.parse` is a platform function; it is taken as a parameter
  `parse : String → Except JVal JVal` (`.error e` is the thrown `SyntaxError`).
* `console.log` / `console.error` have no effect on the modelled state and are
  omitted, except where evaluating their arguments can throw.
* A component is its state record; a handler maps the state before the event to the
  state after its last update.  One run of a submit handler is summarised by a
  `Submission`: final state, store, requests, navigations, timers, and the value the
  handler raised, if any.
-/

namespace UserDashboard

/-! ## JavaScript values -/

/-- JavaScript values as they appear in JSON-derived data, plus `undefined`.
An `obj` lists the own properties in enumeration order. -/
inductive JVal where
  | undefined
  | null
  | bool (b : Bool)
  | num (n : Int)
  | str (s : String)
  | arr (xs : List JVal)
  | obj (props : List (String × JVal))

namespace JVal

/-- JavaScript truthiness (`ToBoolean`). -/
def truthy : JVal → Bool
  | undefined => false
  | null => false
  | bool b => b
  | num n => n != 0
  | str s => s != ""
  | arr _ => true
  | obj _ => true

/-- Whether the value is `null` or `undefined`. -/
def isNullish : JVal → Bool
  | undefined => true
  | null => true
  | _ => false

/-- Own-property lookup in a property list; `undefined` when the key is absent. -/
def lookup : List (String × JVal) → String → JVal
  | [], _ => undefined
  | (k, v) :: rest, key => if k = key then v else lookup rest key

/-- The `TypeError` raised by a property read on `null` or `undefined`. -/
def typeError (key : String) : JVal :=
  obj [("name", str "TypeError"),
       ("message", str ("Cannot read properties of null or undefined (reading " ++ key ++ ")"))]

/-- Property read `v.key` for the data property names the code uses (`token`, `user`,
`role`, `response`, ...): an own property of an object, `undefined` on any other
non-nullish value, and a thrown `TypeError` on `null` / `undefined`. -/
def getProp (v : JVal) (key : String) : Except JVal JVal :=
  match v with
  | undefined => .error (typeError key)
  | null => .error (typeError key)
  | obj props => .ok (lookup props key)
  | _ => .ok undefined

/-- Optional chaining `v?.key`: `undefined` on `null` / `undefined`, else the property. -/
def optProp (v : JVal) (key : String) : JVal :=
  match v with
  | obj props => lookup props key
  | _ => undefined

/-- Strict equality with a string literal: `v === s`. -/
def strictEqStr (v : JVal) (s : String) : Bool :=
  match v with
  | str t => t = s
  | _ => false

mutual
/-- JavaScript `ToString` coercion, `String(v)`. -/
def toStr : JVal → String
  | undefined => "undefined"
  | null => "null"
  | bool b => if b then "true" else "false"
  | num n => toString n
  | str s => s
  | arr xs => joinElems xs
  | obj _ => "[object Object]"
termination_by structural v => v
/-- The body of `Array.prototype.join(",")`: `null` and `undefined` elements give the
empty string. -/
def joinElems : List JVal → String
  | [] => ""
  | x :: rest =>
    (match x with
      | undefined => ""
      | null => ""
      | v => toStr v)
    ++ (match rest with
      | [] => ""
      | _ :: _ => ",")
    ++ joinElems rest
termination_by structural xs => xs
end

end JVal

/-! ## `JSON.stringify` -/

namespace JSON

/-- Lower-case hexadecimal digit. -/
def hexDigit (n : Nat) : Char :=
  if n < 10 then Char.ofNat (48 + n) else Char.ofNat (87 + n)

/-- Escaping of one character inside a JSON string literal (`QuoteJSONString`). -/
def quoteChar (c : Char) : List Char :=
  if c = '"' then ['\\', '"']
  else if c = '\\' then ['\\', '\\']
  else if c = '\x08' then ['\\', 'b']
  else if c = '\x0c' then ['\\', 'f']
  else if c = '\n' then ['\\', 'n']
  else if c = '\r' then ['\\', 'r']
  else if c = '\t' then ['\\', 't']
  else if c.toNat < 32 then ['\\', 'u', '0', '0', hexDigit (c.toNat / 16), hexDigit (c.toNat % 16)]
  else [c]

/-- A string as a JSON string literal. -/
def quote (s : String) : String :=
  "\"" ++ String.mk (s.data.flatMap quoteChar) ++ "\""

mutual
/-- The function `JSON.stringify(v)` on JSON-derived values; `none` is the result
`undefined`. -/
def stringify : JVal → Option String
  | .undefined => none
  | .null => some "null"
  | .bool b => some (if b then "true" else "false")
  | .num n => some (toString n)
  | .str s => some (quote s)
  | .arr xs => some ("[" ++ stringifyElems xs ++ "]")
  | .obj props => some ("\x7b" ++ stringifyProps props false ++ "\x7d")
termination_by structural v => v
/-- Array elements, comma separated; an `undefined` element is written `null`. -/
def stringifyElems : List JVal → String
  | [] => ""
  | x :: rest =>
    (match stringify x with
      | some s => s
      | none => "null")
    ++ (match rest with
      | [] => ""
      | _ :: _ => ",")
    ++ stringifyElems rest
termination_by structural xs => xs
/-- Object members, comma separated; a property whose value is `undefined` is skipped.
The flag records whether a member has already been written. -/
def stringifyProps : List (String × JVal) → Bool → String
  | [], _ => ""
  | (k, v) :: rest, started =>
    match stringify v with
    | none => stringifyProps rest started
    | some s => (if started then "," else "") ++ quote k ++ ":" ++ s ++ stringifyProps rest true
termination_by structural ps => ps
end

end JSON

/-- The string a `localStorage.setItem(key, JSON.stringify(v))` call stores: the
serialisation, or `"undefined"` when `JSON.stringify` returns `undefined`. -/
def serialise (v : JVal) : String :=
  match JSON.stringify v with
  | some s => s
  | none => "undefined"

/-! ## `localStorage` -/

/-- The browser key-value store: an association list of string entries. -/
abbrev Storage := List (String × String)

namespace Storage

/-- The call `localStorage.getItem(key)`; `none` is `null`. -/
def getItem : Storage → String → Option String
  | [], _ => none
  | (k, v) :: rest, key => if k = key then some v else getItem rest key

/-- The call `localStorage.setItem(key, value)`. -/
def setItem : Storage → String → String → Storage
  | [], key, value => [(key, value)]
  | (k, v) :: rest, key, value =>
    if k = key then (key, value) :: rest else (k, v) :: setItem rest key value

/-- The call `localStorage.removeItem(key)`. -/
def removeItem : Storage → String → Storage
  | [], _ => []
  | (k, v) :: rest, key =>
    if k = key then removeItem rest key else (k, v) :: removeItem rest key

end Storage

/-- Truthiness of the result of `localStorage.getItem`: `null` and the empty string
are falsy. -/
def strTruthy : Option String → Bool
  | none => false
  | some s => s != ""

/-! ## API client (`services/authService.js`, lines 1-27) -/

/-- An axios request configuration, with the fields the client sets. -/
structure RequestConfig where
  baseURL : String
  method : String
  url : String
  data : JVal
  headers : List (String × String)
  withCredentials : Bool
  timeout : Nat

/-- Base API URL. -/
def API_URL : String := "https://userdashboard-backend-x12r.onrender.com/api"

/-- The request interceptor registered with `api.interceptors.request.use`:
`if (token) config.headers.Authorization = "Bearer " + token; return config`. -/
def requestInterceptor (st : Storage) (config : RequestConfig) : RequestConfig :=
  match st.getItem "token" with
  | some token =>
    if strTruthy (some token) then
      { config with headers := Storage.setItem config.headers "Authorization" ("Bearer " ++ token) }
    else config
  | none => config

namespace api

/-- The configuration `axios.create` gives a request before the interceptor runs. -/
def defaults (method url : String) (data : JVal) : RequestConfig :=
  { baseURL := API_URL
    method := method
    url := url
    data := data
    headers := [("Content-Type", "application/json")]
    withCredentials := false
    timeout := 30000 }

/-- The request handed to the transport by `api.get` / `api.post` / `api.put`. -/
def request (st : Storage) (method url : String) (data : JVal) : RequestConfig :=
  requestInterceptor st (defaults method url data)

end api

/-- What an asynchronous operation leaves behind: the store, the requests it issued,
and whether its promise resolved (`.ok v`) or rejected (`.error e`). -/
structure Effect where
  store : Storage
  calls : List RequestConfig
  result : Except JVal JVal

/-! ## Auth service (`services/authService.js`, lines 29-120) -/

namespace authService

/-- The `catch` blocks of `login` and `signup`: they log `error.response` and rethrow.
Reading `error.response` itself throws when the caught value is `null` or `undefined`. -/
def rethrow (error : JVal) : Except JVal JVal :=
  match error.getProp "response" with
  | .ok _ => .error error
  | .error typeErr => .error typeErr

/-- The `try` body of `login` and `signup` once the request has resolved with `data`. -/
def persist (st : Storage) (call : RequestConfig) (data : JVal) : Effect :=
  match data.getProp "token" with
  | .error e => { store := st, calls := [call], result := rethrow e }
  | .ok token =>
    if token.truthy then
      let st1 := st.setItem "token" token.toStr
      match data.getProp "user" with
      | .error e => { store := st1, calls := [call], result := rethrow e }
      | .ok user =>
        { store := st1.setItem "user" (serialise user), calls := [call], result := .ok data }
    else { store := st, calls := [call], result := .ok data }

/-- The method `authService.login(email, password)`, given the outcome of
`api.post('/auth/login', { email, password })`. -/
def login (st : Storage) (email password : String) (outcome : Except JVal JVal) : Effect :=
  let call := api.request st "post" "/auth/login"
    (.obj [("email", .str email), ("password", .str password)])
  match outcome with
  | .ok data => persist st call data
  | .error e => { store := st, calls := [call], result := rethrow e }

/-- The method `authService.signup(fullName, email, password)`, given the outcome of
`api.post('/auth/signup', { fullName, email, password })`. -/
def signup (st : Storage) (fullName email password : String)
    (outcome : Except JVal JVal) : Effect :=
  let call := api.request st "post" "/auth/signup"
    (.obj [("fullName", .str fullName), ("email", .str email), ("password", .str password)])
  match outcome with
  | .ok data => persist st call data
  | .error e => { store := st, calls := [call], result := rethrow e }

/-- The method `authService.logout()`.  The request is issued only when the stored
token is truthy; `outcome` is then the outcome of `api.post('/auth/logout')`.  The
`catch` block swallows a rejection and the `finally` block removes both entries. -/
def logout (st : Storage) (outcome : Except JVal JVal) : Effect :=
  let cleared := (st.removeItem "token").removeItem "user"
  if strTruthy (st.getItem "token") then
    match outcome with
    | .ok _ =>
      { store := cleared, calls := [api.request st "post" "/auth/logout" .undefined],
        result := .ok .undefined }
    | .error _ =>
      { store := cleared, calls := [api.request st "post" "/auth/logout" .undefined],
        result := .ok .undefined }
  else { store := cleared, calls := [], result := .ok .undefined }

/-- The method `authService.getCurrentUser()`:
`userStr ? JSON.parse(userStr) : null`. -/
def getCurrentUser (parse : String → Except JVal JVal) (st : Storage) : Except JVal JVal :=
  match st.getItem "user" with
  | some userStr => if strTruthy (some userStr) then parse userStr else .ok .null
  | none => .ok .null

/-- The method `authService.getUserInfo()`, given the outcome of `api.get('/auth/me')`. -/
def getUserInfo (st : Storage) (outcome : Except JVal JVal) : Effect :=
  let call := api.request st "get" "/auth/me" .undefined
  match outcome with
  | .ok data =>
    if data.truthy then
      { store := st.setItem "user" (serialise data), calls := [call], result := .ok data }
    else { store := st, calls := [call], result := .ok data }
  | .error e => { store := st, calls := [call], result := .error e }

/-- The method `authService.getToken()`. -/
def getToken (st : Storage) : Option String :=
  st.getItem "token"

/-- The method `authService.isAuthenticated()`: `!!localStorage.getItem('token')`. -/
def isAuthenticated (st : Storage) : Bool :=
  strTruthy (st.getItem "token")

end authService

/-! ## Admin-only route guard (`components/AdminRoute.jsx`) -/

/-- What a route guard renders: a redirect `<Navigate to=... />` or its children. -/
inductive Rendered (α : Type) where
  | navigate (path : String)
  | children (c : α)

/-- The component `AdminRoute`.  `.error e` means rendering threw `e`
(`getCurrentUser` is called before any check). -/
def AdminRoute {α : Type} (parse : String → Except JVal JVal) (st : Storage)
    (children : α) : Except JVal (Rendered α) :=
  let isAuthenticated := authService.isAuthenticated st
  match authService.getCurrentUser parse st with
  | .error e => .error e
  | .ok user =>
    if !isAuthenticated then .ok (.navigate "/login")
    else if !(user.optProp "role").strictEqStr "admin" then .ok (.navigate "/dashboard")
    else .ok (.children children)

/-! ## Strings and regular expressions -/

/-- The `.length` of a JavaScript string: the number of UTF-16 code units. -/
def jsLength (s : String) : Nat :=
  (s.data.map (fun c => if c.toNat < 65536 then 1 else 2)).sum

/-- JavaScript white space and line terminators: the characters matched by `\s` and
stripped by `String.prototype.trim`. -/
def isWhiteSpace (c : Char) : Bool :=
  let n := c.toNat
  n == 9 || n == 10 || n == 11 || n == 12 || n == 13 || n == 32 || n == 160 || n == 5760
    || (8192 ≤ n && n ≤ 8202) || n == 8232 || n == 8233 || n == 8239 || n == 8287
    || n == 12288 || n == 65279

/-- The class `\S`. -/
def nonSpace (c : Char) : Bool := !isWhiteSpace c

/-- Line terminators: LF, CR, U+2028, U+2029. -/
def isLineTerminator (c : Char) : Bool :=
  let n := c.toNat
  n == 10 || n == 13 || n == 8232 || n == 8233

/-- The class `.` (no `s` flag): any character but a line terminator. -/
def dot (c : Char) : Bool := !isLineTerminator c

/-- The class `[a-z]`. -/
def isLower (c : Char) : Bool := 97 ≤ c.toNat && c.toNat ≤ 122

/-- The class `[A-Z]`. -/
def isUpper (c : Char) : Bool := 65 ≤ c.toNat && c.toNat ≤ 90

/-- The class `\d`. -/
def isDigit (c : Char) : Bool := 48 ≤ c.toNat && c.toNat ≤ 57

/-- The method `String.prototype.trim`. -/
def trim (s : String) : String :=
  String.mk ((s.data.dropWhile isWhiteSpace).reverse.dropWhile isWhiteSpace).reverse

/-- The fragment of JavaScript regular expressions the source uses: single
character classes, their `*` and `+` repetitions, sequencing and positive lookahead. -/
inductive RegExp where
  | cls (p : Char → Bool)
  | star (p : Char → Bool)
  | plus (p : Char → Bool)
  | seq (r q : RegExp)
  | look (r : RegExp)

namespace RegExp

/-- All ways `p*` can match at the start of the input: the remaining inputs. -/
def starEnds (p : Char → Bool) : List Char → List (List Char)
  | [] => [[]]
  | c :: t => (c :: t) :: (if p c then starEnds p t else [])

/-- All ways the expression can match at the start of the input, each given by the
input that remains after the match. -/
def ends : RegExp → List Char → List (List Char)
  | cls _, [] => []
  | cls p, c :: t => if p c then [t] else []
  | star p, s => starEnds p s
  | plus _, [] => []
  | plus p, c :: t => if p c then starEnds p t else []
  | seq r q, s => (ends r s).flatMap (ends q)
  | look r, s => if (ends r s).isEmpty then [] else [s]

/-- Whether the expression matches at the start of the input. -/
def matchesAt (r : RegExp) (s : List Char) : Bool := !(ends r s).isEmpty

/-- Whether the expression matches at some position of the input. -/
def search (r : RegExp) : List Char → Bool
  | [] => matchesAt r []
  | c :: t => matchesAt r (c :: t) || search r t

/-- The method `RegExp.prototype.test` of an expression without flags: an unanchored
search of the string. -/
def test (r : RegExp) (s : String) : Bool := search r s.data

end RegExp

/-- The literal `/\S+@\S+\.\S+/` of `Login.jsx` line 21, `Signup.jsx` line 64 and
`UserProfile.jsx` line 90. -/
def emailRegExp : RegExp :=
  .seq (.plus nonSpace) (.seq (.cls (· == '@')) (.seq (.plus nonSpace)
    (.seq (.cls (· == '.')) (.plus nonSpace))))

/-- The literal `/(?=.*[a-z])(?=.*[A-Z])/` of `Signup.jsx` line 73. -/
def mixedCaseRegExp : RegExp :=
  .seq (.look (.seq (.star dot) (.cls isLower))) (.look (.seq (.star dot) (.cls isUpper)))

/-- The literal `/(?=.*\d)/` of `Signup.jsx` line 75. -/
def digitRegExp : RegExp :=
  .look (.seq (.star dot) (.cls isDigit))

/-! ## Login form (`pages/Login.jsx`) -/

namespace Login

/-- The state `formData`. -/
structure FormData where
  email : String
  password : String

/-- The object `errors`; `none` is an absent key. -/
structure Errors where
  email : Option String
  password : Option String
deriving DecidableEq

/-- The email branch of `validateForm`. -/
def emailError (email : String) : Option String :=
  if trim email == "" then some "Email is required"
  else if !emailRegExp.test email then some "Email is invalid"
  else none

/-- The password branch of `validateForm`. -/
def passwordError (password : String) : Option String :=
  if password == "" then some "Password is required"
  else if jsLength password < 6 then some "Password must be at least 6 characters"
  else none

/-- The function `validateForm`: the object passed to `setErrors` and the returned flag
`Object.keys(newErrors).length === 0`. -/
def validateForm (formData : FormData) : Errors × Bool :=
  let newErrors : Errors :=
    { email := emailError formData.email, password := passwordError formData.password }
  (newErrors, newErrors.email.isNone && newErrors.password.isNone)

end Login

/-! ## Signup form (`pages/Signup.jsx`) -/

namespace Signup

/-- The state `formData`. -/
structure FormData where
  fullName : String
  email : String
  password : String
  confirmPassword : String

/-- The object `errors`; `none` is an absent key. -/
structure Errors where
  fullName : Option String
  email : Option String
  password : Option String
  confirmPassword : Option String
deriving DecidableEq

/-- The full-name branch of `validateForm`. -/
def fullNameError (fullName : String) : Option String :=
  if trim fullName == "" then some "Full name is required"
  else if jsLength (trim fullName) < 2 then some "Full name must be at least 2 characters"
  else none

/-- The email branch of `validateForm`. -/
def emailError (email : String) : Option String :=
  if trim email == "" then some "Email is required"
  else if !emailRegExp.test email then some "Email format is invalid"
  else none

/-- The password branch of `validateForm`. -/
def passwordError (password : String) : Option String :=
  if password == "" then some "Password is required"
  else if jsLength password < 8 then some "Password must be at least 8 characters"
  else if !mixedCaseRegExp.test password then
    some "Password must contain uppercase and lowercase letters"
  else if !digitRegExp.test password then some "Password must contain at least one number"
  else none

/-- The confirm-password branch of `validateForm`. -/
def confirmPasswordError (password confirmPassword : String) : Option String :=
  if confirmPassword == "" then some "Please confirm your password"
  else if password != confirmPassword then some "Passwords do not match"
  else none

/-- The function `validateForm`: the object passed to `setErrors` and the returned flag
`Object.keys(newErrors).length === 0`. -/
def validateForm (formData : FormData) : Errors × Bool :=
  let newErrors : Errors :=
    { fullName := fullNameError formData.fullName
      email := emailError formData.email
      password := passwordError formData.password
      confirmPassword := confirmPasswordError formData.password formData.confirmPassword }
  (newErrors, newErrors.fullName.isNone && newErrors.email.isNone
    && newErrors.password.isNone && newErrors.confirmPassword.isNone)

end Signup

/-! ## Profile screen (`pages/UserProfile.jsx`): the parts that write the store -/

namespace UserProfile

/-- The state `profileData`. -/
structure ProfileData where
  fullName : String
  email : String

/-- The keys `validateProfile` can set in `errors`; `none` is an absent key. -/
structure ProfileErrors where
  fullName : Option String
  email : Option String
deriving DecidableEq

/-- The function `validateProfile`. -/
def validateProfile (profileData : ProfileData) : ProfileErrors × Bool :=
  let newErrors : ProfileErrors :=
    { fullName := if trim profileData.fullName == "" then some "Full name is required" else none
      email :=
        if trim profileData.email == "" then some "Email is required"
        else if !emailRegExp.test profileData.email then some "Email format is invalid"
        else none }
  (newErrors, newErrors.fullName.isNone && newErrors.email.isNone)

/-- The background fetch of the mount effect (lines 41-51), given the outcome of
`api.get('/profile')`.  The `then` callback reads `profileData.fullName` before it
writes the store, so a `null` / `undefined` body throws into the `catch`, which only
logs.  The effect starts this fetch only when `getCurrentUser()` returned a truthy
value. -/
def fetchProfile (st : Storage) (outcome : Except JVal JVal) : Effect :=
  let call := api.request st "get" "/profile" .undefined
  match outcome with
  | .ok profileData =>
    match profileData.getProp "fullName" with
    | .ok _ =>
      { store := st.setItem "user" (serialise profileData), calls := [call],
        result := .ok .undefined }
    | .error _ => { store := st, calls := [call], result := .ok .undefined }
  | .error _ => { store := st, calls := [call], result := .ok .undefined }

/-- The store, request and completion of `handleSaveProfile` (lines 121-137), given the
outcome of `api.put('/profile', profileData)`.  The `catch` block reads
`error.response`, which throws when the caught value is `null` or `undefined`. -/
def handleSaveProfile (st : Storage) (profileData : ProfileData)
    (outcome : Except JVal JVal) : Effect :=
  if !(validateProfile profileData).2 then { store := st, calls := [], result := .ok .undefined }
  else
    let call := api.request st "put" "/profile"
      (.obj [("fullName", .str profileData.fullName), ("email", .str profileData.email)])
    match outcome with
    | .ok response =>
      { store := st.setItem "user" (serialise response), calls := [call],
        result := .ok .undefined }
    | .error error =>
      match error.getProp "response" with
      | .ok _ => { store := st, calls := [call], result := .ok .undefined }
      | .error typeErr => { store := st, calls := [call], result := .error typeErr }

end UserProfile

/-! ## Sequences of store-writing operations -/

/-- One client operation that writes the session store, with its arguments and the
outcome of the request it awaits. -/
inductive SessionOp where
  | login (email password : String) (outcome : Except JVal JVal)
  | signup (fullName email password : String) (outcome : Except JVal JVal)
  | logout (outcome : Except JVal JVal)
  | getUserInfo (outcome : Except JVal JVal)
  | fetchProfile (outcome : Except JVal JVal)
  | saveProfile (profileData : UserProfile.ProfileData) (outcome : Except JVal JVal)

namespace SessionOp

/-- The store after one operation. -/
def run (st : Storage) : SessionOp → Storage
  | login email password outcome => (authService.login st email password outcome).store
  | signup fullName email password outcome =>
    (authService.signup st fullName email password outcome).store
  | logout outcome => (authService.logout st outcome).store
  | getUserInfo outcome => (authService.getUserInfo st outcome).store
  | fetchProfile outcome => (UserProfile.fetchProfile st outcome).store
  | saveProfile profileData outcome =>
    (UserProfile.handleSaveProfile st profileData outcome).store

/-- The store after a sequence of operations, run from left to right. -/
def runAll (st : Storage) : List SessionOp → Storage
  | [] => st
  | op :: rest => runAll (run st op) rest

/-- The operations that write `user` but never `token`. -/
def refreshesUser : SessionOp → Bool
  | getUserInfo _ => true
  | fetchProfile _ => true
  | saveProfile _ _ => true
  | _ => false

end SessionOp

/-- A `token` entry is present in the store. -/
def hasToken (st : Storage) : Bool := (st.getItem "token").isSome

/-- A `user` entry is present in the store. -/
def hasUser (st : Storage) : Bool := (st.getItem "user").isSome

/-- The session invariant: `user` is present only if `token` is present. -/
def SessionInvariant (st : Storage) : Prop := hasUser st = true → hasToken st = true

/-- Every `getUserInfo`, profile fetch and profile save of the sequence runs in a store
that holds a `token` entry. -/
def RefreshesHaveToken (st : Storage) : List SessionOp → Prop
  | [] => True
  | op :: rest =>
    (op.refreshesUser = true → hasToken st = true) ∧ RefreshesHaveToken (op.run st) rest

/-- The shape `<non-space>+ @ <non-space>+ . <non-space>+` of a whole character
sequence. -/
def EmailShape (l : List Char) : Prop :=
  ∃ a b c : List Char, a ≠ [] ∧ b ≠ [] ∧ c ≠ [] ∧
    (∀ x ∈ a, nonSpace x = true) ∧ (∀ x ∈ b, nonSpace x = true) ∧ (∀ x ∈ c, nonSpace x = true) ∧
    l = a ++ '@' :: (b ++ '.' :: c)

/-! ## Form screens: shared parts -/

/-- The method `String.prototype.includes` on character sequences. -/
def includesChars (needle : List Char) : List Char → Bool
  | [] => needle.isPrefixOf []
  | c :: t => needle.isPrefixOf (c :: t) || includesChars needle t

namespace JVal

/-- The call `v.includes(needle)` with a string argument: substring search on a string,
element search on an array, and a thrown `TypeError` on every other value (`undefined`
and `null` have no properties; numbers, booleans and JSON-derived objects have no
callable `includes`). -/
def includes (v : JVal) (needle : String) : Except JVal Bool :=
  match v with
  | str s => .ok (includesChars needle.data s.data)
  | arr xs => .ok (xs.any (fun x => x.strictEqStr needle))
  | _ => .error (typeError "includes")

end JVal

/-- What one run of a submit handler leaves behind: the component state after the last
state update, the store, the requests issued, the `navigate(path)` calls made, the
`setTimeout(() => navigate(path), ms)` timers started, and, when the handler's promise
rejected, the value it rejected with. -/
structure Submission (σ : Type) where
  state : σ
  store : Storage
  calls : List RequestConfig
  navigations : List String
  timers : List (Nat × String)
  raised : Option JVal

/-- The message-selection chain shared by the `catch` blocks of the login and signup
handlers (`Login.jsx` lines 77-91, `Signup.jsx` lines 136-150), entered with a caught
value that is not `null` / `undefined`; `fallback` is the initial `errorMessage`.
`.error e` means the chain itself threw `e`. -/
def selectErrorMessage (fallback : String) (error : JVal) : Except JVal JVal :=
  match error.getProp "code" with
  | .error typeErr => .error typeErr
  | .ok code =>
    if code.strictEqStr "ERR_NETWORK" then
      .ok (.str "Network error. Please check your connection or try again later.")
    else
      match error.getProp "message" with
      | .error typeErr => .error typeErr
      | .ok message =>
        match message.includes "CORS" with
        | .error typeErr => .error typeErr
        | .ok true => .ok (.str "Server configuration issue. Please contact support.")
        | .ok false =>
          let data := (error.optProp "response").optProp "data"
          if (data.optProp "message").truthy then .ok (data.optProp "message")
          else if ((data.optProp "error").optProp "message").truthy then
            .ok ((data.optProp "error").optProp "message")
          else if (data.optProp "error").truthy then .ok (data.optProp "error")
          else if message.truthy then .ok message
          else .ok (.str fallback)

/-! ## Login screen: state and handlers (`pages/Login.jsx`) -/

namespace Login

/-- The `name` attributes of the two inputs. -/
inductive Field where
  | email
  | password
deriving DecidableEq

/-- The component state: `formData`, `errors`, `serverError`, `isLoading`. -/
structure State where
  formData : FormData
  errors : Errors
  serverError : JVal
  isLoading : Bool

/-- The state on mount. -/
def initial : State :=
  { formData := { email := "", password := "" }
    errors := { email := none, password := none }
    serverError := .str ""
    isLoading := false }

/-- The read `formData[name]`. -/
def FormData.get (formData : FormData) : Field → String
  | .email => formData.email
  | .password => formData.password

/-- The object `{ ...formData, [name]: value }`. -/
def FormData.set (formData : FormData) (name : Field) (value : String) : FormData :=
  match name with
  | .email => { formData with email := value }
  | .password => { formData with password := value }

/-- The read `errors[name]`. -/
def Errors.get (errors : Errors) : Field → Option String
  | .email => errors.email
  | .password => errors.password

/-- The object `{ ...errors, [name]: message }`. -/
def Errors.set (errors : Errors) (name : Field) (message : String) : Errors :=
  match name with
  | .email => { errors with email := some message }
  | .password => { errors with password := some message }

/-- The function `handleChange` for a change event of the input `name` with the new
`value`. -/
def handleChange (s : State) (name : Field) (value : String) : State :=
  { s with
    formData := s.formData.set name value
    errors := if strTruthy (s.errors.get name) then s.errors.set name "" else s.errors
    serverError := .str "" }

/-- The `catch` block of `handleSubmit` up to `setServerError`: it logs `error.response`
(a throwing read when the caught value is `null` / `undefined`) and selects the
message. -/
def errorMessage (error : JVal) : Except JVal JVal :=
  match error.getProp "response" with
  | .error typeErr => .error typeErr
  | .ok _ => selectErrorMessage "Login failed. Please try again." error

/-- The `catch` and `finally` blocks of `handleSubmit`. -/
def handleFailure (s : State) (store : Storage) (calls : List RequestConfig)
    (error : JVal) : Submission State :=
  match errorMessage error with
  | .ok message =>
    { state := { s with serverError := message, isLoading := false }
      store := store, calls := calls, navigations := [], timers := [], raised := none }
  | .error typeErr =>
    { state := { s with isLoading := false }
      store := store, calls := calls, navigations := [], timers := [], raised := some typeErr }

/-- The function `handleSubmit`, given the outcome of the request `authService.login`
awaits. -/
def handleSubmit (s : State) (st : Storage) (outcome : Except JVal JVal) : Submission State :=
  let validation := validateForm s.formData
  let s1 : State := { s with serverError := .str "", errors := validation.1 }
  if !validation.2 then
    { state := s1, store := st, calls := [], navigations := [], timers := [], raised := none }
  else
    let login := authService.login st s.formData.email s.formData.password outcome
    match login.result with
    | .error error => handleFailure s1 login.store login.calls error
    | .ok result =>
      match result.getProp "user" with
      | .error typeErr => handleFailure s1 login.store login.calls typeErr
      | .ok user =>
        match user.getProp "role" with
        | .error typeErr => handleFailure s1 login.store login.calls typeErr
        | .ok role =>
          { state := { s1 with isLoading := false }
            store := login.store
            calls := login.calls
            navigations := [if role.strictEqStr "admin" then "/admin" else "/dashboard"]
            timers := []
            raised := none }

end Login

/-! ## Signup screen: state and handlers (`pages/Signup.jsx`) -/

namespace Signup

/-- The object returned by `calculatePasswordStrength`. -/
structure PasswordStrength where
  strength : Nat
  text : String
  color : String
deriving DecidableEq

/-- The class `[^a-zA-Z\d]`. -/
def isSymbol (c : Char) : Bool := !(isLower c || isUpper c || isDigit c)

/-- The score computed by the first part of `calculatePasswordStrength` (lines 24-29). -/
def strengthScore (password : String) : Nat :=
  let strength := 0
  let strength := if 8 ≤ jsLength password then strength + 25 else strength
  let strength := if 12 ≤ jsLength password then strength + 25 else strength
  let strength :=
    if (RegExp.cls isLower).test password && (RegExp.cls isUpper).test password then strength + 25
    else strength
  let strength := if (RegExp.cls isDigit).test password then strength + 15 else strength
  let strength := if (RegExp.cls isSymbol).test password then strength + 10 else strength
  strength

/-- The function `calculatePasswordStrength`. -/
def calculatePasswordStrength (password : String) : PasswordStrength :=
  let strength := strengthScore password
  if strength < 30 then { strength := strength, text := "Weak", color := "#ef4444" }
  else if strength < 60 then { strength := strength, text := "Fair", color := "#f59e0b" }
  else if strength < 80 then { strength := strength, text := "Good", color := "#3b82f6" }
  else { strength := strength, text := "Strong", color := "#10b981" }

/-- The `name` attributes of the four inputs. -/
inductive Field where
  | fullName
  | email
  | password
  | confirmPassword
deriving DecidableEq

/-- The component state: `formData`, `errors`, `serverError`, `successMessage`,
`isLoading`, `passwordStrength`. -/
structure State where
  formData : FormData
  errors : Errors
  serverError : JVal
  successMessage : String
  isLoading : Bool
  passwordStrength : PasswordStrength

/-- The state on mount. -/
def initial : State :=
  { formData := { fullName := "", email := "", password := "", confirmPassword := "" }
    errors := { fullName := none, email := none, password := none, confirmPassword := none }
    serverError := .str ""
    successMessage := ""
    isLoading := false
    passwordStrength := { strength := 0, text := "", color := "" } }

/-- The read `formData[name]`. -/
def FormData.get (formData : FormData) : Field → String
  | .fullName => formData.fullName
  | .email => formData.email
  | .password => formData.password
  | .confirmPassword => formData.confirmPassword

/-- The object `{ ...formData, [name]: value }`. -/
def FormData.set (formData : FormData) (name : Field) (value : String) : FormData :=
  match name with
  | .fullName => { formData with fullName := value }
  | .email => { formData with email := value }
  | .password => { formData with password := value }
  | .confirmPassword => { formData with confirmPassword := value }

/-- The read `errors[name]`. -/
def Errors.get (errors : Errors) : Field → Option String
  | .fullName => errors.fullName
  | .email => errors.email
  | .password => errors.password
  | .confirmPassword => errors.confirmPassword

/-- The object `{ ...errors, [name]: message }`. -/
def Errors.set (errors : Errors) (name : Field) (message : String) : Errors :=
  match name with
  | .fullName => { errors with fullName := some message }
  | .email => { errors with email := some message }
  | .password => { errors with password := some message }
  | .confirmPassword => { errors with confirmPassword := some message }

/-- The function `handleChange` for a change event of the input `name` with the new
`value`. -/
def handleChange (s : State) (name : Field) (value : String) : State :=
  { s with
    formData := s.formData.set name value
    passwordStrength :=
      if name = .password then calculatePasswordStrength value else s.passwordStrength
    errors := if strTruthy (s.errors.get name) then s.errors.set name "" else s.errors
    serverError := .str "" }

/-- The `catch` block of `handleSubmit` up to `setServerError`. -/
def errorMessage (error : JVal) : Except JVal JVal :=
  selectErrorMessage "Signup failed. Please try again." error

/-- The `catch` and `finally` blocks of `handleSubmit`. -/
def handleFailure (s : State) (store : Storage) (calls : List RequestConfig)
    (error : JVal) : Submission State :=
  match errorMessage error with
  | .ok message =>
    { state := { s with serverError := message, isLoading := false }
      store := store, calls := calls, navigations := [], timers := [], raised := none }
  | .error typeErr =>
    { state := { s with isLoading := false }
      store := store, calls := calls, navigations := [], timers := [], raised := some typeErr }

/-- The function `handleSubmit`, given the outcome of the request `authService.signup`
awaits.  On success it sets the success message and starts the timer
`setTimeout(() => navigate('/login'), 2000)`. -/
def handleSubmit (s : State) (st : Storage) (outcome : Except JVal JVal) : Submission State :=
  let validation := validateForm s.formData
  let s1 : State := { s with serverError := .str "", successMessage := "", errors := validation.1 }
  if !validation.2 then
    { state := s1, store := st, calls := [], navigations := [], timers := [], raised := none }
  else
    let signup := authService.signup st s.formData.fullName s.formData.email
      s.formData.password outcome
    match signup.result with
    | .error error => handleFailure s1 signup.store signup.calls error
    | .ok _ =>
      { state :=
          { s1 with
            successMessage := "Account created successfully! Redirecting to login..."
            isLoading := false }
        store := signup.store
        calls := signup.calls
        navigations := []
        timers := [(2000, "/login")]
        raised := none }

end Signup

/-- The priority order by which the login and signup handlers pick the server-error
message `selected` for a caught error whose `message` is the string `message`:
the network text when `error.code` is `ERR_NETWORK`; else the configuration text when the
message contains `CORS`; else the first truthy one of `response.data.message`,
`response.data.error.message`, `response.data.error`; else the message when it is not
empty; else the fallback text of the screen. -/
def FollowsMessagePriority (fallback : String) (error : JVal) (message : String)
    (selected : JVal) : Prop :=
  let network := (error.optProp "code").strictEqStr "ERR_NETWORK"
  let cors := includesChars "CORS".data message.data
  let data := (error.optProp "response").optProp "data"
  (network = true →
    selected = .str "Network error. Please check your connection or try again later.") ∧
  (network = false → cors = true →
    selected = .str "Server configuration issue. Please contact support.") ∧
  (network = false → cors = false → (data.optProp "message").truthy = true →
    selected = data.optProp "message") ∧
  (network = false → cors = false → (data.optProp "message").truthy = false →
    ((data.optProp "error").optProp "message").truthy = true →
    selected = (data.optProp "error").optProp "message") ∧
  (network = false → cors = false → (data.optProp "message").truthy = false →
    ((data.optProp "error").optProp "message").truthy = false →
    (data.optProp "error").truthy = true → selected = data.optProp "error") ∧
  (network = false → cors = false → (data.optProp "message").truthy = false →
    ((data.optProp "error").optProp "message").truthy = false →
    (data.optProp "error").truthy = false → message ≠ "" → selected = .str message) ∧
  (network = false → cors = false → (data.optProp "message").truthy = false →
    ((data.optProp "error").optProp "message").truthy = false →
    (data.optProp "error").truthy = false → message = "" → selected = .str fallback)

/-! ## Notifications (`components/Notification.jsx`) -/

/-- One entry `{ id, message, type }` of the `notifications` state. -/
structure Notification where
  id : Nat
  message : JVal
  type : String

/-- The module counter `notificationId` together with the `notifications` state of one
`useNotification` instance. -/
structure NotificationQueue where
  notificationId : Nat
  notifications : List Notification

namespace NotificationQueue

/-- The function `addNotification(message, type)`: `id = notificationId++`, then the
entry is appended.  It also starts the timer
`setTimeout(() => removeNotification(id), 5000)`, whose firing is a later
`removeNotification`. -/
def addNotification (q : NotificationQueue) (message : JVal) (type : String) :
    NotificationQueue :=
  { notificationId := q.notificationId + 1
    notifications := q.notifications ++ [{ id := q.notificationId, message := message, type := type }] }

/-- The function `removeNotification(id)`: `prev.filter((n) => n.id !== id)`. -/
def removeNotification (q : NotificationQueue) (id : Nat) : NotificationQueue :=
  { q with notifications := q.notifications.filter (fun n => n.id != id) }

/-- The function `showSuccess(message)`. -/
def showSuccess (q : NotificationQueue) (message : JVal) : NotificationQueue :=
  q.addNotification message "success"

/-- The function `showError(message)`. -/
def showError (q : NotificationQueue) (message : JVal) : NotificationQueue :=
  q.addNotification message "error"

end NotificationQueue

/-- One operation on a notification queue: an `addNotification`, or a
`removeNotification` (by the close button or by the expiry timer). -/
inductive NotificationOp where
  | add (message : JVal) (type : String)
  | remove (id : Nat)

namespace NotificationOp

/-- The queue after one operation. -/
def run (q : NotificationQueue) : NotificationOp → NotificationQueue
  | add message type => q.addNotification message type
  | remove id => q.removeNotification id

/-- The queue after a sequence of operations, run from left to right. -/
def runAll (q : NotificationQueue) : List NotificationOp → NotificationQueue
  | [] => q
  | op :: rest => runAll (run q op) rest

/-- The notifications a sequence adds, in the order it adds them, when the counter
stands at `counter` before the sequence. -/
def added (counter : Nat) : List NotificationOp → List Notification
  | [] => []
  | add message type :: rest =>
    { id := counter, message := message, type := type } :: added (counter + 1) rest
  | remove _ :: rest => added counter rest

/-- The ids a sequence removes. -/
def removed : List NotificationOp → List Nat
  | [] => []
  | add _ _ :: rest => removed rest
  | remove id :: rest => id :: removed rest

/-- Every removal of the sequence names an id that has been issued before it (the close
button and the expiry timer only know ids of notifications already added), the counter
standing at `counter` before the sequence. -/
def RemovesIssued (counter : Nat) : List NotificationOp → Prop
  | [] => True
  | add _ _ :: rest => RemovesIssued (counter + 1) rest
  | remove id :: rest => id < counter ∧ RemovesIssued counter rest

end NotificationOp

/-! ## Confirmation dialog (`components/ConfirmDialog.jsx`) -/

namespace ConfirmDialog

/-- The `onClick` of the cancel button: `onClose`. -/
def cancelClick {σ : Type} (onClose : σ → σ) : σ → σ := onClose

/-- The `onClick` of the confirm button: `() => { onConfirm(); onClose(); }`. -/
def confirmClick {σ : Type} (onConfirm onClose : σ → σ) : σ → σ :=
  fun s => onClose (onConfirm s)

/-- The two callbacks of the dialog, as entries of a call log. -/
inductive Callback where
  | onConfirm
  | onClose
deriving DecidableEq

/-- A callback that does nothing but record its call at the end of the log. -/
def record (c : Callback) (log : List Callback) : List Callback := log ++ [c]

end ConfirmDialog

/-- The expression
`error.response?.data?.message || error.response?.data?.error?.message || fallback`
of the `catch` blocks of the admin and profile screens.  `.error e` means the read of
`error.response` threw (the caught value is `null` / `undefined`). -/
def failureMessage (fallback : String) (error : JVal) : Except JVal JVal :=
  match error.getProp "response" with
  | .error typeErr => .error typeErr
  | .ok response =>
    let data := response.optProp "data"
    if (data.optProp "message").truthy then .ok (data.optProp "message")
    else if ((data.optProp "error").optProp "message").truthy then
      .ok ((data.optProp "error").optProp "message")
    else .ok (.str fallback)

/-! ## Admin screen (`pages/AdminDashboard.jsx`) -/

namespace AdminDashboard

/-- The two values `openConfirmDialog` is called with: `'activate'`, `'deactivate'`. -/
inductive DialogAction where
  | activate
  | deactivate
deriving DecidableEq

/-- The state `confirmDialog`; `action := none` is `null`. -/
structure ConfirmDialogState where
  isOpen : Bool
  action : Option DialogAction
  user : JVal

/-- The body of `GET /users`, well-typed as the API declares it: `items` an array,
`total` and `pages` integers; `none` is an absent field. -/
structure UsersPage where
  items : Option (List JVal)
  total : Option Int
  pages : Option Int

/-- The component state (the never-written `selectedUser` is left out); `queue` is the
state of `useNotification`. -/
structure State where
  users : List JVal
  currentPage : Int
  totalPages : Int
  totalUsers : Int
  isLoading : Bool
  confirmDialog : ConfirmDialogState
  queue : NotificationQueue

/-- The constant `usersPerPage`. -/
def usersPerPage : Int := 10

/-- The state on mount, the notification counter standing at `notificationId`. -/
def initial (notificationId : Nat) : State :=
  { users := []
    currentPage := 1
    totalPages := 1
    totalUsers := 0
    isLoading := false
    confirmDialog := { isOpen := false, action := none, user := .null }
    queue := { notificationId := notificationId, notifications := [] } }

/-- The request of `userService.getAllUsers(page, limit)`. -/
def usersRequest (st : Storage) (page limit : Int) : RequestConfig :=
  api.request st "get" ("/users?page=" ++ toString page ++ "&limit=" ++ toString limit)
    .undefined

/-- The function `fetchUsers(page)`, given the outcome of `userService.getAllUsers`. -/
def fetchUsers (s : State) (st : Storage) (page : Int)
    (outcome : Except JVal UsersPage) : Submission State :=
  let call := usersRequest st page usersPerPage
  match outcome with
  | .ok response =>
    { state :=
        { s with
          users := response.items.getD []
          totalUsers := match response.total with
            | some total => if total != 0 then total else 0
            | none => 0
          totalPages := match response.pages with
            | some pages => if pages != 0 then pages else 1
            | none => 1
          isLoading := false }
      store := st, calls := [call], navigations := [], timers := [], raised := none }
  | .error error =>
    match failureMessage "Failed to fetch users" error with
    | .ok message =>
      { state := { s with queue := s.queue.showError message, isLoading := false }
        store := st, calls := [call], navigations := [], timers := [], raised := none }
    | .error typeErr =>
      { state := { s with isLoading := false }
        store := st, calls := [call], navigations := [], timers := [], raised := some typeErr }

/-- The function `openConfirmDialog(action, user)`. -/
def openConfirmDialog (s : State) (action : DialogAction) (user : JVal) : State :=
  { s with confirmDialog := { isOpen := true, action := some action, user := user } }

/-- The function `closeConfirmDialog()`. -/
def closeConfirmDialog (s : State) : State :=
  { s with confirmDialog := { isOpen := false, action := none, user := .null } }

/-- The common body of `handleActivateUser` and `handleDeactivateUser`: `path` is
`activate` or `deactivate`, `done` is `activated` or `deactivated`.  `actionOutcome` is
the outcome of the `POST /users/:id/...` request and `refetchOutcome` the outcome of the
`fetchUsers(currentPage)` started on success; `raised` also reports a value raised by
that re-fetch. -/
def handleStatusChange (path done : String) (s : State) (st : Storage)
    (actionOutcome : Except JVal JVal) (refetchOutcome : Except JVal UsersPage) :
    Submission State :=
  if !s.confirmDialog.user.truthy then
    { state := s, store := st, calls := [], navigations := [], timers := [], raised := none }
  else
    let call := api.request st "post"
      ("/users/" ++ (s.confirmDialog.user.optProp "id").toStr ++ "/" ++ path) .undefined
    let failure (error : JVal) : Submission State :=
      match failureMessage ("Failed to " ++ path ++ " user") error with
      | .ok message =>
        { state := { s with queue := s.queue.showError message }
          store := st, calls := [call], navigations := [], timers := [], raised := none }
      | .error typeErr =>
        { state := s, store := st, calls := [call], navigations := [], timers := [],
          raised := some typeErr }
    match actionOutcome with
    | .error error => failure error
    | .ok result =>
      match result.getProp "email" with
      | .error typeErr => failure typeErr
      | .ok email =>
        let shown := if email.truthy then email else s.confirmDialog.user.optProp "email"
        let s1 : State :=
          closeConfirmDialog
            { s with
              queue := s.queue.showSuccess (.str ("User " ++ shown.toStr ++ " has been " ++ done)) }
        let refetch := fetchUsers s1 st s.currentPage refetchOutcome
        { refetch with calls := call :: refetch.calls }

/-- The function `handleActivateUser`. -/
def handleActivateUser (s : State) (st : Storage) (actionOutcome : Except JVal JVal)
    (refetchOutcome : Except JVal UsersPage) : Submission State :=
  handleStatusChange "activate" "activated" s st actionOutcome refetchOutcome

/-- The function `handleDeactivateUser`. -/
def handleDeactivateUser (s : State) (st : Storage) (actionOutcome : Except JVal JVal)
    (refetchOutcome : Except JVal UsersPage) : Submission State :=
  handleStatusChange "deactivate" "deactivated" s st actionOutcome refetchOutcome

/-- The function `handlePageChange(newPage)`. -/
def handlePageChange (s : State) (newPage : Int) : State :=
  if newPage ≥ 1 ∧ newPage ≤ s.totalPages then { s with currentPage := newPage } else s

/-- The handler bound to `onConfirm` of the dialog:
`confirmDialog.action === 'activate' ? handleActivateUser : handleDeactivateUser`. -/
def boundAction (s : State) : DialogAction :=
  if s.confirmDialog.action = some .activate then .activate else .deactivate

/-- The prop `onConfirm`, run to completion from the state of the render that bound it. -/
def onConfirm (s : State) (st : Storage) (actionOutcome : Except JVal JVal)
    (refetchOutcome : Except JVal UsersPage) : Submission State :=
  match boundAction s with
  | .activate => handleActivateUser s st actionOutcome refetchOutcome
  | .deactivate => handleDeactivateUser s st actionOutcome refetchOutcome

/-- Pressing the confirm control of the dialog on this screen: `onConfirm(); onClose();`
with `onClose = closeConfirmDialog`. -/
def confirmPressed (s : State) (st : Storage) (actionOutcome : Except JVal JVal)
    (refetchOutcome : Except JVal UsersPage) : Submission State :=
  let ran := onConfirm s st actionOutcome refetchOutcome
  { ran with state := closeConfirmDialog ran.state }

/-- Pressing the cancel control of the dialog on this screen: `onClose()`. -/
def cancelPressed (s : State) : State :=
  ConfirmDialog.cancelClick closeConfirmDialog s

/-- One rendered table row: the cells and the single action button. -/
structure Row where
  key : JVal
  email : JVal
  fullName : JVal
  role : JVal
  status : JVal
  button : String
  action : DialogAction

/-- The two pagination buttons, when rendered. -/
structure Pagination where
  previousDisabled : Bool
  nextDisabled : Bool
deriving DecidableEq

/-- What the panel shows: the spinner, or the table with, when `totalPages > 1`, the
pagination block. -/
inductive View where
  | loading
  | table (rows : List Row) (pagination : Option Pagination)

/-- One iteration of `users.map(...)`; reading a property of a `null` / `undefined` item
throws. -/
def renderRow (user : JVal) : Except JVal Row :=
  match user.getProp "id" with
  | .error typeErr => .error typeErr
  | .ok id =>
    .ok { key := id
          email := user.optProp "email"
          fullName := user.optProp "fullName"
          role := user.optProp "role"
          status := user.optProp "status"
          button := if (user.optProp "status").strictEqStr "active" then "Deactivate"
            else "Activate"
          action := if (user.optProp "status").strictEqStr "active" then .deactivate
            else .activate }

/-- The rows of `users.map(...)`. -/
def renderRows : List JVal → Except JVal (List Row)
  | [] => .ok []
  | user :: rest =>
    match renderRow user with
    | .error typeErr => .error typeErr
    | .ok row =>
      match renderRows rest with
      | .error typeErr => .error typeErr
      | .ok rows => .ok (row :: rows)

/-- The panel of the render (lines 138-217). -/
def view (s : State) : Except JVal View :=
  if s.isLoading then .ok .loading
  else
    match renderRows s.users with
    | .error typeErr => .error typeErr
    | .ok rows =>
      .ok (.table rows
        (if s.totalPages > 1 then
          some { previousDisabled := s.currentPage == 1
                 nextDisabled := s.currentPage == s.totalPages }
        else none))

/-- The number of user rows a view shows. -/
def View.rowCount : View → Nat
  | .loading => 0
  | .table rows _ => rows.length

/-- The pagination controls a view shows; `none` when it shows none. -/
def View.pagination : View → Option Pagination
  | .loading => none
  | .table _ pagination => pagination

end AdminDashboard

/-! ## Profile screen: state and handlers (`pages/UserProfile.jsx`) -/

namespace UserProfile

/-- The state `passwordData`. -/
structure PasswordData where
  currentPassword : String
  newPassword : String
  confirmPassword : String

/-- The keys `validatePassword` can set in `errors`; `none` is an absent key. -/
structure PasswordErrors where
  currentPassword : Option String
  newPassword : Option String
  confirmPassword : Option String
deriving DecidableEq

/-- The function `validatePassword`. -/
def validatePassword (passwordData : PasswordData) : PasswordErrors × Bool :=
  let newErrors : PasswordErrors :=
    { currentPassword :=
        if passwordData.currentPassword == "" then some "Current password is required" else none
      newPassword :=
        if passwordData.newPassword == "" then some "New password is required"
        else if jsLength passwordData.newPassword < 8 then
          some "Password must be at least 8 characters"
        else none
      confirmPassword :=
        if passwordData.confirmPassword == "" then some "Please confirm your password"
        else if passwordData.newPassword != passwordData.confirmPassword then
          some "Passwords do not match"
        else none }
  (newErrors, newErrors.currentPassword.isNone && newErrors.newPassword.isNone
    && newErrors.confirmPassword.isNone)

/-- The state `errors`, shared by the two forms of the screen. -/
structure Errors where
  fullName : Option String
  email : Option String
  currentPassword : Option String
  newPassword : Option String
  confirmPassword : Option String
deriving DecidableEq

/-- The object `validateProfile` passes to `setErrors`. -/
def ProfileErrors.toErrors (e : ProfileErrors) : Errors :=
  { fullName := e.fullName, email := e.email, currentPassword := none, newPassword := none,
    confirmPassword := none }

/-- The object `validatePassword` passes to `setErrors`. -/
def PasswordErrors.toErrors (e : PasswordErrors) : Errors :=
  { fullName := none, email := none, currentPassword := e.currentPassword,
    newPassword := e.newPassword, confirmPassword := e.confirmPassword }

/-- The component state; `queue` is the state of `useNotification`. -/
structure State where
  user : JVal
  isEditing : Bool
  isChangingPassword : Bool
  isSaving : Bool
  profileData : ProfileData
  passwordData : PasswordData
  errors : Errors
  queue : NotificationQueue

/-- The function `handleSaveProfile` on the component state, given the outcome of
`userService.updateProfile(profileData)`. -/
def State.handleSaveProfile (s : State) (st : Storage) (outcome : Except JVal JVal) :
    Submission State :=
  let validation := validateProfile s.profileData
  let s1 : State := { s with errors := validation.1.toErrors }
  if !validation.2 then
    { state := s1, store := st, calls := [], navigations := [], timers := [], raised := none }
  else
    let call := api.request st "put" "/profile"
      (.obj [("fullName", .str s.profileData.fullName), ("email", .str s.profileData.email)])
    match outcome with
    | .ok response =>
      { state :=
          { s1 with
            user := response
            isEditing := false
            queue := s1.queue.showSuccess (.str "Profile updated successfully")
            isSaving := false }
        store := st.setItem "user" (serialise response)
        calls := [call], navigations := [], timers := [], raised := none }
    | .error error =>
      match failureMessage "Failed to update profile" error with
      | .ok message =>
        { state := { s1 with queue := s1.queue.showError message, isSaving := false }
          store := st, calls := [call], navigations := [], timers := [], raised := none }
      | .error typeErr =>
        { state := { s1 with isSaving := false }
          store := st, calls := [call], navigations := [], timers := [], raised := some typeErr }

end UserProfile

/-! ## Sample platform function for evaluation -/

/-- A stand-in for `JSON.parse` used to evaluate the model on one concrete store: it
agrees with `JSON.parse` on the text of the object with the single property `role` set
to `admin`, the only text it is applied to, and throws on every other text. -/
def sampleParse (s : String) : Except JVal JVal :=
  if s = "\x7b\"role\":\"admin\"\x7d" then .ok (.obj [("role", .str "admin")])
  else .error (.obj [("name", .str "SyntaxError")])

/-! ## Store lemmas -/

namespace Storage

theorem getItem_setItem_self (st : Storage) (key value : String) :
    getItem (setItem st key value) key = some value := by
  induction st with
  | nil => simp [setItem, getItem]
  | cons p rest ih =>
    obtain ⟨k, v⟩ := p
    by_cases h : k = key
    · simp [setItem, getItem, h]
    · simp [setItem, getItem, h, ih]

theorem getItem_setItem_other (st : Storage) (key value other : String) (h : key ≠ other) :
    getItem (setItem st key value) other = getItem st other := by
  induction st with
  | nil => simp [setItem, getItem, h]
  | cons p rest ih =>
    obtain ⟨k, v⟩ := p
    by_cases hk : k = key
    · subst hk
      simp [setItem, getItem, h]
    · by_cases ho : k = other
      · have hok : ¬ other = key := fun e => h e.symm
        simp [setItem, getItem, ho, hok]
      · simp [setItem, getItem, hk, ho, ih]

theorem getItem_removeItem_self (st : Storage) (key : String) :
    getItem (removeItem st key) key = none := by
  induction st with
  | nil => simp [removeItem, getItem]
  | cons p rest ih =>
    obtain ⟨k, v⟩ := p
    by_cases h : k = key
    · simp [removeItem, h, ih]
    · simp [removeItem, getItem, h, ih]

theorem getItem_removeItem_other (st : Storage) (key other : String) (h : key ≠ other) :
    getItem (removeItem st key) other = getItem st other := by
  induction st with
  | nil => simp [removeItem, getItem]
  | cons p rest ih =>
    obtain ⟨k, v⟩ := p
    by_cases hk : k = key
    · subst hk
      simp [removeItem, getItem, h, ih]
    · by_cases ho : k = other
      · have hok : ¬ other = key := fun e => h e.symm
        simp [removeItem, getItem, ho, hok]
      · simp [removeItem, getItem, hk, ho, ih]

end Storage

theorem strTruthy_eq_true_iff (o : Option String) :
    strTruthy o = true ↔ ∃ t, o = some t ∧ t ≠ "" := by
  cases o with
  | none => simp [strTruthy]
  | some s => simp [strTruthy]

theorem strTruthy_eq_false_iff (o : Option String) :
    strTruthy o = false ↔ o = none ∨ o = some "" := by
  cases o with
  | none => simp [strTruthy]
  | some s => simp [strTruthy]

theorem strictEqStr_eq_true_iff (v : JVal) (s : String) :
    v.strictEqStr s = true ↔ v = .str s := by
  cases v <;> simp [JVal.strictEqStr]

/-! ## C1: the admin-only guard -/

/-- C1, as stated, fails, in two ways.  With an empty string stored under `token` and no
cached user, a token entry is present, yet the guard redirects to `/login`, not to
`/dashboard`.  And after a login whose 2xx body carries a token but no user, the store
holds the text `undefined` under `user`; `JSON.parse` throws on that text, and then the
guard throws instead of producing any of the three outcomes. -/
theorem AdminRoute_outcomes_not_exhaustive :
    (hasToken [("token", "")] = true ∧ hasUser [("token", "")] = false ∧
      (∀ parse : String → Except JVal JVal,
        AdminRoute parse [("token", "")] () = .ok (.navigate "/login") ∧
        AdminRoute parse [("token", "")] () ≠ .ok (.navigate "/dashboard"))) ∧
    ((authService.login [] "john.doe@example.com" "SecurePass123"
        (.ok (.obj [("token", .str "T")]))).store = [("token", "T"), ("user", "undefined")] ∧
      (∀ (parse : String → Except JVal JVal) (e : JVal), parse "undefined" = .error e →
        AdminRoute parse [("token", "T"), ("user", "undefined")] () = .error e)) := by
  refine ⟨⟨by decide, by decide, fun parse => ⟨rfl, ?_⟩⟩, by decide, ?_⟩
  · intro h
    have h2 : AdminRoute parse [("token", "")] () = .ok (.navigate "/login") := rfl
    rw [h2] at h
    injection h with h
    injection h with h
    revert h
    decide
  · intro parse e he
    have hu : authService.getCurrentUser parse [("token", "T"), ("user", "undefined")]
        = .error e := by
      rw [← he]
      rfl
    unfold AdminRoute
    simp [hu]

/-- C1, amended: whenever the cached user can be read (`getCurrentUser` returns `user`),
the guard redirects to `/login` exactly when no non-empty token is stored, redirects to
`/dashboard` exactly when a non-empty token is stored and the role of the cached user is
not `admin` (in particular when no user is cached), and renders its children exactly when
a non-empty token is stored and the cached role is `admin`; one of the three always
happens. -/
theorem AdminRoute_decision {α : Type} (parse : String → Except JVal JVal) (st : Storage)
    (children : α) (user : JVal) (huser : authService.getCurrentUser parse st = .ok user) :
    (AdminRoute parse st children = .ok (.navigate "/login") ↔
      (st.getItem "token" = none ∨ st.getItem "token" = some "")) ∧
    (AdminRoute parse st children = .ok (.navigate "/dashboard") ↔
      (∃ t, st.getItem "token" = some t ∧ t ≠ "") ∧ user.optProp "role" ≠ .str "admin") ∧
    (AdminRoute parse st children = .ok (.children children) ↔
      (∃ t, st.getItem "token" = some t ∧ t ≠ "") ∧ user.optProp "role" = .str "admin") ∧
    ((st.getItem "user" = none ∨ st.getItem "user" = some "") →
      user = .null ∧ user.optProp "role" ≠ .str "admin") ∧
    (AdminRoute parse st children = .ok (.navigate "/login") ∨
      AdminRoute parse st children = .ok (.navigate "/dashboard") ∨
      AdminRoute parse st children = .ok (.children children)) := by
  have hrole : (user.optProp "role").strictEqStr "admin" = true ↔
      user.optProp "role" = .str "admin" := strictEqStr_eq_true_iff _ _
  have htok := strTruthy_eq_true_iff (st.getItem "token")
  have htok2 := strTruthy_eq_false_iff (st.getItem "token")
  have hnull : (st.getItem "user" = none ∨ st.getItem "user" = some "") →
      user = .null ∧ user.optProp "role" ≠ .str "admin" := by
    intro h
    have : authService.getCurrentUser parse st = .ok .null := by
      rcases h with h | h <;> simp [authService.getCurrentUser, h, strTruthy]
    rw [this] at huser
    injection huser with huser
    subst huser
    exact ⟨rfl, by simp [JVal.optProp]⟩
  rcases Bool.eq_false_or_eq_true (strTruthy (st.getItem "token")) with hT | hT
  · have h1 := htok.mp hT
    have h3 : ¬ (st.getItem "token" = none ∨ st.getItem "token" = some "") := by
      intro h; have := htok2.mpr h; simp [hT] at this
    rcases Bool.eq_false_or_eq_true ((user.optProp "role").strictEqStr "admin") with hR | hR
    · have h4 := hrole.mp hR
      have hA : AdminRoute parse st children = .ok (.children children) := by
        unfold AdminRoute
        simp [huser, authService.isAuthenticated, hT, hR]
      rw [hA]
      refine ⟨?_, ?_, ?_, hnull, Or.inr (Or.inr rfl)⟩
      · simp [h3]
      · simp [h4]
      · simp [h1, h4]
    · have h4 : ¬ user.optProp "role" = .str "admin" := by
        intro h; have := hrole.mpr h; simp [hR] at this
      have hA : AdminRoute parse st children = .ok (.navigate "/dashboard") := by
        unfold AdminRoute
        simp [huser, authService.isAuthenticated, hT, hR]
      rw [hA]
      refine ⟨?_, ?_, ?_, hnull, Or.inr (Or.inl rfl)⟩
      · simp [h3]
      · simp [h1, h4]
      · simp [h4]
  · have h1 := htok2.mp hT
    have h3 : ¬ ∃ t, st.getItem "token" = some t ∧ t ≠ "" := by
      intro h; have := htok.mpr h; simp [hT] at this
    have hA : AdminRoute parse st children = .ok (.navigate "/login") := by
      unfold AdminRoute
      simp [huser, authService.isAuthenticated, hT]
    rw [hA]
    refine ⟨?_, ?_, ?_, hnull, Or.inl rfl⟩
    · simp [h1]
    · simp [h3]
    · simp [h3]

/-- Witness for C1: with token `T` and a cached user whose role is `admin`, the guard
renders its children. -/
theorem AdminRoute_decision_witness :
    authService.getCurrentUser sampleParse
        [("token", "T"), ("user", "\x7b\"role\":\"admin\"\x7d")]
      = .ok (.obj [("role", .str "admin")]) ∧
    AdminRoute sampleParse [("token", "T"), ("user", "\x7b\"role\":\"admin\"\x7d")] ()
      = .ok (.children ()) :=
  ⟨rfl, (AdminRoute_decision sampleParse
    [("token", "T"), ("user", "\x7b\"role\":\"admin\"\x7d")] ()
    (.obj [("role", .str "admin")]) rfl).2.2.1.mpr ⟨⟨"T", rfl, by decide⟩, rfl⟩⟩

/-! ## C2: logout -/

theorem logout_store_eq (st : Storage) (outcome : Except JVal JVal) :
    (authService.logout st outcome).store = (st.removeItem "token").removeItem "user" := by
  unfold authService.logout
  cases outcome <;> cases strTruthy (st.getItem "token") <;> rfl

theorem logout_result_eq (st : Storage) (outcome : Except JVal JVal) :
    (authService.logout st outcome).result = .ok .undefined := by
  unfold authService.logout
  cases outcome <;> cases strTruthy (st.getItem "token") <;> rfl

/-- C2: for every store and every outcome of the server logout call (and also when no
call is made), after `authService.logout()` neither `token` nor `user` is present in the
store and the promise resolves (with `undefined`) rather than rejects. -/
theorem logout_clears_session (st : Storage) (outcome : Except JVal JVal) :
    (authService.logout st outcome).store.getItem "token" = none ∧
    (authService.logout st outcome).store.getItem "user" = none ∧
    (authService.logout st outcome).result = .ok .undefined := by
  refine ⟨?_, ?_, logout_result_eq st outcome⟩
  · rw [logout_store_eq, Storage.getItem_removeItem_other _ "user" "token" (by decide),
      Storage.getItem_removeItem_self]
  · rw [logout_store_eq, Storage.getItem_removeItem_self]

/-! ## C4: a successful login or signup persists the session -/

/-- C4, as stated, fails: a 2xx body whose `token` is the empty string is skipped by
the guard `if (response.data.token)`, so after the call resolves the store holds neither
entry. -/
theorem login_empty_token_not_persisted :
    (authService.login [] "john.doe@example.com" "SecurePass123"
        (.ok (.obj [("token", .str ""), ("user", .obj [("role", .str "admin")])]))).store = [] ∧
    (authService.signup [] "New User" "newuser@example.com" "NewPass123"
        (.ok (.obj [("token", .str ""), ("user", .obj [("role", .str "user")])]))).store = [] :=
  ⟨rfl, rfl⟩

theorem persist_truthy_token (st : Storage) (call : RequestConfig) (data user : JVal)
    (t : String) (htoken : data.getProp "token" = .ok (.str t)) (hne : t ≠ "")
    (huser : data.getProp "user" = .ok user) :
    (authService.persist st call data).store
        = (st.setItem "token" t).setItem "user" (serialise user) ∧
      (authService.persist st call data).result = .ok data := by
  unfold authService.persist
  simp [htoken, huser, JVal.truthy, JVal.toStr, hne]

/-- C4, amended: for every login or signup call that the server answers with a 2xx body
whose `token` is a non-empty string `t` and whose `user` is `user`, when the call
resolves the store holds exactly `t` under `token` and the serialised form of `user`
under `user`, and the call resolves with the response body. -/
theorem login_signup_persist_session (st : Storage) (fullName email password : String)
    (data user : JVal) (t : String)
    (htoken : data.getProp "token" = .ok (.str t)) (hne : t ≠ "")
    (huser : data.getProp "user" = .ok user) :
    ((authService.login st email password (.ok data)).store.getItem "token" = some t ∧
      (authService.login st email password (.ok data)).store.getItem "user"
        = some (serialise user) ∧
      (authService.login st email password (.ok data)).result = .ok data) ∧
    ((authService.signup st fullName email password (.ok data)).store.getItem "token" = some t ∧
      (authService.signup st fullName email password (.ok data)).store.getItem "user"
        = some (serialise user) ∧
      (authService.signup st fullName email password (.ok data)).result = .ok data) := by
  have key : ∀ call : RequestConfig,
      (authService.persist st call data).store.getItem "token" = some t ∧
      (authService.persist st call data).store.getItem "user" = some (serialise user) ∧
      (authService.persist st call data).result = .ok data := by
    intro call
    obtain ⟨hs, hr⟩ := persist_truthy_token st call data user t htoken hne huser
    refine ⟨?_, ?_, hr⟩
    · rw [hs, Storage.getItem_setItem_other _ "user" _ "token" (by decide),
        Storage.getItem_setItem_self]
    · rw [hs, Storage.getItem_setItem_self]
  exact ⟨key _, key _⟩

/-- Witness for C4: the successful login of the test server. -/
theorem login_signup_persist_session_witness :
    (authService.login [] "john.doe@example.com" "SecurePass123"
      (.ok (.obj [("token", .str "test-jwt-token-123"),
        ("user", .obj [("email", .str "john.doe@example.com"), ("role", .str "admin")])]))
      ).store.getItem "token" = some "test-jwt-token-123" ∧
    (authService.login [] "john.doe@example.com" "SecurePass123"
      (.ok (.obj [("token", .str "test-jwt-token-123"),
        ("user", .obj [("email", .str "john.doe@example.com"), ("role", .str "admin")])]))
      ).store.getItem "user"
      = some "\x7b\"email\":\"john.doe@example.com\",\"role\":\"admin\"\x7d" :=
  have h := (login_signup_persist_session [] "" "john.doe@example.com" "SecurePass123"
    (.obj [("token", .str "test-jwt-token-123"),
      ("user", .obj [("email", .str "john.doe@example.com"), ("role", .str "admin")])])
    (.obj [("email", .str "john.doe@example.com"), ("role", .str "admin")])
    "test-jwt-token-123" rfl (by decide) rfl).1
  ⟨h.1, h.2.1.trans (by decide)⟩

/-! ## C5: a failed login or signup leaves the session untouched -/

/-- C5: for every prior store, a login or signup call that is rejected with an error
object `error` (axios rejects non-2xx statuses, timeouts and network failures with an
error object, never with `null` or `undefined`) leaves the store exactly as it was and
rejects with that same error. -/
theorem login_signup_failure_keeps_session (st : Storage) (fullName email password : String)
    (error : JVal) (herror : error.isNullish = false) :
    (authService.login st email password (.error error)).store = st ∧
    (authService.login st email password (.error error)).result = .error error ∧
    (authService.signup st fullName email password (.error error)).store = st ∧
    (authService.signup st fullName email password (.error error)).result = .error error := by
  have h : authService.rethrow error = .error error := by
    cases error <;> simp [JVal.isNullish] at herror <;> rfl
  exact ⟨rfl, h, rfl, h⟩

/-- Witness for C5: the 401 rejection of the test server on a populated store. -/
theorem login_signup_failure_keeps_session_witness :
    (authService.login [("token", "T"), ("user", "U")] "invalid@example.com" "wrongpassword"
      (.error (.obj [("message", .str "Request failed with status code 401"),
        ("response", .obj [("status", .num 401)])]))).store
      = [("token", "T"), ("user", "U")] :=
  (login_signup_failure_keeps_session [("token", "T"), ("user", "U")] ""
    "invalid@example.com" "wrongpassword"
    (.obj [("message", .str "Request failed with status code 401"),
      ("response", .obj [("status", .num 401)])]) rfl).1

/-! ## C6: `isAuthenticated` -/

/-- C6, as stated, fails: with the empty string stored under `token`, a token entry is
present in the store and `isAuthenticated()` returns `false`. -/
theorem isAuthenticated_false_on_empty_token :
    hasToken [("token", "")] = true ∧ authService.getToken [("token", "")] = some "" ∧
    authService.isAuthenticated [("token", "")] = false := by
  decide

/-- C6, amended: `isAuthenticated()` returns `true` exactly when a non-empty token is
stored, and `false` otherwise, that is when no token is stored or the stored token is the
empty string.  It is a function of the store alone and so leaves it unchanged. -/
theorem isAuthenticated_iff_nonempty_token (st : Storage) :
    (authService.isAuthenticated st = true ↔ ∃ t, st.getItem "token" = some t ∧ t ≠ "") ∧
    (authService.isAuthenticated st = false ↔
      (st.getItem "token" = none ∨ st.getItem "token" = some "")) :=
  ⟨strTruthy_eq_true_iff _, strTruthy_eq_false_iff _⟩

/-! ## C7: the request interceptor -/

/-- C7, as stated, fails: with the empty string stored under `token`, a token entry is
present, yet the interceptor returns the configuration unchanged, without an
`Authorization` header. -/
theorem requestInterceptor_skips_empty_token :
    hasToken [("token", "")] = true ∧
    (requestInterceptor [("token", "")] (api.defaults "get" "/auth/me" .undefined)).headers
      = [("Content-Type", "application/json")] ∧
    Storage.getItem
      (requestInterceptor [("token", "")] (api.defaults "get" "/auth/me" .undefined)).headers
      "Authorization" = none := by
  decide

/-- C7, amended: for every request configuration and every store, when a non-empty token
`t` is stored the interceptor returns the configuration with the `Authorization` header
set to `Bearer t`, every other header and every other field as before; when no token is
stored or the stored token is the empty string it returns the configuration unchanged. -/
theorem requestInterceptor_frame (st : Storage) (config : RequestConfig) :
    (∀ t, st.getItem "token" = some t → t ≠ "" →
      requestInterceptor st config
        = { config with
            headers := Storage.setItem config.headers "Authorization" ("Bearer " ++ t) } ∧
      Storage.getItem (requestInterceptor st config).headers "Authorization"
        = some ("Bearer " ++ t) ∧
      (∀ name, name ≠ "Authorization" →
        Storage.getItem (requestInterceptor st config).headers name
          = Storage.getItem config.headers name)) ∧
    ((st.getItem "token" = none ∨ st.getItem "token" = some "") →
      requestInterceptor st config = config) := by
  constructor
  · intro t ht hne
    have h : requestInterceptor st config
        = { config with
            headers := Storage.setItem config.headers "Authorization" ("Bearer " ++ t) } := by
      unfold requestInterceptor
      simp [ht, strTruthy, hne]
    refine ⟨h, ?_, ?_⟩
    · rw [h]
      exact Storage.getItem_setItem_self _ _ _
    · intro name hname
      rw [h]
      exact Storage.getItem_setItem_other _ _ _ _ (fun e => hname e.symm)
  · intro h
    unfold requestInterceptor
    rcases h with h | h <;> simp [h, strTruthy]

/-! ## C3: the session invariant -/

theorem hasToken_setItem_user (st : Storage) (value : String) :
    hasToken (st.setItem "user" value) = hasToken st := by
  unfold hasToken
  rw [Storage.getItem_setItem_other _ "user" _ "token" (by decide)]

theorem hasToken_setItem_token (st : Storage) (value : String) :
    hasToken (st.setItem "token" value) = true := by
  unfold hasToken
  rw [Storage.getItem_setItem_self]
  rfl

theorem SessionInvariant_of_hasToken (st : Storage) (h : hasToken st = true) :
    SessionInvariant st := fun _ => h

theorem persist_preserves_invariant (st : Storage) (call : RequestConfig) (data : JVal)
    (h : SessionInvariant st) : SessionInvariant (authService.persist st call data).store := by
  unfold authService.persist
  cases data.getProp "token" with
  | error e => exact h
  | ok token =>
    cases htr : token.truthy with
    | false => simpa [htr] using h
    | true =>
      cases data.getProp "user" with
      | error e =>
        simp only [htr, if_true]
        exact SessionInvariant_of_hasToken _ (hasToken_setItem_token _ _)
      | ok user =>
        simp only [htr, if_true]
        apply SessionInvariant_of_hasToken
        rw [hasToken_setItem_user]
        exact hasToken_setItem_token _ _

theorem logout_establishes_invariant (st : Storage) (outcome : Except JVal JVal) :
    SessionInvariant (authService.logout st outcome).store := by
  intro h
  have hu : (authService.logout st outcome).store.getItem "user" = none := by
    rw [logout_store_eq, Storage.getItem_removeItem_self]
  simp [hasUser, hu] at h

theorem getUserInfo_keeps_token (st : Storage) (outcome : Except JVal JVal) :
    hasToken (authService.getUserInfo st outcome).store = hasToken st := by
  cases outcome with
  | error e => rfl
  | ok data =>
    by_cases htr : data.truthy = true <;>
      simp [authService.getUserInfo, htr, hasToken_setItem_user]

theorem fetchProfile_keeps_token (st : Storage) (outcome : Except JVal JVal) :
    hasToken (UserProfile.fetchProfile st outcome).store = hasToken st := by
  cases outcome with
  | error e => rfl
  | ok data =>
    cases hp : data.getProp "fullName" <;>
      simp [UserProfile.fetchProfile, hp, hasToken_setItem_user]

theorem handleSaveProfile_keeps_token (st : Storage) (profileData : UserProfile.ProfileData)
    (outcome : Except JVal JVal) :
    hasToken (UserProfile.handleSaveProfile st profileData outcome).store = hasToken st := by
  cases hv : (UserProfile.validateProfile profileData).2 with
  | false => simp [UserProfile.handleSaveProfile, hv]
  | true =>
    cases outcome with
    | ok response => simp [UserProfile.handleSaveProfile, hv, hasToken_setItem_user]
    | error e =>
      cases hp : e.getProp "response" <;> simp [UserProfile.handleSaveProfile, hv, hp]

theorem run_preserves_invariant (st : Storage) (op : SessionOp)
    (hinv : SessionInvariant st) (hguard : op.refreshesUser = true → hasToken st = true) :
    SessionInvariant (op.run st) := by
  cases op with
  | login email password outcome =>
    cases outcome with
    | ok data => exact persist_preserves_invariant _ _ _ hinv
    | error e => exact hinv
  | signup fullName email password outcome =>
    cases outcome with
    | ok data => exact persist_preserves_invariant _ _ _ hinv
    | error e => exact hinv
  | logout outcome => exact logout_establishes_invariant st outcome
  | getUserInfo outcome =>
    apply SessionInvariant_of_hasToken
    show hasToken (authService.getUserInfo st outcome).store = true
    rw [getUserInfo_keeps_token]
    exact hguard rfl
  | fetchProfile outcome =>
    apply SessionInvariant_of_hasToken
    show hasToken (UserProfile.fetchProfile st outcome).store = true
    rw [fetchProfile_keeps_token]
    exact hguard rfl
  | saveProfile profileData outcome =>
    apply SessionInvariant_of_hasToken
    show hasToken (UserProfile.handleSaveProfile st profileData outcome).store = true
    rw [handleSaveProfile_keeps_token]
    exact hguard rfl

theorem runAll_preserves_invariant (ops : List SessionOp) :
    ∀ st : Storage, SessionInvariant st → RefreshesHaveToken st ops →
      SessionInvariant (SessionOp.runAll st ops) := by
  induction ops with
  | nil => intro st hinv _; exact hinv
  | cons op rest ih =>
    intro st hinv hguard
    exact ih _ (run_preserves_invariant st op hinv hguard.1) hguard.2

/-- C3, as stated, fails: from the empty store, a single `getUserInfo()` that the server
answers with a user record writes `user` while no `token` is present. -/
theorem getUserInfo_breaks_session_invariant :
    hasUser (SessionOp.runAll [] [.getUserInfo (.ok (.obj [("id", .str "u1")]))]) = true ∧
    hasToken (SessionOp.runAll [] [.getUserInfo (.ok (.obj [("id", .str "u1")]))]) = false ∧
    ¬ SessionInvariant (SessionOp.runAll [] [.getUserInfo (.ok (.obj [("id", .str "u1")]))]) := by
  refine ⟨by decide, by decide, ?_⟩
  intro h
  have := h (by decide)
  revert this
  decide

/-- C3, amended: starting from the empty store, after any sequence of login, signup,
logout, `getUserInfo`, profile fetch and profile save with arbitrary server responses,
in which every `getUserInfo`, profile fetch and profile save runs while a `token` entry is
present, a `user` entry is present only if a `token` entry is present. -/
theorem session_invariant_of_guarded_refreshes (ops : List SessionOp)
    (hguard : RefreshesHaveToken [] ops) :
    SessionInvariant (SessionOp.runAll [] ops) :=
  runAll_preserves_invariant ops [] (fun h => by simp [hasUser, Storage.getItem] at h) hguard

/-- Witness for C3: login, then `getUserInfo`, then a logout whose request fails. -/
theorem session_invariant_of_guarded_refreshes_witness :
    SessionInvariant (SessionOp.runAll []
      [.login "john.doe@example.com" "SecurePass123"
        (.ok (.obj [("token", .str "T"), ("user", .obj [("role", .str "admin")])])),
       .getUserInfo (.ok (.obj [("role", .str "admin")])),
       .logout (.error (.obj [("code", .str "ERR_NETWORK")]))]) :=
  session_invariant_of_guarded_refreshes _
    ⟨fun h => by simp [SessionOp.refreshesUser] at h, fun _ => by decide,
      fun h => by simp [SessionOp.refreshesUser] at h, trivial⟩

/-! ## Regular-expression lemmas -/

namespace RegExp

theorem mem_starEnds (p : Char → Bool) (s t : List Char) :
    t ∈ starEnds p s ↔ ∃ a, s = a ++ t ∧ ∀ x ∈ a, p x = true := by
  induction s with
  | nil =>
    simp only [starEnds, List.mem_singleton]
    constructor
    · rintro rfl
      exact ⟨[], rfl, by simp⟩
    · rintro ⟨a, h, _⟩
      have := List.append_eq_nil.mp h.symm
      exact this.2
  | cons c rest ih =>
    simp only [starEnds, List.mem_cons]
    constructor
    · rintro (h | h)
      · exact ⟨[], by simp [h], by simp⟩
      · by_cases hp : p c = true
        · rw [if_pos hp] at h
          obtain ⟨a, ha, hall⟩ := ih.mp h
          refine ⟨c :: a, by simp [ha], ?_⟩
          intro x hx
          rcases List.mem_cons.mp hx with rfl | hx
          · exact hp
          · exact hall x hx
        · rw [if_neg hp] at h
          cases h
    · rintro ⟨a, ha, hall⟩
      cases a with
      | nil => left; simpa using ha.symm
      | cons x a =>
        right
        simp only [List.cons_append, List.cons.injEq] at ha
        obtain ⟨rfl, hrest⟩ := ha
        rw [if_pos (hall _ (List.mem_cons_self _ _))]
        exact ih.mpr ⟨a, hrest, fun y hy => hall y (List.mem_cons_of_mem _ hy)⟩

theorem mem_ends_plus (p : Char → Bool) (s t : List Char) :
    t ∈ ends (plus p) s ↔ ∃ a, a ≠ [] ∧ s = a ++ t ∧ ∀ x ∈ a, p x = true := by
  cases s with
  | nil =>
    simp only [ends, List.not_mem_nil, false_iff]
    rintro ⟨a, hne, h, _⟩
    exact hne (List.append_eq_nil.mp h.symm).1
  | cons c rest =>
    simp only [ends]
    constructor
    · intro h
      by_cases hp : p c = true
      · rw [if_pos hp] at h
        obtain ⟨a, ha, hall⟩ := (mem_starEnds p rest t).mp h
        refine ⟨c :: a, by simp, by simp [ha], ?_⟩
        intro x hx
        rcases List.mem_cons.mp hx with rfl | hx
        · exact hp
        · exact hall x hx
      · rw [if_neg hp] at h
        cases h
    · rintro ⟨a, hne, ha, hall⟩
      cases a with
      | nil => exact absurd rfl hne
      | cons x a =>
        simp only [List.cons_append, List.cons.injEq] at ha
        obtain ⟨rfl, hrest⟩ := ha
        rw [if_pos (hall _ (List.mem_cons_self _ _))]
        exact (mem_starEnds p rest t).mpr
          ⟨a, hrest, fun y hy => hall y (List.mem_cons_of_mem _ hy)⟩

theorem mem_ends_cls (p : Char → Bool) (s t : List Char) :
    t ∈ ends (cls p) s ↔ ∃ c, p c = true ∧ s = c :: t := by
  cases s with
  | nil => simp [ends]
  | cons c rest =>
    simp only [ends]
    by_cases hp : p c = true
    · rw [if_pos hp]
      constructor
      · intro h
        exact ⟨c, hp, by simp [List.mem_singleton.mp h]⟩
      · rintro ⟨d, _, h⟩
        simp only [List.cons.injEq] at h
        simp [h.2]
    · rw [if_neg hp]
      constructor
      · intro h; cases h
      · rintro ⟨d, hd, h⟩
        simp only [List.cons.injEq] at h
        rw [← h.1] at hd
        exact absurd hd hp

theorem mem_ends_seq (r q : RegExp) (s t : List Char) :
    t ∈ ends (seq r q) s ↔ ∃ m, m ∈ ends r s ∧ t ∈ ends q m := by
  simp [ends, List.mem_flatMap]

theorem matchesAt_iff (r : RegExp) (s : List Char) :
    matchesAt r s = true ↔ ∃ t, t ∈ ends r s := by
  unfold matchesAt
  cases h : ends r s with
  | nil => simp
  | cons x xs => simp

theorem search_iff (r : RegExp) (s : List Char) :
    search r s = true ↔ ∃ pre suf, s = pre ++ suf ∧ matchesAt r suf = true := by
  induction s with
  | nil =>
    simp only [search]
    constructor
    · intro h; exact ⟨[], [], rfl, h⟩
    · rintro ⟨pre, suf, h, hm⟩
      have := (List.append_eq_nil.mp h.symm).2
      subst this
      exact hm
  | cons c rest ih =>
    simp only [search, Bool.or_eq_true]
    constructor
    · rintro (h | h)
      · exact ⟨[], c :: rest, rfl, h⟩
      · obtain ⟨pre, suf, hs, hm⟩ := ih.mp h
        exact ⟨c :: pre, suf, by simp [hs], hm⟩
    · rintro ⟨pre, suf, hs, hm⟩
      cases pre with
      | nil =>
        left
        simp only [List.nil_append] at hs
        rw [hs]; exact hm
      | cons x pre =>
        right
        simp only [List.cons_append, List.cons.injEq] at hs
        exact ih.mpr ⟨pre, suf, hs.2, hm⟩

end RegExp

theorem mem_ends_emailRegExp (s t : List Char) :
    t ∈ emailRegExp.ends s ↔ ∃ l, EmailShape l ∧ s = l ++ t := by
  unfold emailRegExp EmailShape
  simp only [RegExp.mem_ends_seq, RegExp.mem_ends_plus, RegExp.mem_ends_cls]
  constructor
  · rintro ⟨m1, ⟨a, ha, hs, hpa⟩, m2, ⟨c1, hc1, hm1⟩, m3, ⟨b, hb, hm2, hpb⟩,
      m4, ⟨c2, hc2, hm3⟩, c, hc, hm4, hpc⟩
    have e1 : c1 = '@' := by simpa using hc1
    have e2 : c2 = '.' := by simpa using hc2
    subst e1 e2
    refine ⟨a ++ '@' :: (b ++ '.' :: c), ⟨a, b, c, ha, hb, hc, hpa, hpb, hpc, rfl⟩, ?_⟩
    rw [hs, hm1, hm2, hm3, hm4]
    simp
  · rintro ⟨l, ⟨a, b, c, ha, hb, hc, hpa, hpb, hpc, rfl⟩, hs⟩
    refine ⟨'@' :: (b ++ '.' :: (c ++ t)), ⟨a, ha, by simp [hs], hpa⟩,
      b ++ '.' :: (c ++ t), ⟨'@', by simp, rfl⟩,
      '.' :: (c ++ t), ⟨b, hb, rfl, hpb⟩,
      c ++ t, ⟨'.', by simp, rfl⟩, c, hc, rfl, hpc⟩

theorem EmailShape_all_nonSpace (l : List Char) (h : EmailShape l) :
    ∀ x ∈ l, nonSpace x = true := by
  obtain ⟨a, b, c, _, _, _, hpa, hpb, hpc, rfl⟩ := h
  intro x hx
  simp only [List.mem_append, List.mem_cons] at hx
  rcases hx with hx | rfl | hx | rfl | hx
  · exact hpa x hx
  · decide
  · exact hpb x hx
  · decide
  · exact hpc x hx

/-! ## C10: the email check -/

/-- C10, as stated, fails: `a b@c.d` contains a space, so it is not as a whole of the
shape `<non-space>+@<non-space>+.<non-space>+`, yet the email check accepts it, because
the expression is searched for anywhere in the string. -/
theorem email_check_accepts_address_with_space :
    ' ' ∈ "a b@c.d".data ∧ ¬ EmailShape "a b@c.d".data ∧ emailRegExp.test "a b@c.d" = true := by
  refine ⟨by decide, ?_, by decide⟩
  intro h
  have := EmailShape_all_nonSpace _ h ' ' (by decide)
  revert this
  decide

/-- C10, amended: the email check used by the login, signup and profile forms accepts
exactly the strings that contain, somewhere, a run of the shape
`<non-space>+@<non-space>+.<non-space>+`; it rejects every string that contains no such
run, and it accepts `user@example.com`. -/
theorem email_check_iff_contains_shape :
    (∀ s : String, emailRegExp.test s = true ↔
      ∃ pre l post, EmailShape l ∧ s.data = pre ++ l ++ post) ∧
    (∀ s : String, (¬ ∃ pre l post, EmailShape l ∧ s.data = pre ++ l ++ post) →
      emailRegExp.test s = false) ∧
    emailRegExp.test "user@example.com" = true := by
  have key : ∀ s : String, emailRegExp.test s = true ↔
      ∃ pre l post, EmailShape l ∧ s.data = pre ++ l ++ post := by
    intro s
    unfold RegExp.test
    rw [RegExp.search_iff]
    constructor
    · rintro ⟨pre, suf, hs, hm⟩
      obtain ⟨t, ht⟩ := (RegExp.matchesAt_iff _ _).mp hm
      obtain ⟨l, hl, hsuf⟩ := (mem_ends_emailRegExp _ _).mp ht
      exact ⟨pre, l, t, hl, by rw [hs, hsuf]; simp⟩
    · rintro ⟨pre, l, post, hl, hs⟩
      refine ⟨pre, l ++ post, by rw [hs]; simp, ?_⟩
      exact (RegExp.matchesAt_iff _ _).mpr ⟨post, (mem_ends_emailRegExp _ _).mpr ⟨l, hl, rfl⟩⟩
  refine ⟨key, ?_, by decide⟩
  intro s hs
  cases h : emailRegExp.test s with
  | false => rfl
  | true => exact absurd ((key s).mp h) hs

/-! ## C8: login form validation -/

theorem jsLength_empty : jsLength "" = 0 := rfl

theorem ne_empty_of_jsLength_pos (s : String) (h : 0 < jsLength s) : s ≠ "" := by
  rintro rfl
  simp [jsLength_empty] at h

/-- C8: for every (email, password) pair, Login's `validateForm` returns `true`, with an
empty error map, exactly when the email is non-blank after trimming and passes the email
test and the password has length at least 6.  The email error is `Email is required` for
a blank email and `Email is invalid` for a non-blank email failing the test; the
password error is `Password is required` for an empty password and
`Password must be at least 6 characters` for a non-empty password shorter than 6.
Lengths are JavaScript string lengths. -/
theorem Login_validateForm_spec (formData : Login.FormData) :
    ((Login.validateForm formData).2 = true ↔
      (trim formData.email ≠ "" ∧ emailRegExp.test formData.email = true ∧
        6 ≤ jsLength formData.password)) ∧
    ((Login.validateForm formData).2 = true →
      (Login.validateForm formData).1 = { email := none, password := none }) ∧
    (trim formData.email = "" →
      (Login.validateForm formData).1.email = some "Email is required") ∧
    (trim formData.email ≠ "" → emailRegExp.test formData.email = false →
      (Login.validateForm formData).1.email = some "Email is invalid") ∧
    (trim formData.email ≠ "" → emailRegExp.test formData.email = true →
      (Login.validateForm formData).1.email = none) ∧
    (formData.password = "" →
      (Login.validateForm formData).1.password = some "Password is required") ∧
    (formData.password ≠ "" → jsLength formData.password < 6 →
      (Login.validateForm formData).1.password
        = some "Password must be at least 6 characters") ∧
    (6 ≤ jsLength formData.password → (Login.validateForm formData).1.password = none) := by
  obtain ⟨email, password⟩ := formData
  have hpw : 6 ≤ jsLength password → password ≠ "" :=
    fun h => ne_empty_of_jsLength_pos _ (by omega)
  simp only [Login.validateForm, Login.emailError, Login.passwordError]
  refine ⟨?_, ?_, ?_, ?_, ?_, ?_, ?_, ?_⟩
  · constructor
    · intro h
      by_cases h1 : trim email = ""
      · simp [h1] at h
      · by_cases h2 : emailRegExp.test email = true
        · by_cases h3 : password = ""
          · simp [h1, h2, h3] at h
          · by_cases h4 : jsLength password < 6
            · simp [h1, h2, h3, h4] at h
            · exact ⟨h1, h2, by omega⟩
        · simp [h1, h2] at h
    · rintro ⟨h1, h2, h3⟩
      have h4 : ¬ jsLength password < 6 := by omega
      simp [h1, h2, hpw h3, h4]
  · intro h
    by_cases h1 : trim email = ""
    · simp [h1] at h
    · by_cases h2 : emailRegExp.test email = true
      · by_cases h3 : password = ""
        · simp [h1, h2, h3] at h
        · by_cases h4 : jsLength password < 6
          · simp [h1, h2, h3, h4] at h
          · simp [h1, h2, h3, h4]
      · simp [h1, h2] at h
  · intro h1
    simp [h1]
  · intro h1 h2
    simp [h1, h2]
  · intro h1 h2
    simp [h1, h2]
  · intro h3
    simp [h3]
  · intro h3 h4
    simp [h3, h4]
  · intro h3
    have h4 : ¬ jsLength password < 6 := by omega
    simp [hpw h3, h4]


/-! ## C9: signup form validation -/

/-! ### Lookahead expressions of the password rule -/

namespace RegExp

theorem mem_ends_look (r : RegExp) (s t : List Char) :
    t ∈ ends (look r) s ↔ t = s ∧ ∃ u, u ∈ ends r s := by
  simp only [ends]
  cases h : ends r s with
  | nil => simp
  | cons x xs =>
    simp only [List.isEmpty_cons, Bool.false_eq_true, if_false, List.mem_singleton]
    exact ⟨fun ht => ⟨ht, x, List.mem_cons_self _ _⟩, fun ht => ht.1⟩

/-- The lookahead body `.*[q]` matches at the start of `s` exactly when `s` has a
character of class `q` that is preceded, within `s`, only by characters other than line
terminators. -/
theorem exists_mem_ends_dotStar_cls (q : Char → Bool) (s : List Char) :
    (∃ u, u ∈ ends (seq (star dot) (cls q)) s) ↔
      ∃ a c u, s = a ++ c :: u ∧ (∀ x ∈ a, dot x = true) ∧ q c = true := by
  simp only [mem_ends_seq, mem_ends_cls]
  constructor
  · rintro ⟨u, m, hm, c, hc, rfl⟩
    obtain ⟨a, ha, hall⟩ := (mem_starEnds dot s _).mp hm
    exact ⟨a, c, u, ha, hall, hc⟩
  · rintro ⟨a, c, u, hs, hall, hc⟩
    exact ⟨u, c :: u, (mem_starEnds dot s _).mpr ⟨a, hs, hall⟩, c, hc, rfl⟩

end RegExp

theorem digitRegExp_test_iff (s : String) :
    digitRegExp.test s = true ↔ ∃ x ∈ s.data, isDigit x = true := by
  unfold RegExp.test digitRegExp
  rw [RegExp.search_iff]
  constructor
  · rintro ⟨pre, suf, hs, hm⟩
    obtain ⟨t, ht⟩ := (RegExp.matchesAt_iff _ _).mp hm
    obtain ⟨_, hex⟩ := (RegExp.mem_ends_look _ _ _).mp ht
    obtain ⟨a, c, u, hsuf, _, hc⟩ := (RegExp.exists_mem_ends_dotStar_cls _ _).mp hex
    refine ⟨c, ?_, hc⟩
    rw [hs, hsuf]
    simp
  · rintro ⟨x, hx, hd⟩
    obtain ⟨pre, u, hs⟩ := List.append_of_mem hx
    refine ⟨pre, x :: u, hs, (RegExp.matchesAt_iff _ _).mpr ⟨x :: u, ?_⟩⟩
    exact (RegExp.mem_ends_look _ _ _).mpr
      ⟨rfl, (RegExp.exists_mem_ends_dotStar_cls _ _).mpr ⟨[], x, u, rfl, by simp, hd⟩⟩

theorem mixedCaseRegExp_matchesAt_iff (s : List Char) :
    mixedCaseRegExp.matchesAt s = true ↔
      (∃ a c u, s = a ++ c :: u ∧ (∀ x ∈ a, dot x = true) ∧ isLower c = true) ∧
      (∃ a c u, s = a ++ c :: u ∧ (∀ x ∈ a, dot x = true) ∧ isUpper c = true) := by
  unfold mixedCaseRegExp
  rw [RegExp.matchesAt_iff]
  constructor
  · rintro ⟨t, ht⟩
    obtain ⟨m, hm, ht2⟩ := (RegExp.mem_ends_seq _ _ _ _).mp ht
    obtain ⟨rfl, h1⟩ := (RegExp.mem_ends_look _ _ _).mp hm
    obtain ⟨_, h2⟩ := (RegExp.mem_ends_look _ _ _).mp ht2
    exact ⟨(RegExp.exists_mem_ends_dotStar_cls _ _).mp h1,
      (RegExp.exists_mem_ends_dotStar_cls _ _).mp h2⟩
  · rintro ⟨h1, h2⟩
    exact ⟨s, (RegExp.mem_ends_seq _ _ _ _).mpr
      ⟨s, (RegExp.mem_ends_look _ _ _).mpr
          ⟨rfl, (RegExp.exists_mem_ends_dotStar_cls _ _).mpr h1⟩,
        (RegExp.mem_ends_look _ _ _).mpr
          ⟨rfl, (RegExp.exists_mem_ends_dotStar_cls _ _).mpr h2⟩⟩⟩

/-- A password accepted by `/(?=.*[a-z])(?=.*[A-Z])/` contains a lowercase and an
uppercase letter. -/
theorem mixedCaseRegExp_test_imp (s : String) (h : mixedCaseRegExp.test s = true) :
    (∃ x ∈ s.data, isLower x = true) ∧ (∃ x ∈ s.data, isUpper x = true) := by
  unfold RegExp.test at h
  obtain ⟨pre, suf, hs, hm⟩ := (RegExp.search_iff _ _).mp h
  obtain ⟨⟨a, c, u, h1, _, hc⟩, ⟨b, d, v, h2, _, hd⟩⟩ := (mixedCaseRegExp_matchesAt_iff _).mp hm
  constructor
  · refine ⟨c, ?_, hc⟩
    rw [hs, h1]; simp
  · refine ⟨d, ?_, hd⟩
    rw [hs, h2]; simp

/-- On a password without line terminators, `/(?=.*[a-z])(?=.*[A-Z])/` accepts as soon
as a lowercase and an uppercase letter occur. -/
theorem mixedCaseRegExp_test_of_single_line (s : String)
    (hline : ∀ x ∈ s.data, isLineTerminator x = false)
    (hlower : ∃ x ∈ s.data, isLower x = true) (hupper : ∃ x ∈ s.data, isUpper x = true) :
    mixedCaseRegExp.test s = true := by
  unfold RegExp.test
  rw [RegExp.search_iff]
  refine ⟨[], s.data, rfl, (mixedCaseRegExp_matchesAt_iff _).mpr ⟨?_, ?_⟩⟩
  · obtain ⟨x, hx, hl⟩ := hlower
    obtain ⟨a, u, hs⟩ := List.append_of_mem hx
    refine ⟨a, x, u, hs, ?_, hl⟩
    intro y hy
    have : y ∈ s.data := by rw [hs]; simp [hy]
    simp [dot, hline y this]
  · obtain ⟨x, hx, hl⟩ := hupper
    obtain ⟨a, u, hs⟩ := List.append_of_mem hx
    refine ⟨a, x, u, hs, ?_, hl⟩
    intro y hy
    have : y ∈ s.data := by rw [hs]; simp [hy]
    simp [dot, hline y this]

/-- What Signup's `validateForm` returns, in terms of the tests the code performs. -/
theorem Signup_validateForm_iff (formData : Signup.FormData) :
    (Signup.validateForm formData).2 = true ↔
      (2 ≤ jsLength (trim formData.fullName) ∧
        trim formData.email ≠ "" ∧ emailRegExp.test formData.email = true ∧
        8 ≤ jsLength formData.password ∧ mixedCaseRegExp.test formData.password = true ∧
        digitRegExp.test formData.password = true ∧
        formData.confirmPassword ≠ "" ∧ formData.password = formData.confirmPassword) := by
  obtain ⟨fullName, email, password, confirmPassword⟩ := formData
  simp only [Signup.validateForm, Signup.fullNameError, Signup.emailError,
    Signup.passwordError, Signup.confirmPasswordError]
  constructor
  · intro h
    by_cases h1 : trim fullName = ""
    · simp [h1] at h
    by_cases h2 : jsLength (trim fullName) < 2
    · simp [h1, h2] at h
    by_cases h3 : trim email = ""
    · simp [h1, h2, h3] at h
    by_cases h4 : emailRegExp.test email = true
    swap
    · simp [h1, h2, h3, h4] at h
    by_cases h5 : password = ""
    · simp [h1, h2, h3, h4, h5] at h
    by_cases h6 : jsLength password < 8
    · simp [h1, h2, h3, h4, h5, h6] at h
    by_cases h7 : mixedCaseRegExp.test password = true
    swap
    · simp [h1, h2, h3, h4, h5, h6, h7] at h
    by_cases h8 : digitRegExp.test password = true
    swap
    · simp [h1, h2, h3, h4, h5, h6, h7, h8] at h
    by_cases h9 : confirmPassword = ""
    · simp [h1, h2, h3, h4, h5, h6, h7, h8, h9] at h
    by_cases h10 : password = confirmPassword
    swap
    · simp [h1, h2, h3, h4, h5, h6, h7, h8, h9, h10] at h
    exact ⟨by omega, h3, h4, by omega, h7, h8, h9, h10⟩
  · rintro ⟨h2, h3, h4, h6, h7, h8, h9, h10⟩
    have h1 : trim fullName ≠ "" := ne_empty_of_jsLength_pos _ (by omega)
    have h5 : password ≠ "" := ne_empty_of_jsLength_pos _ (by omega)
    have h2' : ¬ jsLength (trim fullName) < 2 := by omega
    have h6' : ¬ jsLength password < 8 := by omega
    subst h10
    simp [h1, h2', h3, h4, h5, h6', h7, h8]

/-- On passwords without line terminators, Signup's `validateForm` returns `true`
exactly when the full name trimmed has length at least 2, the email is non-blank and
passes the email test, the password has length at least 8 and contains a lowercase
letter, an uppercase letter and a digit, and the confirmation is non-empty and equal to
the password. -/
theorem Signup_validateForm_iff_of_single_line (formData : Signup.FormData)
    (hline : ∀ x ∈ formData.password.data, isLineTerminator x = false) :
    (Signup.validateForm formData).2 = true ↔
      (2 ≤ jsLength (trim formData.fullName) ∧
        trim formData.email ≠ "" ∧ emailRegExp.test formData.email = true ∧
        8 ≤ jsLength formData.password ∧
        (∃ x ∈ formData.password.data, isLower x = true) ∧
        (∃ x ∈ formData.password.data, isUpper x = true) ∧
        (∃ x ∈ formData.password.data, isDigit x = true) ∧
        formData.confirmPassword ≠ "" ∧ formData.password = formData.confirmPassword) := by
  rw [Signup_validateForm_iff, digitRegExp_test_iff]
  constructor
  · rintro ⟨h2, h3, h4, h6, h7, h8, h9, h10⟩
    obtain ⟨hl, hu⟩ := mixedCaseRegExp_test_imp _ h7
    exact ⟨h2, h3, h4, h6, hl, hu, h8, h9, h10⟩
  · rintro ⟨h2, h3, h4, h6, hl, hu, h8, h9, h10⟩
    exact ⟨h2, h3, h4, h6, mixedCaseRegExp_test_of_single_line _ hline hl hu, h8, h9, h10⟩
/-! ### The code at a password with a line separator -/

/-- C9, the code at the failing input: the password `A`, U+2028, `a123456` has length 9
and contains an uppercase letter, a lowercase letter and a digit, and every other field
meets its rule, yet `validateForm` returns `false` with the password error
`Password must contain uppercase and lowercase letters`: the `.` of
`/(?=.*[a-z])(?=.*[A-Z])/` does not cross the line separator. -/
theorem Signup_validateForm_rejects_mixed_case_across_line_separator :
    Signup.validateForm
        { fullName := "Al", email := "a@b.c",
          password := String.mk ['A', Char.ofNat 8232, 'a', '1', '2', '3', '4', '5', '6'],
          confirmPassword := String.mk ['A', Char.ofNat 8232, 'a', '1', '2', '3', '4', '5', '6'] }
      = ({ fullName := none, email := none,
           password := some "Password must contain uppercase and lowercase letters",
           confirmPassword := none }, false) ∧
    2 ≤ jsLength (trim "Al") ∧ trim "a@b.c" ≠ "" ∧ emailRegExp.test "a@b.c" = true ∧
    8 ≤ jsLength (String.mk ['A', Char.ofNat 8232, 'a', '1', '2', '3', '4', '5', '6']) ∧
    (['A', Char.ofNat 8232, 'a', '1', '2', '3', '4', '5', '6'].any isLower) = true ∧
    (['A', Char.ofNat 8232, 'a', '1', '2', '3', '4', '5', '6'].any isUpper) = true ∧
    (['A', Char.ofNat 8232, 'a', '1', '2', '3', '4', '5', '6'].any isDigit) = true := by
  decide

/-! ## C11: the case-mixing message of the signup password rule -/

theorem any_eq_false_iff_not_exists {α : Type} (p : α → Bool) (l : List α) :
    l.any p = false ↔ ¬ ∃ x ∈ l, p x = true := by
  rw [← Bool.not_eq_true, List.any_eq_true]

/-- C11: for every password of length at least 8 that lacks an uppercase letter or lacks
a lowercase letter, the password error of the signup form is exactly
`Password must contain uppercase and lowercase letters`, whether or not the password
contains a digit; this is so for `password123`, and `Password1` produces no password
error. -/
theorem Signup_password_case_message (formData : Signup.FormData)
    (hlen : 8 ≤ jsLength formData.password)
    (hcase : formData.password.data.any isUpper = false ∨
      formData.password.data.any isLower = false) :
    (Signup.validateForm formData).1.password
      = some "Password must contain uppercase and lowercase letters" ∧
    Signup.passwordError "password123"
      = some "Password must contain uppercase and lowercase letters" ∧
    Signup.passwordError "Password1" = none := by
  refine ⟨?_, by decide, by decide⟩
  have hne : formData.password ≠ "" := ne_empty_of_jsLength_pos _ (by omega)
  have hlen2 : ¬ jsLength formData.password < 8 := by omega
  have htest : mixedCaseRegExp.test formData.password = false := by
    cases h : mixedCaseRegExp.test formData.password with
    | false => rfl
    | true =>
      obtain ⟨hl, hu⟩ := mixedCaseRegExp_test_imp _ h
      rcases hcase with hc | hc
      · exact absurd hu ((any_eq_false_iff_not_exists _ _).mp hc)
      · exact absurd hl ((any_eq_false_iff_not_exists _ _).mp hc)
  simp [Signup.validateForm, Signup.passwordError, hne, hlen2, htest]

/-- Witness for C11: the form of the integration test, with password `password123`. -/
theorem Signup_password_case_message_witness :
    (Signup.validateForm
      { fullName := "Test User", email := "test@example.com", password := "password123",
        confirmPassword := "password123" }).1.password
      = some "Password must contain uppercase and lowercase letters" :=
  (Signup_password_case_message
    { fullName := "Test User", email := "test@example.com", password := "password123",
      confirmPassword := "password123" } (by decide) (Or.inl (by decide))).1

/-! ## C12: every failing field is reported in the same pass -/

theorem Login_emailError_truthy (email : String)
    (h : ¬ (trim email ≠ "" ∧ emailRegExp.test email = true)) :
    strTruthy (Login.emailError email) = true := by
  unfold Login.emailError
  by_cases h1 : trim email = ""
  · simp [h1, strTruthy]
  · by_cases h2 : emailRegExp.test email = true
    · exact absurd ⟨h1, h2⟩ h
    · simp [h1, h2, strTruthy]

theorem Login_passwordError_truthy (password : String) (h : ¬ 6 ≤ jsLength password) :
    strTruthy (Login.passwordError password) = true := by
  unfold Login.passwordError
  by_cases h1 : password = ""
  · simp [h1, strTruthy]
  · have h2 : jsLength password < 6 := by omega
    simp [h1, h2, strTruthy]

theorem Signup_fullNameError_truthy (fullName : String)
    (h : ¬ 2 ≤ jsLength (trim fullName)) :
    strTruthy (Signup.fullNameError fullName) = true := by
  unfold Signup.fullNameError
  by_cases h1 : trim fullName = ""
  · simp [h1, strTruthy]
  · have h2 : jsLength (trim fullName) < 2 := by omega
    simp [h1, h2, strTruthy]

theorem Signup_emailError_truthy (email : String)
    (h : ¬ (trim email ≠ "" ∧ emailRegExp.test email = true)) :
    strTruthy (Signup.emailError email) = true := by
  unfold Signup.emailError
  by_cases h1 : trim email = ""
  · simp [h1, strTruthy]
  · by_cases h2 : emailRegExp.test email = true
    · exact absurd ⟨h1, h2⟩ h
    · simp [h1, h2, strTruthy]

theorem Signup_passwordError_eq_none_imp (password : String)
    (h : Signup.passwordError password = none) :
    8 ≤ jsLength password ∧ mixedCaseRegExp.test password = true ∧
      digitRegExp.test password = true := by
  unfold Signup.passwordError at h
  by_cases h1 : password = ""
  · simp [h1] at h
  by_cases h2 : jsLength password < 8
  · simp [h1, h2] at h
  by_cases h3 : mixedCaseRegExp.test password = true
  swap
  · simp [h1, h2, h3] at h
  by_cases h4 : digitRegExp.test password = true
  swap
  · simp [h1, h2, h3, h4] at h
  exact ⟨by omega, h3, h4⟩

theorem Signup_passwordError_truthy_of_ne_none (password : String)
    (h : Signup.passwordError password ≠ none) :
    strTruthy (Signup.passwordError password) = true := by
  unfold Signup.passwordError at h ⊢
  by_cases h1 : password = ""
  · simp [h1, strTruthy]
  by_cases h2 : jsLength password < 8
  · simp [h1, h2, strTruthy]
  by_cases h3 : mixedCaseRegExp.test password = true
  swap
  · simp [h1, h2, h3, strTruthy]
  by_cases h4 : digitRegExp.test password = true
  swap
  · simp [h1, h2, h3, h4, strTruthy]
  simp [h1, h2, h3, h4] at h

theorem Signup_passwordError_truthy (password : String)
    (h : ¬ (8 ≤ jsLength password ∧ password.data.any isLower = true ∧
      password.data.any isUpper = true ∧ password.data.any isDigit = true)) :
    strTruthy (Signup.passwordError password) = true := by
  apply Signup_passwordError_truthy_of_ne_none
  intro hn
  obtain ⟨h1, h2, h3⟩ := Signup_passwordError_eq_none_imp _ hn
  obtain ⟨hl, hu⟩ := mixedCaseRegExp_test_imp _ h2
  have hd := (digitRegExp_test_iff _).mp h3
  exact h ⟨h1, List.any_eq_true.mpr hl, List.any_eq_true.mpr hu, List.any_eq_true.mpr hd⟩

theorem Signup_confirmPasswordError_truthy (password confirmPassword : String)
    (h : ¬ (confirmPassword ≠ "" ∧ confirmPassword = password)) :
    strTruthy (Signup.confirmPasswordError password confirmPassword) = true := by
  unfold Signup.confirmPasswordError
  by_cases h1 : confirmPassword = ""
  · simp [h1, strTruthy]
  · have h2 : password ≠ confirmPassword := fun e => h ⟨h1, e.symm⟩
    simp [h1, h2, strTruthy]

/-- C12: validation does not stop at the first failure.  For every login form and every
signup form, the error map of one `validateForm` pass holds a non-empty message for every
field that violates its own rule (login: email non-blank and passing the email test,
password of length at least 6; signup: full name of trimmed length at least 2, email as
before, password of length at least 8 with a lowercase letter, an uppercase letter and a
digit, confirmation non-empty and equal to the password).  Submitting the entirely empty
login form yields `Email is required` and `Password is required` together, and
submitting the entirely empty signup form yields `Full name is required`,
`Email is required`, `Password is required` and `Please confirm your password`
together. -/
theorem validation_reports_every_failing_field :
    (∀ f : Login.FormData,
      (¬ (trim f.email ≠ "" ∧ emailRegExp.test f.email = true) →
        strTruthy (Login.validateForm f).1.email = true) ∧
      (¬ 6 ≤ jsLength f.password → strTruthy (Login.validateForm f).1.password = true)) ∧
    (∀ f : Signup.FormData,
      (¬ 2 ≤ jsLength (trim f.fullName) →
        strTruthy (Signup.validateForm f).1.fullName = true) ∧
      (¬ (trim f.email ≠ "" ∧ emailRegExp.test f.email = true) →
        strTruthy (Signup.validateForm f).1.email = true) ∧
      (¬ (8 ≤ jsLength f.password ∧ f.password.data.any isLower = true ∧
          f.password.data.any isUpper = true ∧ f.password.data.any isDigit = true) →
        strTruthy (Signup.validateForm f).1.password = true) ∧
      (¬ (f.confirmPassword ≠ "" ∧ f.confirmPassword = f.password) →
        strTruthy (Signup.validateForm f).1.confirmPassword = true)) ∧
    (∀ (st : Storage) (outcome : Except JVal JVal),
      (Login.handleSubmit Login.initial st outcome).state.errors
        = { email := some "Email is required", password := some "Password is required" }) ∧
    (∀ (st : Storage) (outcome : Except JVal JVal),
      (Signup.handleSubmit Signup.initial st outcome).state.errors
        = { fullName := some "Full name is required", email := some "Email is required",
            password := some "Password is required",
            confirmPassword := some "Please confirm your password" }) := by
  refine ⟨fun f => ⟨Login_emailError_truthy _, Login_passwordError_truthy _⟩,
    fun f => ⟨Signup_fullNameError_truthy _, Signup_emailError_truthy _,
      Signup_passwordError_truthy _, Signup_confirmPasswordError_truthy _ _⟩,
    fun st outcome => rfl, fun st outcome => rfl⟩

/-! ## C13: missing required fields -/

/-- C13, as stated, fails: in this signup form only the password is left empty and the
three other fields are filled in, the full name and the email meeting their rules, yet
two fields receive a message: the password (`Password is required`) and the filled-in
confirmation (`Passwords do not match`). -/
theorem Signup_missing_password_flags_confirmation :
    (Signup.validateForm
      { fullName := "Test User", email := "test@example.com", password := "",
        confirmPassword := "Password1" }).1
      = { fullName := none, email := none, password := some "Password is required",
          confirmPassword := some "Passwords do not match" } ∧
    2 ≤ jsLength (trim "Test User") ∧ trim "test@example.com" ≠ "" ∧
    emailRegExp.test "test@example.com" = true ∧ ("Password1" : String) ≠ "" := by
  decide

theorem Login_emailError_truthy_iff (email : String)
    (h : email = "" ∨ (trim email ≠ "" ∧ emailRegExp.test email = true)) :
    strTruthy (Login.emailError email) = true ↔ email = "" := by
  unfold Login.emailError
  rcases h with h | ⟨h1, h2⟩
  · subst h
    decide
  · have hne : email ≠ "" := by
      rintro rfl
      exact h1 (by decide)
    simp [h1, h2, hne, strTruthy]

theorem Login_passwordError_truthy_iff (password : String)
    (h : password = "" ∨ 6 ≤ jsLength password) :
    strTruthy (Login.passwordError password) = true ↔ password = "" := by
  unfold Login.passwordError
  rcases h with h | h
  · subst h
    decide
  · have hne : password ≠ "" := ne_empty_of_jsLength_pos _ (by omega)
    have h2 : ¬ jsLength password < 6 := by omega
    simp [hne, h2, strTruthy]

theorem Signup_fullNameError_truthy_iff (fullName : String)
    (h : fullName = "" ∨ 2 ≤ jsLength (trim fullName)) :
    strTruthy (Signup.fullNameError fullName) = true ↔ fullName = "" := by
  unfold Signup.fullNameError
  rcases h with h | h
  · subst h
    decide
  · have h1 : trim fullName ≠ "" := ne_empty_of_jsLength_pos _ (by omega)
    have hne : fullName ≠ "" := by
      rintro rfl
      exact h1 (by decide)
    have h2 : ¬ jsLength (trim fullName) < 2 := by omega
    simp [h1, h2, hne, strTruthy]

theorem Signup_emailError_truthy_iff (email : String)
    (h : email = "" ∨ (trim email ≠ "" ∧ emailRegExp.test email = true)) :
    strTruthy (Signup.emailError email) = true ↔ email = "" := by
  unfold Signup.emailError
  rcases h with h | ⟨h1, h2⟩
  · subst h
    decide
  · have hne : email ≠ "" := by
      rintro rfl
      exact h1 (by decide)
    simp [h1, h2, hne, strTruthy]

theorem Signup_passwordError_truthy_iff (password : String)
    (h : password = "" ∨
      (8 ≤ jsLength password ∧ password.data.any isLower = true ∧
        password.data.any isUpper = true ∧ password.data.any isDigit = true ∧
        ∀ x ∈ password.data, isLineTerminator x = false)) :
    strTruthy (Signup.passwordError password) = true ↔ password = "" := by
  unfold Signup.passwordError
  rcases h with h | ⟨h1, hl, hu, hd, hline⟩
  · subst h
    decide
  · have hne : password ≠ "" := ne_empty_of_jsLength_pos _ (by omega)
    have h2 : ¬ jsLength password < 8 := by omega
    have h3 : mixedCaseRegExp.test password = true :=
      mixedCaseRegExp_test_of_single_line _ hline (List.any_eq_true.mp hl)
        (List.any_eq_true.mp hu)
    have h4 : digitRegExp.test password = true :=
      (digitRegExp_test_iff _).mpr (List.any_eq_true.mp hd)
    simp [hne, h2, h3, h4, strTruthy]

theorem Signup_confirmPasswordError_truthy_iff (password confirmPassword : String)
    (h : confirmPassword = "" ∨ confirmPassword = password) :
    strTruthy (Signup.confirmPasswordError password confirmPassword) = true
      ↔ confirmPassword = "" := by
  unfold Signup.confirmPasswordError
  by_cases h1 : confirmPassword = ""
  · simp [h1, strTruthy]
  · have h2 : password = confirmPassword := by
      rcases h with h | h
      · exact absurd h h1
      · exact h.symm
    simp [h1, h2, strTruthy]

/-- C13, amended: for every login form and every signup form in which each field is
either left empty or filled in with a value meeting its own rule (email: non-blank and
passing the email test; login password: length at least 6; full name: trimmed length at
least 2; signup password: length at least 8 with a lowercase letter, an uppercase letter
and a digit, on a single line; confirmation: equal to the password), the fields that
receive a non-empty error message are exactly the fields left empty. -/
theorem missing_fields_are_exactly_the_flagged_fields
    (login : Login.FormData) (signup : Signup.FormData)
    (hLoginEmail : login.email = "" ∨
      (trim login.email ≠ "" ∧ emailRegExp.test login.email = true))
    (hLoginPassword : login.password = "" ∨ 6 ≤ jsLength login.password)
    (hFullName : signup.fullName = "" ∨ 2 ≤ jsLength (trim signup.fullName))
    (hEmail : signup.email = "" ∨
      (trim signup.email ≠ "" ∧ emailRegExp.test signup.email = true))
    (hPassword : signup.password = "" ∨
      (8 ≤ jsLength signup.password ∧ signup.password.data.any isLower = true ∧
        signup.password.data.any isUpper = true ∧ signup.password.data.any isDigit = true ∧
        ∀ x ∈ signup.password.data, isLineTerminator x = false))
    (hConfirm : signup.confirmPassword = "" ∨ signup.confirmPassword = signup.password) :
    ((strTruthy (Login.validateForm login).1.email = true ↔ login.email = "") ∧
      (strTruthy (Login.validateForm login).1.password = true ↔ login.password = "")) ∧
    ((strTruthy (Signup.validateForm signup).1.fullName = true ↔ signup.fullName = "") ∧
      (strTruthy (Signup.validateForm signup).1.email = true ↔ signup.email = "") ∧
      (strTruthy (Signup.validateForm signup).1.password = true ↔ signup.password = "") ∧
      (strTruthy (Signup.validateForm signup).1.confirmPassword = true
        ↔ signup.confirmPassword = "")) :=
  ⟨⟨Login_emailError_truthy_iff _ hLoginEmail, Login_passwordError_truthy_iff _ hLoginPassword⟩,
    Signup_fullNameError_truthy_iff _ hFullName, Signup_emailError_truthy_iff _ hEmail,
    Signup_passwordError_truthy_iff _ hPassword,
    Signup_confirmPasswordError_truthy_iff _ _ hConfirm⟩

/-- Witness for C13: a login form without password and a signup form without full
name. -/
theorem missing_fields_are_exactly_the_flagged_fields_witness :
    (Login.validateForm { email := "test@example.com", password := "" }).1
      = { email := none, password := some "Password is required" } ∧
    (strTruthy (Signup.validateForm
      { fullName := "", email := "test@example.com", password := "Password1",
        confirmPassword := "Password1" }).1.fullName = true ↔ ("" : String) = "") :=
  ⟨by decide,
    (missing_fields_are_exactly_the_flagged_fields
      { email := "test@example.com", password := "" }
      { fullName := "", email := "test@example.com", password := "Password1",
        confirmPassword := "Password1" }
      (Or.inr (by decide)) (Or.inl rfl) (Or.inl rfl) (Or.inr (by decide))
      (Or.inr (by decide)) (Or.inr rfl)).2.1⟩

/-! ## C14: submitting a form that fails validation -/

/-- C14: for every login state and every signup state whose form fails validation,
submitting makes no call to the API client, leaves the session store unchanged, sets the
error map to the validation result, and does not touch the in-flight flag, which
therefore stays `false` on a form that is not in flight; the handler neither navigates
nor raises. -/
theorem submit_invalid_form_stays_idle (login : Login.State) (signup : Signup.State)
    (st : Storage) (outcome : Except JVal JVal)
    (hLogin : (Login.validateForm login.formData).2 = false)
    (hSignup : (Signup.validateForm signup.formData).2 = false) :
    ((Login.handleSubmit login st outcome).calls = [] ∧
      (Login.handleSubmit login st outcome).store = st ∧
      (Login.handleSubmit login st outcome).state.errors = (Login.validateForm login.formData).1 ∧
      (Login.handleSubmit login st outcome).state.isLoading = login.isLoading ∧
      (login.isLoading = false → (Login.handleSubmit login st outcome).state.isLoading = false) ∧
      (Login.handleSubmit login st outcome).navigations = [] ∧
      (Login.handleSubmit login st outcome).raised = none) ∧
    ((Signup.handleSubmit signup st outcome).calls = [] ∧
      (Signup.handleSubmit signup st outcome).store = st ∧
      (Signup.handleSubmit signup st outcome).state.errors
        = (Signup.validateForm signup.formData).1 ∧
      (Signup.handleSubmit signup st outcome).state.isLoading = signup.isLoading ∧
      (signup.isLoading = false →
        (Signup.handleSubmit signup st outcome).state.isLoading = false) ∧
      (Signup.handleSubmit signup st outcome).navigations = [] ∧
      (Signup.handleSubmit signup st outcome).timers = [] ∧
      (Signup.handleSubmit signup st outcome).raised = none) := by
  constructor
  · unfold Login.handleSubmit
    simp only [hLogin]
    exact ⟨rfl, rfl, rfl, rfl, fun h => h, rfl, rfl⟩
  · unfold Signup.handleSubmit
    simp only [hSignup]
    exact ⟨rfl, rfl, rfl, rfl, fun h => h, rfl, rfl, rfl⟩

/-- Witness for C14: the entirely empty forms, as in the integration test. -/
theorem submit_invalid_form_stays_idle_witness :
    (Login.handleSubmit Login.initial [("token", "T")] (.ok .null)).calls = [] ∧
    (Login.handleSubmit Login.initial [("token", "T")] (.ok .null)).store = [("token", "T")] :=
  have h := (submit_invalid_form_stays_idle Login.initial Signup.initial [("token", "T")]
    (.ok .null) (by decide) (by decide)).1
  ⟨h.1, h.2.1⟩

/-! ## C15: typing into a field -/

theorem Login_Errors_get_set_self (errors : Login.Errors) (name : Login.Field)
    (message : String) : (errors.set name message).get name = some message := by
  cases name <;> rfl

theorem Login_Errors_get_set_other (errors : Login.Errors) (name other : Login.Field)
    (message : String) (h : other ≠ name) :
    (errors.set name message).get other = errors.get other := by
  cases name <;> cases other <;> first | rfl | exact absurd rfl h

theorem Login_FormData_get_set_self (formData : Login.FormData) (name : Login.Field)
    (value : String) : (formData.set name value).get name = value := by
  cases name <;> rfl

theorem Login_FormData_get_set_other (formData : Login.FormData) (name other : Login.Field)
    (value : String) (h : other ≠ name) :
    (formData.set name value).get other = formData.get other := by
  cases name <;> cases other <;> first | rfl | exact absurd rfl h

theorem Signup_Errors_get_set_self (errors : Signup.Errors) (name : Signup.Field)
    (message : String) : (errors.set name message).get name = some message := by
  cases name <;> rfl

theorem Signup_Errors_get_set_other (errors : Signup.Errors) (name other : Signup.Field)
    (message : String) (h : other ≠ name) :
    (errors.set name message).get other = errors.get other := by
  cases name <;> cases other <;> first | rfl | exact absurd rfl h

theorem Signup_FormData_get_set_self (formData : Signup.FormData) (name : Signup.Field)
    (value : String) : (formData.set name value).get name = value := by
  cases name <;> rfl

theorem Signup_FormData_get_set_other (formData : Signup.FormData) (name other : Signup.Field)
    (value : String) (h : other ≠ name) :
    (formData.set name value).get other = formData.get other := by
  cases name <;> cases other <;> first | rfl | exact absurd rfl h

theorem Login_handleChange_errors (s : Login.State) (name : Login.Field) (value : String) :
    (Login.handleChange s name value).errors
      = if strTruthy (s.errors.get name) then s.errors.set name "" else s.errors := rfl

theorem Signup_handleChange_errors (s : Signup.State) (name : Signup.Field) (value : String) :
    (Signup.handleChange s name value).errors
      = if strTruthy (s.errors.get name) then s.errors.set name "" else s.errors := rfl

/-- C15: for every login or signup state and every change event (field, new value):
afterwards that field holds the new value; that field's error message is empty (absent
or the empty string) whatever the new value, since nothing is validated; the
server-error message is the empty string; and the values and the error messages of all
other fields, and the in-flight flag, are unchanged. -/
theorem handleChange_frame :
    (∀ (s : Login.State) (name : Login.Field) (value : String),
      (Login.handleChange s name value).formData.get name = value ∧
      strTruthy ((Login.handleChange s name value).errors.get name) = false ∧
      ((Login.handleChange s name value).errors.get name = none ∨
        (Login.handleChange s name value).errors.get name = some "") ∧
      (Login.handleChange s name value).serverError = .str "" ∧
      (Login.handleChange s name value).isLoading = s.isLoading ∧
      (∀ other : Login.Field, other ≠ name →
        (Login.handleChange s name value).formData.get other = s.formData.get other ∧
        (Login.handleChange s name value).errors.get other = s.errors.get other)) ∧
    (∀ (s : Signup.State) (name : Signup.Field) (value : String),
      (Signup.handleChange s name value).formData.get name = value ∧
      strTruthy ((Signup.handleChange s name value).errors.get name) = false ∧
      ((Signup.handleChange s name value).errors.get name = none ∨
        (Signup.handleChange s name value).errors.get name = some "") ∧
      (Signup.handleChange s name value).serverError = .str "" ∧
      (Signup.handleChange s name value).isLoading = s.isLoading ∧
      (∀ other : Signup.Field, other ≠ name →
        (Signup.handleChange s name value).formData.get other = s.formData.get other ∧
        (Signup.handleChange s name value).errors.get other = s.errors.get other)) := by
  constructor
  · intro s name value
    have hfalse : strTruthy ((Login.handleChange s name value).errors.get name) = false := by
      rw [Login_handleChange_errors]
      by_cases h : strTruthy (s.errors.get name) = true
      · rw [if_pos h, Login_Errors_get_set_self]
        rfl
      · rw [if_neg h]
        simpa using h
    refine ⟨Login_FormData_get_set_self _ _ _, hfalse, (strTruthy_eq_false_iff _).mp hfalse,
      rfl, rfl, ?_⟩
    intro other hother
    refine ⟨Login_FormData_get_set_other _ _ _ _ hother, ?_⟩
    rw [Login_handleChange_errors]
    by_cases h : strTruthy (s.errors.get name) = true
    · rw [if_pos h, Login_Errors_get_set_other _ _ _ _ hother]
    · rw [if_neg h]
  · intro s name value
    have hfalse : strTruthy ((Signup.handleChange s name value).errors.get name) = false := by
      rw [Signup_handleChange_errors]
      by_cases h : strTruthy (s.errors.get name) = true
      · rw [if_pos h, Signup_Errors_get_set_self]
        rfl
      · rw [if_neg h]
        simpa using h
    refine ⟨Signup_FormData_get_set_self _ _ _, hfalse, (strTruthy_eq_false_iff _).mp hfalse,
      rfl, rfl, ?_⟩
    intro other hother
    refine ⟨Signup_FormData_get_set_other _ _ _ _ hother, ?_⟩
    rw [Signup_handleChange_errors]
    by_cases h : strTruthy (s.errors.get name) = true
    · rw [if_pos h, Signup_Errors_get_set_other _ _ _ _ hother]
    · rw [if_neg h]

/-! ## Lemmas on property reads and on the auth service results -/

theorem getProp_eq_ok_optProp (v : JVal) (key : String) (h : v.isNullish = false) :
    v.getProp key = .ok (v.optProp key) := by
  cases v <;> simp_all [JVal.getProp, JVal.optProp, JVal.isNullish]

theorem not_nullish_of_getProp_ok (v w : JVal) (key : String) (h : v.getProp key = .ok w) :
    v.isNullish = false := by
  cases v <;> simp_all [JVal.getProp, JVal.isNullish]

theorem rethrow_of_not_nullish (error : JVal) (h : error.isNullish = false) :
    authService.rethrow error = .error error := by
  unfold authService.rethrow
  rw [getProp_eq_ok_optProp _ _ h]

theorem persist_result_of_not_nullish (st : Storage) (call : RequestConfig) (data : JVal)
    (h : data.isNullish = false) : (authService.persist st call data).result = .ok data := by
  unfold authService.persist
  rw [getProp_eq_ok_optProp _ "token" h, getProp_eq_ok_optProp _ "user" h]
  by_cases ht : (data.optProp "token").truthy = true <;> simp [ht]

theorem persist_calls (st : Storage) (call : RequestConfig) (data : JVal) :
    (authService.persist st call data).calls = [call] := by
  unfold authService.persist
  cases data.getProp "token" with
  | error e => rfl
  | ok token =>
    by_cases ht : token.truthy = true
    · cases data.getProp "user" <;> simp [ht]
    · simp [ht]

/-! ## C16: the login flow on success -/

/-- C16, as stated, fails.  For the valid form `john.doe@example.com` / `SecurePass123`
and the 2xx body with `token` the empty string and an admin user, the flow navigates to
`/admin` but the session is not populated: the store stays empty.  And for a 2xx body
whose `user` is `null`, the session is written but no navigation is emitted: reading
`result.user.role` throws and the failure handler shows that error. -/
theorem Login_success_without_session_or_navigation :
    ((Login.handleSubmit
        { Login.initial with
          formData := { email := "john.doe@example.com", password := "SecurePass123" } } []
        (.ok (.obj [("token", .str ""), ("user", .obj [("role", .str "admin")])]))).navigations
        = ["/admin"] ∧
      (Login.handleSubmit
        { Login.initial with
          formData := { email := "john.doe@example.com", password := "SecurePass123" } } []
        (.ok (.obj [("token", .str ""), ("user", .obj [("role", .str "admin")])]))).store
        = []) ∧
    ((Login.handleSubmit
        { Login.initial with
          formData := { email := "john.doe@example.com", password := "SecurePass123" } } []
        (.ok (.obj [("token", .str "test-jwt-token-123"), ("user", .null)]))).navigations = [] ∧
      (Login.handleSubmit
        { Login.initial with
          formData := { email := "john.doe@example.com", password := "SecurePass123" } } []
        (.ok (.obj [("token", .str "test-jwt-token-123"), ("user", .null)]))).store
        = [("token", "test-jwt-token-123"), ("user", "null")]) := by
  decide

/-- C16, amended: for every valid login form and every 2xx login response whose `token`
is a non-empty string and whose `user` is a user record (not `null`), the login flow
populates the session (the token under `token`, the serialised user under `user`) and
emits exactly one navigation instruction, to `/admin` when the role of the user is
`admin` and to `/dashboard` for every other role; it starts no timer, does not raise, and
ends with the in-flight flag `false`. -/
theorem Login_handleSubmit_success (s : Login.State) (st : Storage) (data user : JVal)
    (t : String) (hvalid : (Login.validateForm s.formData).2 = true)
    (htoken : data.getProp "token" = .ok (.str t)) (hne : t ≠ "")
    (huser : data.getProp "user" = .ok user) (hrecord : user.isNullish = false) :
    (Login.handleSubmit s st (.ok data)).store.getItem "token" = some t ∧
    (Login.handleSubmit s st (.ok data)).store.getItem "user" = some (serialise user) ∧
    (user.optProp "role" = .str "admin" →
      (Login.handleSubmit s st (.ok data)).navigations = ["/admin"]) ∧
    (user.optProp "role" ≠ .str "admin" →
      (Login.handleSubmit s st (.ok data)).navigations = ["/dashboard"]) ∧
    (Login.handleSubmit s st (.ok data)).timers = [] ∧
    (Login.handleSubmit s st (.ok data)).raised = none ∧
    (Login.handleSubmit s st (.ok data)).state.isLoading = false := by
  obtain ⟨hs, hr⟩ := persist_truthy_token st
    (api.request st "post" "/auth/login"
      (.obj [("email", .str s.formData.email), ("password", .str s.formData.password)]))
    data user t htoken hne huser
  have hrole := getProp_eq_ok_optProp user "role" hrecord
  have hsub : Login.handleSubmit s st (.ok data) =
      { state := { s with serverError := .str "", errors := (Login.validateForm s.formData).1,
                          isLoading := false }
        store := (st.setItem "token" t).setItem "user" (serialise user)
        calls := [api.request st "post" "/auth/login"
          (.obj [("email", .str s.formData.email), ("password", .str s.formData.password)])]
        navigations := [if (user.optProp "role").strictEqStr "admin" then "/admin"
          else "/dashboard"]
        timers := []
        raised := none } := by
    unfold Login.handleSubmit
    simp [hvalid, authService.login, hr, hs, huser, hrole, persist_calls]
  rw [hsub]
  refine ⟨?_, ?_, ?_, ?_, rfl, rfl, rfl⟩
  · show Storage.getItem ((st.setItem "token" t).setItem "user" (serialise user)) "token" = some t
    rw [Storage.getItem_setItem_other _ "user" _ "token" (by decide),
      Storage.getItem_setItem_self]
  · exact Storage.getItem_setItem_self _ _ _
  · intro h
    have := (strictEqStr_eq_true_iff _ _).mpr h
    simp [this]
  · intro h
    have : (user.optProp "role").strictEqStr "admin" = false := by
      cases hb : (user.optProp "role").strictEqStr "admin" with
      | false => rfl
      | true => exact absurd ((strictEqStr_eq_true_iff _ _).mp hb) h
    simp [this]

/-- Witness for C16: `john.doe@example.com` / `SecurePass123` against the response of the
test server, whose user has role `admin`, navigates to `/admin`. -/
theorem Login_handleSubmit_success_witness :
    (Login.handleSubmit
      { Login.initial with
        formData := { email := "john.doe@example.com", password := "SecurePass123" } } []
      (.ok (.obj [("token", .str "test-jwt-token-123"),
        ("user", .obj [("email", .str "john.doe@example.com"), ("role", .str "admin")])]))
      ).navigations = ["/admin"] :=
  (Login_handleSubmit_success
    { Login.initial with
      formData := { email := "john.doe@example.com", password := "SecurePass123" } } []
    (.obj [("token", .str "test-jwt-token-123"),
      ("user", .obj [("email", .str "john.doe@example.com"), ("role", .str "admin")])])
    (.obj [("email", .str "john.doe@example.com"), ("role", .str "admin")])
    "test-jwt-token-123" (by decide) rfl (by decide) rfl rfl).2.2.1 rfl

/-! ## C17: the signup flow on success -/

/-- C17, as stated, fails: for the valid signup form of the integration test and a 2xx
response whose user has role `admin`, the flow emits no navigation to `/admin` (nor to
`/dashboard`): it emits none at once and starts one timer that navigates to `/login`
after 2000 ms. -/
theorem Signup_success_navigates_to_login_not_by_role :
    (Signup.handleSubmit
      { Signup.initial with
        formData := { fullName := "Test User", email := "newuser@example.com",
                      password := "SecurePass123", confirmPassword := "SecurePass123" } } []
      (.ok (.obj [("token", .str "test-jwt-token-new"),
        ("user", .obj [("role", .str "admin")])]))).navigations = [] ∧
    (Signup.handleSubmit
      { Signup.initial with
        formData := { fullName := "Test User", email := "newuser@example.com",
                      password := "SecurePass123", confirmPassword := "SecurePass123" } } []
      (.ok (.obj [("token", .str "test-jwt-token-new"),
        ("user", .obj [("role", .str "admin")])]))).timers = [(2000, "/login")] := by
  decide

/-- C17, amended: for every valid signup form and every successful signup response (a
2xx body other than `null`), whatever the role of the returned user, the signup flow
shows the message `Account created successfully! Redirecting to login...`, emits no
navigation at once and starts exactly one timer, which navigates to `/login` after
2000 ms; it does not raise and ends with the in-flight flag `false`. -/
theorem Signup_handleSubmit_success (s : Signup.State) (st : Storage) (data : JVal)
    (hvalid : (Signup.validateForm s.formData).2 = true) (hdata : data.isNullish = false) :
    (Signup.handleSubmit s st (.ok data)).navigations = [] ∧
    (Signup.handleSubmit s st (.ok data)).timers = [(2000, "/login")] ∧
    (Signup.handleSubmit s st (.ok data)).state.successMessage
      = "Account created successfully! Redirecting to login..." ∧
    (Signup.handleSubmit s st (.ok data)).raised = none ∧
    (Signup.handleSubmit s st (.ok data)).state.isLoading = false := by
  have hr := persist_result_of_not_nullish st
    (api.request st "post" "/auth/signup"
      (.obj [("fullName", .str s.formData.fullName), ("email", .str s.formData.email),
        ("password", .str s.formData.password)])) data hdata
  unfold Signup.handleSubmit
  simp only [hvalid, authService.signup, hr]
  exact ⟨rfl, rfl, rfl, rfl, rfl⟩

/-- Witness for C17: the signup of the integration test against the test server, whose
new user has role `user`. -/
theorem Signup_handleSubmit_success_witness :
    (Signup.handleSubmit
      { Signup.initial with
        formData := { fullName := "Test User", email := "newuser@example.com",
                      password := "SecurePass123", confirmPassword := "SecurePass123" } } []
      (.ok (.obj [("token", .str "test-jwt-token-new"),
        ("user", .obj [("role", .str "user")])]))).timers = [(2000, "/login")] :=
  (Signup_handleSubmit_success
    { Signup.initial with
      formData := { fullName := "Test User", email := "newuser@example.com",
                    password := "SecurePass123", confirmPassword := "SecurePass123" } } []
    (.obj [("token", .str "test-jwt-token-new"), ("user", .obj [("role", .str "user")])])
    (by decide) rfl).2.1

/-! ## C18: the server-error message -/

theorem selectErrorMessage_follows_priority (fallback : String) (error : JVal) (m : String)
    (hmsg : error.getProp "message" = .ok (.str m)) :
    ∃ selected, selectErrorMessage fallback error = .ok selected ∧
      FollowsMessagePriority fallback error m selected := by
  have hn := not_nullish_of_getProp_ok _ _ _ hmsg
  have hcode := getProp_eq_ok_optProp error "code" hn
  unfold selectErrorMessage FollowsMessagePriority
  simp only [hcode, hmsg, JVal.includes]
  rcases Bool.eq_false_or_eq_true ((error.optProp "code").strictEqStr "ERR_NETWORK") with h1 | h1
  · exact ⟨.str "Network error. Please check your connection or try again later.",
      by simp [h1], by simp [h1]⟩
  rcases Bool.eq_false_or_eq_true (includesChars "CORS".data m.data) with h2 | h2
  · exact ⟨.str "Server configuration issue. Please contact support.",
      by simp [h1, h2], by simp [h1, h2]⟩
  rcases Bool.eq_false_or_eq_true
    ((((error.optProp "response").optProp "data").optProp "message").truthy) with h3 | h3
  · exact ⟨((error.optProp "response").optProp "data").optProp "message",
      by simp [h1, h2, h3], by simp [h1, h2, h3]⟩
  rcases Bool.eq_false_or_eq_true
    (((((error.optProp "response").optProp "data").optProp "error").optProp "message").truthy)
    with h4 | h4
  · exact ⟨(((error.optProp "response").optProp "data").optProp "error").optProp "message",
      by simp [h1, h2, h3, h4], by simp [h1, h2, h3, h4]⟩
  rcases Bool.eq_false_or_eq_true
    ((((error.optProp "response").optProp "data").optProp "error").truthy) with h5 | h5
  · exact ⟨((error.optProp "response").optProp "data").optProp "error",
      by simp [h1, h2, h3, h4, h5], by simp [h1, h2, h3, h4, h5]⟩
  by_cases h6 : m = ""
  · have hm : (JVal.str m).truthy = false := by simp [JVal.truthy, h6]
    refine ⟨.str fallback, by simp [h1, h2, h3, h4, h5, hm], ?_⟩
    simp only [h1, h2, h3, h4, h5]
    simp
    exact fun h => absurd h6 h
  · have hm : (JVal.str m).truthy = true := by simp [JVal.truthy, h6]
    refine ⟨.str m, by simp [h1, h2, h3, h4, h5, hm], ?_⟩
    simp only [h1, h2, h3, h4, h5]
    simp
    exact fun h => absurd h h6

theorem Login_handleSubmit_failure (s : Login.State) (st : Storage) (error selected : JVal)
    (hvalid : (Login.validateForm s.formData).2 = true) (hn : error.isNullish = false)
    (hsel : selectErrorMessage "Login failed. Please try again." error = .ok selected) :
    (Login.handleSubmit s st (.error error)).state.serverError = selected ∧
    (Login.handleSubmit s st (.error error)).state.isLoading = false ∧
    (Login.handleSubmit s st (.error error)).raised = none ∧
    (Login.handleSubmit s st (.error error)).navigations = [] ∧
    (Login.handleSubmit s st (.error error)).store = st := by
  have hre := rethrow_of_not_nullish error hn
  have hmsg : Login.errorMessage error = .ok selected := by
    unfold Login.errorMessage
    rw [getProp_eq_ok_optProp _ _ hn]
    exact hsel
  unfold Login.handleSubmit
  simp [hvalid, authService.login, hre, Login.handleFailure, hmsg]

theorem Signup_handleSubmit_failure (s : Signup.State) (st : Storage) (error selected : JVal)
    (hvalid : (Signup.validateForm s.formData).2 = true) (hn : error.isNullish = false)
    (hsel : selectErrorMessage "Signup failed. Please try again." error = .ok selected) :
    (Signup.handleSubmit s st (.error error)).state.serverError = selected ∧
    (Signup.handleSubmit s st (.error error)).state.isLoading = false ∧
    (Signup.handleSubmit s st (.error error)).raised = none ∧
    (Signup.handleSubmit s st (.error error)).navigations = [] ∧
    (Signup.handleSubmit s st (.error error)).timers = [] ∧
    (Signup.handleSubmit s st (.error error)).store = st := by
  have hre := rethrow_of_not_nullish error hn
  have hmsg : Signup.errorMessage error = .ok selected := hsel
  unfold Signup.handleSubmit
  simp [hvalid, authService.signup, hre, Signup.handleFailure, hmsg]

/-- C18, as stated, fails, in two ways.  A rejection whose message contains `CORS` and
whose response body carries `message: 'Bad'` shows the configuration text, a rule the
claim does not list, instead of `Bad`.  And a rejection with an empty message, no code
and no response shows the fallback text `Login failed. Please try again.`, not the
(empty) message of the error. -/
theorem Login_failure_message_uses_other_rules :
    (Login.handleSubmit
        { Login.initial with
          formData := { email := "john.doe@example.com", password := "SecurePass123" } } []
        (.error (.obj [("message", .str "CORS request did not succeed"),
          ("response", .obj [("data", .obj [("message", .str "Bad")])])]))).state.serverError
      = .str "Server configuration issue. Please contact support." ∧
    (Login.handleSubmit
        { Login.initial with
          formData := { email := "john.doe@example.com", password := "SecurePass123" } } []
        (.error (.obj [("message", .str "")]))).state.serverError
      = .str "Login failed. Please try again." :=
  ⟨rfl, rfl⟩

/-- C18, amended: for every error object with which a login or signup call rejects and
whose `message` is a string, the single server-error message shown is chosen by this
priority order: (1) the fixed network-error text if `error.code` is `ERR_NETWORK`; else
(2) the fixed configuration text if the message contains `CORS`; else (3)
`response.data.message` if truthy; else (4) `response.data.error.message` if truthy; else
(5) `response.data.error` if truthy; else (6) the message of the error if it is not
empty; else (7) the fallback text of the screen.  The handler does not raise, leaves the
store as it was, and the in-flight flag is `false` afterwards. -/
theorem server_error_message_priority (login : Login.State) (signup : Signup.State)
    (st : Storage) (error : JVal) (m : String)
    (hLogin : (Login.validateForm login.formData).2 = true)
    (hSignup : (Signup.validateForm signup.formData).2 = true)
    (hmsg : error.getProp "message" = .ok (.str m)) :
    (FollowsMessagePriority "Login failed. Please try again." error m
        (Login.handleSubmit login st (.error error)).state.serverError ∧
      (Login.handleSubmit login st (.error error)).state.isLoading = false ∧
      (Login.handleSubmit login st (.error error)).raised = none ∧
      (Login.handleSubmit login st (.error error)).store = st) ∧
    (FollowsMessagePriority "Signup failed. Please try again." error m
        (Signup.handleSubmit signup st (.error error)).state.serverError ∧
      (Signup.handleSubmit signup st (.error error)).state.isLoading = false ∧
      (Signup.handleSubmit signup st (.error error)).raised = none ∧
      (Signup.handleSubmit signup st (.error error)).store = st) := by
  have hn := not_nullish_of_getProp_ok _ _ _ hmsg
  obtain ⟨sel1, hsel1, hp1⟩ :=
    selectErrorMessage_follows_priority "Login failed. Please try again." error m hmsg
  obtain ⟨sel2, hsel2, hp2⟩ :=
    selectErrorMessage_follows_priority "Signup failed. Please try again." error m hmsg
  obtain ⟨a1, a2, a3, _, a5⟩ := Login_handleSubmit_failure login st error sel1 hLogin hn hsel1
  obtain ⟨b1, b2, b3, _, _, b6⟩ :=
    Signup_handleSubmit_failure signup st error sel2 hSignup hn hsel2
  exact ⟨⟨a1 ▸ hp1, a2, a3, a5⟩, ⟨b1 ▸ hp2, b2, b3, b6⟩⟩

/-- Witness for C18: the 401 of the test server, with body
`error: (code: 'unauthorized', message: 'Invalid credentials')`, shows
`Invalid credentials`. -/
theorem server_error_message_priority_witness :
    (Login.handleSubmit
      { Login.initial with
        formData := { email := "invalid@example.com", password := "wrongpassword" } } []
      (.error (.obj [("message", .str "Request failed with status code 401"),
        ("response", .obj [("status", .num 401),
          ("data", .obj [("error", .obj [("code", .str "unauthorized"),
            ("message", .str "Invalid credentials")])])])]))).state.serverError
      = .str "Invalid credentials" :=
  (server_error_message_priority
    { Login.initial with
      formData := { email := "invalid@example.com", password := "wrongpassword" } }
    { Signup.initial with
      formData := { fullName := "Test User", email := "newuser@example.com",
                    password := "SecurePass123", confirmPassword := "SecurePass123" } } []
    (.obj [("message", .str "Request failed with status code 401"),
      ("response", .obj [("status", .num 401),
        ("data", .obj [("error", .obj [("code", .str "unauthorized"),
          ("message", .str "Invalid credentials")])])])])
    "Request failed with status code 401" (by decide) (by decide) rfl).1.1.2.2.2.1
    rfl (by decide) rfl rfl

/-! ## C19: the failure handler completes -/

theorem getProp_error_eq (v e : JVal) (key : String) (h : v.getProp key = .error e) :
    e = JVal.typeError key := by
  cases v <;> simp_all [JVal.getProp]

theorem typeError_message (key : String) :
    ∃ m : String, (JVal.typeError key).getProp "message" = .ok (.str m) :=
  ⟨"Cannot read properties of null or undefined (reading " ++ key ++ ")",
    by simp [JVal.typeError, JVal.getProp, JVal.lookup]⟩

theorem selectErrorMessage_truthy (fallback : String) (error : JVal) (m : String)
    (hfallback : fallback ≠ "") (hmsg : error.getProp "message" = .ok (.str m)) :
    ∃ selected, selectErrorMessage fallback error = .ok selected ∧ selected.truthy = true := by
  have hn := not_nullish_of_getProp_ok _ _ _ hmsg
  have hcode := getProp_eq_ok_optProp error "code" hn
  unfold selectErrorMessage
  simp only [hcode, hmsg, JVal.includes]
  rcases Bool.eq_false_or_eq_true ((error.optProp "code").strictEqStr "ERR_NETWORK") with h1 | h1
  · exact ⟨.str "Network error. Please check your connection or try again later.",
      by simp [h1], by decide⟩
  rcases Bool.eq_false_or_eq_true (includesChars "CORS".data m.data) with h2 | h2
  · exact ⟨.str "Server configuration issue. Please contact support.",
      by simp [h1, h2], by decide⟩
  rcases Bool.eq_false_or_eq_true
    ((((error.optProp "response").optProp "data").optProp "message").truthy) with h3 | h3
  · exact ⟨((error.optProp "response").optProp "data").optProp "message",
      by simp [h1, h2, h3], h3⟩
  rcases Bool.eq_false_or_eq_true
    (((((error.optProp "response").optProp "data").optProp "error").optProp "message").truthy)
    with h4 | h4
  · exact ⟨(((error.optProp "response").optProp "data").optProp "error").optProp "message",
      by simp [h1, h2, h3, h4], h4⟩
  rcases Bool.eq_false_or_eq_true
    ((((error.optProp "response").optProp "data").optProp "error").truthy) with h5 | h5
  · exact ⟨((error.optProp "response").optProp "data").optProp "error",
      by simp [h1, h2, h3, h4, h5], h5⟩
  rcases Bool.eq_false_or_eq_true ((JVal.str m).truthy) with h6 | h6
  · exact ⟨.str m, by simp [h1, h2, h3, h4, h5, h6], h6⟩
  · exact ⟨.str fallback, by simp [h1, h2, h3, h4, h5, h6], by simp [JVal.truthy, hfallback]⟩

theorem persist_error_shape (st : Storage) (call : RequestConfig) (data error : JVal)
    (h : (authService.persist st call data).result = .error error) :
    ∃ m : String, error.getProp "message" = .ok (.str m) := by
  rcases Bool.eq_false_or_eq_true data.isNullish with hn | hn
  · have hte : data.getProp "token" = .error (JVal.typeError "token") := by
      cases data <;> simp_all [JVal.isNullish, JVal.getProp]
    obtain ⟨m, hm⟩ := typeError_message "token"
    have hre := rethrow_of_not_nullish _ (not_nullish_of_getProp_ok _ _ _ hm)
    unfold authService.persist at h
    simp only [hte, hre] at h
    cases h
    exact ⟨m, hm⟩
  · rw [persist_result_of_not_nullish st call data hn] at h
    cases h

theorem login_error_shape (st : Storage) (email password : String)
    (outcome : Except JVal JVal) (error : JVal)
    (hshape : ∀ e, outcome = .error e → ∃ m : String, e.getProp "message" = .ok (.str m))
    (h : (authService.login st email password outcome).result = .error error) :
    ∃ m : String, error.getProp "message" = .ok (.str m) := by
  cases outcome with
  | ok data => exact persist_error_shape _ _ _ _ h
  | error e =>
    obtain ⟨m, hm⟩ := hshape e rfl
    have hre := rethrow_of_not_nullish _ (not_nullish_of_getProp_ok _ _ _ hm)
    simp only [authService.login, hre] at h
    cases h
    exact ⟨m, hm⟩

theorem signup_error_shape (st : Storage) (fullName email password : String)
    (outcome : Except JVal JVal) (error : JVal)
    (hshape : ∀ e, outcome = .error e → ∃ m : String, e.getProp "message" = .ok (.str m))
    (h : (authService.signup st fullName email password outcome).result = .error error) :
    ∃ m : String, error.getProp "message" = .ok (.str m) := by
  cases outcome with
  | ok data => exact persist_error_shape _ _ _ _ h
  | error e =>
    obtain ⟨m, hm⟩ := hshape e rfl
    have hre := rethrow_of_not_nullish _ (not_nullish_of_getProp_ok _ _ _ hm)
    simp only [authService.signup, hre] at h
    cases h
    exact ⟨m, hm⟩

theorem Login_handleFailure_completes (s : Login.State) (store : Storage)
    (calls : List RequestConfig) (error : JVal) (m : String)
    (hmsg : error.getProp "message" = .ok (.str m)) :
    (Login.handleFailure s store calls error).raised = none ∧
    (Login.handleFailure s store calls error).state.isLoading = false ∧
    (Login.handleFailure s store calls error).state.serverError.truthy = true ∧
    Login.errorMessage error
      = .ok (Login.handleFailure s store calls error).state.serverError := by
  obtain ⟨selected, hsel, htruthy⟩ :=
    selectErrorMessage_truthy "Login failed. Please try again." error m (by decide) hmsg
  have hem : Login.errorMessage error = .ok selected := by
    unfold Login.errorMessage
    rw [getProp_eq_ok_optProp _ _ (not_nullish_of_getProp_ok _ _ _ hmsg)]
    exact hsel
  unfold Login.handleFailure
  simp only [hem]
  exact ⟨trivial, trivial, htruthy, trivial⟩

theorem Signup_handleFailure_completes (s : Signup.State) (store : Storage)
    (calls : List RequestConfig) (error : JVal) (m : String)
    (hmsg : error.getProp "message" = .ok (.str m)) :
    (Signup.handleFailure s store calls error).raised = none ∧
    (Signup.handleFailure s store calls error).state.isLoading = false ∧
    (Signup.handleFailure s store calls error).state.serverError.truthy = true ∧
    Signup.errorMessage error
      = .ok (Signup.handleFailure s store calls error).state.serverError := by
  obtain ⟨selected, hsel, htruthy⟩ :=
    selectErrorMessage_truthy "Signup failed. Please try again." error m (by decide) hmsg
  have hem : Signup.errorMessage error = .ok selected := hsel
  unfold Signup.handleFailure
  simp only [hem]
  exact ⟨trivial, trivial, htruthy, trivial⟩

/-- C19: for every value with which a login or signup call can reject, the failure
handler of the flow completes without itself raising: it sets a non-empty server-error
message, the one its selection chain picks for that value, and the in-flight flag is
`false` afterwards.  The request behind the call either rejects with an error object
carrying a string `message` (every axios rejection: a non-2xx status, a timeout, a network
failure; the message may be empty and `code` and `response` may be missing) or resolves
with any body `data`; the call then rejects with that error, or with the `TypeError` its
own `response.data.token` read raises on a `null` body.  For every such outcome the whole
handler, its `try` block included, ends without raising and with the flag `false`. -/
theorem failure_handler_completes (login : Login.State) (signup : Signup.State)
    (st : Storage) (outcome : Except JVal JVal)
    (hLogin : (Login.validateForm login.formData).2 = true)
    (hSignup : (Signup.validateForm signup.formData).2 = true)
    (hshape : ∀ e, outcome = .error e → ∃ m : String, e.getProp "message" = .ok (.str m)) :
    ((Login.handleSubmit login st outcome).raised = none ∧
      (Login.handleSubmit login st outcome).state.isLoading = false ∧
      (∀ error,
        (authService.login st login.formData.email login.formData.password outcome).result
          = .error error →
        (Login.handleSubmit login st outcome).state.serverError.truthy = true ∧
        Login.errorMessage error
          = .ok (Login.handleSubmit login st outcome).state.serverError)) ∧
    ((Signup.handleSubmit signup st outcome).raised = none ∧
      (Signup.handleSubmit signup st outcome).state.isLoading = false ∧
      (∀ error,
        (authService.signup st signup.formData.fullName signup.formData.email
          signup.formData.password outcome).result = .error error →
        (Signup.handleSubmit signup st outcome).state.serverError.truthy = true ∧
        Signup.errorMessage error
          = .ok (Signup.handleSubmit signup st outcome).state.serverError)) := by
  constructor
  · unfold Login.handleSubmit
    simp only [hLogin, Bool.not_true, Bool.false_eq_true, if_false]
    cases hres : (authService.login st login.formData.email login.formData.password
        outcome).result with
    | error error =>
      obtain ⟨m, hm⟩ := login_error_shape _ _ _ _ _ hshape hres
      obtain ⟨h1, h2, h3, h4⟩ := Login_handleFailure_completes
        { login with serverError := .str "", errors := (Login.validateForm login.formData).1 }
        (authService.login st login.formData.email login.formData.password outcome).store
        (authService.login st login.formData.email login.formData.password outcome).calls
        error m hm
      refine ⟨h1, h2, fun error2 h => ?_⟩
      cases h
      exact ⟨h3, h4⟩
    | ok result =>
      simp only
      cases huser : result.getProp "user" with
      | error typeErr =>
        obtain ⟨m, hm⟩ := typeError_message "user"
        rw [getProp_error_eq _ _ _ huser]
        obtain ⟨h1, h2, -, -⟩ := Login_handleFailure_completes
          { login with serverError := .str "", errors := (Login.validateForm login.formData).1 }
          (authService.login st login.formData.email login.formData.password outcome).store
          (authService.login st login.formData.email login.formData.password outcome).calls
          (JVal.typeError "user") m hm
        exact ⟨h1, h2, fun error2 h => by cases h⟩
      | ok user =>
        simp only
        cases hrole : user.getProp "role" with
        | error typeErr =>
          obtain ⟨m, hm⟩ := typeError_message "role"
          rw [getProp_error_eq _ _ _ hrole]
          obtain ⟨h1, h2, -, -⟩ := Login_handleFailure_completes
            { login with
              serverError := .str "", errors := (Login.validateForm login.formData).1 }
            (authService.login st login.formData.email login.formData.password outcome).store
            (authService.login st login.formData.email login.formData.password outcome).calls
            (JVal.typeError "role") m hm
          exact ⟨h1, h2, fun error2 h => by cases h⟩
        | ok role => exact ⟨rfl, rfl, fun error2 h => by cases h⟩
  · unfold Signup.handleSubmit
    simp only [hSignup, Bool.not_true, Bool.false_eq_true, if_false]
    cases hres : (authService.signup st signup.formData.fullName signup.formData.email
        signup.formData.password outcome).result with
    | error error =>
      obtain ⟨m, hm⟩ := signup_error_shape _ _ _ _ _ _ hshape hres
      obtain ⟨h1, h2, h3, h4⟩ := Signup_handleFailure_completes
        { signup with
          serverError := .str "", successMessage := "",
          errors := (Signup.validateForm signup.formData).1 }
        (authService.signup st signup.formData.fullName signup.formData.email
          signup.formData.password outcome).store
        (authService.signup st signup.formData.fullName signup.formData.email
          signup.formData.password outcome).calls
        error m hm
      refine ⟨h1, h2, fun error2 h => ?_⟩
      cases h
      exact ⟨h3, h4⟩
    | ok result => exact ⟨rfl, rfl, fun error2 h => by cases h⟩

/-- Witness for C19: a login rejected with an error that carries no message text, no
network code and no response; the handler shows the fallback text and does not raise. -/
theorem failure_handler_completes_witness :
    (Login.handleSubmit
      { Login.initial with
        formData := { email := "john.doe@example.com", password := "SecurePass123" } } []
      (.error (.obj [("message", .str "")]))).raised = none ∧
    (Login.handleSubmit
      { Login.initial with
        formData := { email := "john.doe@example.com", password := "SecurePass123" } } []
      (.error (.obj [("message", .str "")]))).state.serverError
      = .str "Login failed. Please try again." ∧
    (Login.handleSubmit
      { Login.initial with
        formData := { email := "john.doe@example.com", password := "SecurePass123" } } []
      (.error (.obj [("message", .str "")]))).state.isLoading = false :=
  have h := (failure_handler_completes
    { Login.initial with
      formData := { email := "john.doe@example.com", password := "SecurePass123" } }
    { Signup.initial with
      formData := { fullName := "Test User", email := "newuser@example.com",
                    password := "SecurePass123", confirmPassword := "SecurePass123" } } []
    (.error (.obj [("message", .str "")])) (by decide) (by decide)
    (fun e he => ⟨"", by cases he; rfl⟩)).1
  ⟨h.1, rfl, h.2.1⟩

/-- The hypothesis that the caught value carries a string `message` cannot be dropped:
on a plain object without `message` (and without `code` and `response`) the read
`error.message.includes('CORS')` raises a `TypeError`, no server-error message is set and
only the `finally` block resets the in-flight flag.  No throw site of the login or signup
call produces such a value: axios rejections, the `TypeError` of a property read and the
exception of `localStorage.setItem` all carry a string `message`. -/
theorem failure_handler_raises_on_error_without_message :
    ((Login.handleSubmit
        { Login.initial with
          formData := { email := "john.doe@example.com", password := "SecurePass123" } } []
        (.error (.obj []))).raised = some (JVal.typeError "includes") ∧
      (Login.handleSubmit
        { Login.initial with
          formData := { email := "john.doe@example.com", password := "SecurePass123" } } []
        (.error (.obj []))).state.serverError = .str "" ∧
      (Login.handleSubmit
        { Login.initial with
          formData := { email := "john.doe@example.com", password := "SecurePass123" } } []
        (.error (.obj []))).state.isLoading = false) ∧
    ((Signup.handleSubmit
        { Signup.initial with
          formData := { fullName := "Test User", email := "newuser@example.com",
                        password := "SecurePass123", confirmPassword := "SecurePass123" } } []
        (.error (.obj []))).raised = some (JVal.typeError "includes") ∧
      (Signup.handleSubmit
        { Signup.initial with
          formData := { fullName := "Test User", email := "newuser@example.com",
                        password := "SecurePass123", confirmPassword := "SecurePass123" } } []
        (.error (.obj []))).state.serverError = .str "" ∧
      (Signup.handleSubmit
        { Signup.initial with
          formData := { fullName := "Test User", email := "newuser@example.com",
                        password := "SecurePass123", confirmPassword := "SecurePass123" } } []
        (.error (.obj []))).state.isLoading = false) :=
  ⟨⟨rfl, rfl, rfl⟩, ⟨rfl, rfl, rfl⟩⟩

/-! ## C20: the password-strength score -/

theorem search_cls_eq_any (p : Char → Bool) (l : List Char) :
    (RegExp.cls p).search l = l.any p := by
  induction l with
  | nil => rfl
  | cons c t ih =>
    simp only [RegExp.search, RegExp.matchesAt, RegExp.ends, ih, List.any_cons]
    by_cases h : p c = true <;> simp [h]

theorem test_cls_eq_any (p : Char → Bool) (s : String) :
    (RegExp.cls p).test s = s.data.any p :=
  search_cls_eq_any p s.data

theorem calculatePasswordStrength_strength (password : String) :
    (Signup.calculatePasswordStrength password).strength = Signup.strengthScore password := by
  unfold Signup.calculatePasswordStrength
  simp only
  split_ifs <;> rfl

/-- C20: for every password string, `calculatePasswordStrength` returns the score
25 if the length is at least 8, plus 25 if the length is at least 12, plus 25 if the
password contains a lowercase and an uppercase letter, plus 15 if it contains a digit,
plus 10 if it contains a character that is neither a letter nor a digit; the score lies
between 0 and 100; `StrongPass123` scores 90 and `weak` scores 0. -/
theorem calculatePasswordStrength_score (password : String) :
    (Signup.calculatePasswordStrength password).strength
      = (if 8 ≤ jsLength password then 25 else 0)
        + (if 12 ≤ jsLength password then 25 else 0)
        + (if password.data.any isLower && password.data.any isUpper then 25 else 0)
        + (if password.data.any isDigit then 15 else 0)
        + (if password.data.any (fun c => !(isLower c || isUpper c || isDigit c)) then 10
            else 0) ∧
    0 ≤ (Signup.calculatePasswordStrength password).strength ∧
    (Signup.calculatePasswordStrength password).strength ≤ 100 ∧
    (Signup.calculatePasswordStrength "StrongPass123").strength = 90 ∧
    (Signup.calculatePasswordStrength "weak").strength = 0 := by
  have hsym : password.data.any Signup.isSymbol
      = password.data.any (fun c => !(isLower c || isUpper c || isDigit c)) := rfl
  have h : (Signup.calculatePasswordStrength password).strength
      = (if 8 ≤ jsLength password then 25 else 0)
        + (if 12 ≤ jsLength password then 25 else 0)
        + (if password.data.any isLower && password.data.any isUpper then 25 else 0)
        + (if password.data.any isDigit then 15 else 0)
        + (if password.data.any (fun c => !(isLower c || isUpper c || isDigit c)) then 10
            else 0) := by
    rw [calculatePasswordStrength_strength]
    unfold Signup.strengthScore
    simp only [test_cls_eq_any, hsym]
    split_ifs <;> rfl
  refine ⟨h, Nat.zero_le _, ?_, by decide, by decide⟩
  rw [h]
  split_ifs <;> omega

/-! ## C21: the password-strength label -/

theorem calculatePasswordStrength_text (password : String) :
    (Signup.calculatePasswordStrength password).text
      = if Signup.strengthScore password < 30 then "Weak"
        else if Signup.strengthScore password < 60 then "Fair"
        else if Signup.strengthScore password < 80 then "Good"
        else "Strong" := by
  unfold Signup.calculatePasswordStrength
  simp only
  split_ifs <;> rfl

/-- C21: for every password string, the label returned by `calculatePasswordStrength` is
determined by its score alone: `Weak` when the score is below 30, `Fair` from 30 to 59,
`Good` from 60 to 79 and `Strong` from 80 on; `StrongPass123` is labelled `Strong` and
`weak` is labelled `Weak`. -/
theorem calculatePasswordStrength_label :
    (∀ password : String,
      ((Signup.calculatePasswordStrength password).strength < 30 →
        (Signup.calculatePasswordStrength password).text = "Weak") ∧
      (30 ≤ (Signup.calculatePasswordStrength password).strength →
        (Signup.calculatePasswordStrength password).strength < 60 →
        (Signup.calculatePasswordStrength password).text = "Fair") ∧
      (60 ≤ (Signup.calculatePasswordStrength password).strength →
        (Signup.calculatePasswordStrength password).strength < 80 →
        (Signup.calculatePasswordStrength password).text = "Good") ∧
      (80 ≤ (Signup.calculatePasswordStrength password).strength →
        (Signup.calculatePasswordStrength password).text = "Strong")) ∧
    (∀ p q : String,
      (Signup.calculatePasswordStrength p).strength
        = (Signup.calculatePasswordStrength q).strength →
      (Signup.calculatePasswordStrength p).text = (Signup.calculatePasswordStrength q).text) ∧
    (Signup.calculatePasswordStrength "StrongPass123").text = "Strong" ∧
    (Signup.calculatePasswordStrength "weak").text = "Weak" := by
  refine ⟨fun password => ?_, fun p q h => ?_, by decide, by decide⟩
  · rw [calculatePasswordStrength_strength, calculatePasswordStrength_text]
    refine ⟨fun h => ?_, fun h1 h2 => ?_, fun h1 h2 => ?_, fun h => ?_⟩
    · rw [if_pos h]
    · rw [if_neg (by omega), if_pos h2]
    · rw [if_neg (by omega), if_neg (by omega), if_pos h2]
    · rw [if_neg (by omega), if_neg (by omega), if_neg (by omega)]
  · rw [calculatePasswordStrength_strength, calculatePasswordStrength_strength] at h
    rw [calculatePasswordStrength_text, calculatePasswordStrength_text, h]

/-! ## C29: passwords that pass validation score at least 65 -/

theorem strengthScore_eq (password : String) :
    Signup.strengthScore password
      = (if 8 ≤ jsLength password then 25 else 0)
        + (if 12 ≤ jsLength password then 25 else 0)
        + (if password.data.any isLower && password.data.any isUpper then 25 else 0)
        + (if password.data.any isDigit then 15 else 0)
        + (if password.data.any Signup.isSymbol then 10 else 0) := by
  unfold Signup.strengthScore
  simp only [test_cls_eq_any]
  split_ifs <;> rfl

theorem strengthScore_ge_65 (password : String) (hlen : 8 ≤ jsLength password)
    (hlower : password.data.any isLower = true) (hupper : password.data.any isUpper = true)
    (hdigit : password.data.any isDigit = true) : 65 ≤ Signup.strengthScore password := by
  rw [strengthScore_eq]
  simp only [hlen, hlower, hupper, hdigit, if_true, Bool.and_self]
  split_ifs <;> omega

/-- C29: every password that passes Signup's password validation (it then has length at
least 8, a lowercase letter, an uppercase letter and a digit) receives a strength score
of at least 65 from `calculatePasswordStrength` and is labelled `Good` or `Strong`, never
`Weak` or `Fair`. -/
theorem valid_password_is_good_or_strong (password : String)
    (hvalid : Signup.passwordError password = none) :
    (8 ≤ jsLength password ∧ password.data.any isLower = true ∧
      password.data.any isUpper = true ∧ password.data.any isDigit = true) ∧
    65 ≤ (Signup.calculatePasswordStrength password).strength ∧
    ((Signup.calculatePasswordStrength password).text = "Good" ∨
      (Signup.calculatePasswordStrength password).text = "Strong") ∧
    (Signup.calculatePasswordStrength password).text ≠ "Weak" ∧
    (Signup.calculatePasswordStrength password).text ≠ "Fair" := by
  obtain ⟨h1, h2, h3⟩ := Signup_passwordError_eq_none_imp _ hvalid
  obtain ⟨hl, hu⟩ := mixedCaseRegExp_test_imp _ h2
  have hd := (digitRegExp_test_iff _).mp h3
  have hl2 := List.any_eq_true.mpr hl
  have hu2 := List.any_eq_true.mpr hu
  have hd2 := List.any_eq_true.mpr hd
  have hs := strengthScore_ge_65 password h1 hl2 hu2 hd2
  refine ⟨⟨h1, hl2, hu2, hd2⟩, ?_, ?_, ?_, ?_⟩
  · rw [calculatePasswordStrength_strength]; exact hs
  · rw [calculatePasswordStrength_text, if_neg (by omega), if_neg (by omega)]
    by_cases h : Signup.strengthScore password < 80
    · left; rw [if_pos h]
    · right; rw [if_neg h]
  · rw [calculatePasswordStrength_text, if_neg (by omega), if_neg (by omega)]
    split_ifs <;> decide
  · rw [calculatePasswordStrength_text, if_neg (by omega), if_neg (by omega)]
    split_ifs <;> decide

/-- Witness for C29: `Password1` passes the validation and scores 65. -/
theorem valid_password_is_good_or_strong_witness :
    Signup.passwordError "Password1" = none ∧
    65 ≤ (Signup.calculatePasswordStrength "Password1").strength :=
  ⟨by decide, (valid_password_is_good_or_strong "Password1" (by decide)).2.1⟩

/-! ## C30: the score is monotone under appending -/

theorem jsLength_append (p s : String) : jsLength (p ++ s) = jsLength p + jsLength s := by
  unfold jsLength
  simp [String.data_append, List.map_append, List.sum_append]

theorem any_append_of_any {α : Type} (f : α → Bool) (l m : List α) (h : l.any f = true) :
    (l ++ m).any f = true := by
  rw [List.any_append, h]
  rfl

/-- C30: the strength score is monotone under typing more characters: for every
password `p` and every string `s`, the score of `p` followed by `s` is at least the score
of `p`. -/
theorem strength_monotone_under_append (p s : String) :
    (Signup.calculatePasswordStrength p).strength
      ≤ (Signup.calculatePasswordStrength (p ++ s)).strength := by
  rw [calculatePasswordStrength_strength, calculatePasswordStrength_strength,
    strengthScore_eq, strengthScore_eq, jsLength_append, String.data_append]
  have h1 : (if 8 ≤ jsLength p then 25 else 0)
      ≤ (if 8 ≤ jsLength p + jsLength s then 25 else 0) := by
    split_ifs <;> omega
  have h2 : (if 12 ≤ jsLength p then 25 else 0)
      ≤ (if 12 ≤ jsLength p + jsLength s then 25 else 0) := by
    split_ifs <;> omega
  have h3 : (if p.data.any isLower && p.data.any isUpper then 25 else 0)
      ≤ (if (p.data ++ s.data).any isLower && (p.data ++ s.data).any isUpper then 25
          else 0) := by
    by_cases h : (p.data.any isLower && p.data.any isUpper) = true
    · have hh := Bool.and_eq_true_iff.mp h
      rw [if_pos h, any_append_of_any _ _ _ hh.1, any_append_of_any _ _ _ hh.2]
      simp
    · rw [if_neg h]
      exact Nat.zero_le _
  have h4 : (if p.data.any isDigit then 15 else 0)
      ≤ (if (p.data ++ s.data).any isDigit then 15 else 0) := by
    by_cases h : p.data.any isDigit = true
    · rw [if_pos h, any_append_of_any _ _ _ h]
      simp
    · rw [if_neg h]
      exact Nat.zero_le _
  have h5 : (if p.data.any Signup.isSymbol then 10 else 0)
      ≤ (if (p.data ++ s.data).any Signup.isSymbol then 10 else 0) := by
    by_cases h : p.data.any Signup.isSymbol = true
    · rw [if_pos h, any_append_of_any _ _ _ h]
      simp
    · rw [if_neg h]
      exact Nat.zero_le _
  omega

/-! ## C27: the password-change form -/

/-- C27: for every (current, new, confirm) triple, the profile screen's
`validatePassword` returns `true` exactly when the current password is non-empty, the new
password has length at least 8 and the confirmation is equal to the new password; all
three fields are checked in the same pass, each failing field getting its own message. -/
theorem validatePassword_spec (passwordData : UserProfile.PasswordData) :
    ((UserProfile.validatePassword passwordData).2 = true ↔
      (passwordData.currentPassword ≠ "" ∧ 8 ≤ jsLength passwordData.newPassword ∧
        passwordData.confirmPassword = passwordData.newPassword)) ∧
    (passwordData.currentPassword = "" →
      (UserProfile.validatePassword passwordData).1.currentPassword
        = some "Current password is required") ∧
    (passwordData.currentPassword ≠ "" →
      (UserProfile.validatePassword passwordData).1.currentPassword = none) ∧
    (passwordData.newPassword = "" →
      (UserProfile.validatePassword passwordData).1.newPassword
        = some "New password is required") ∧
    (passwordData.newPassword ≠ "" → jsLength passwordData.newPassword < 8 →
      (UserProfile.validatePassword passwordData).1.newPassword
        = some "Password must be at least 8 characters") ∧
    (8 ≤ jsLength passwordData.newPassword →
      (UserProfile.validatePassword passwordData).1.newPassword = none) ∧
    (passwordData.confirmPassword = "" →
      (UserProfile.validatePassword passwordData).1.confirmPassword
        = some "Please confirm your password") ∧
    (passwordData.confirmPassword ≠ "" →
      passwordData.confirmPassword ≠ passwordData.newPassword →
      (UserProfile.validatePassword passwordData).1.confirmPassword
        = some "Passwords do not match") ∧
    (passwordData.confirmPassword ≠ "" →
      passwordData.confirmPassword = passwordData.newPassword →
      (UserProfile.validatePassword passwordData).1.confirmPassword = none) := by
  obtain ⟨current, new, confirm⟩ := passwordData
  have hnew : 8 ≤ jsLength new → new ≠ "" := fun h => ne_empty_of_jsLength_pos _ (by omega)
  simp only [UserProfile.validatePassword]
  refine ⟨?_, ?_, ?_, ?_, ?_, ?_, ?_, ?_, ?_⟩
  · constructor
    · intro h
      by_cases h1 : current = ""
      · simp [h1] at h
      by_cases h2 : new = ""
      · simp [h1, h2] at h
      by_cases h3 : jsLength new < 8
      · simp [h1, h2, h3] at h
      by_cases h4 : confirm = ""
      · simp [h1, h2, h3, h4] at h
      by_cases h5 : new = confirm
      · exact ⟨h1, by omega, h5.symm⟩
      · simp [h1, h2, h3, h4, h5] at h
    · rintro ⟨h1, h3, h5⟩
      subst h5
      have h2 := hnew h3
      have h3' : ¬ jsLength confirm < 8 := by omega
      simp [h1, h2, h3']
  · intro h; simp [h]
  · intro h; simp [h]
  · intro h; simp [h]
  · intro h1 h2; simp [h1, h2]
  · intro h
    have h2 : ¬ jsLength new < 8 := by omega
    simp [hnew h, h2]
  · intro h; simp [h]
  · intro h1 h2
    have h3 : new ≠ confirm := fun e => h2 e.symm
    simp [h1, h3]
  · intro h1 h2
    subst h2
    simp [h1]

/-! ## C26: the notification queue -/

theorem added_id_ge (ops : List NotificationOp) :
    ∀ (counter : Nat) (n : Notification), n ∈ NotificationOp.added counter ops →
      counter ≤ n.id := by
  induction ops with
  | nil => intro counter n h; cases h
  | cons op rest ih =>
    intro counter n h
    cases op with
    | add message type =>
      simp only [NotificationOp.added, List.mem_cons] at h
      rcases h with rfl | h
      · exact Nat.le_refl _
      · exact Nat.le_of_succ_le (ih _ _ h)
    | remove id => exact ih _ _ h

theorem filter_added_of_lt (ops : List NotificationOp) (counter id : Nat) (h : id < counter) :
    (NotificationOp.added counter ops).filter (fun n => n.id != id)
      = NotificationOp.added counter ops := by
  apply List.filter_eq_self.mpr
  intro n hn
  have := added_id_ge ops counter n hn
  simp only [bne_iff_ne, ne_eq]
  omega

theorem added_ids_nodup (ops : List NotificationOp) :
    ∀ counter : Nat, ((NotificationOp.added counter ops).map (fun n => n.id)).Nodup := by
  induction ops with
  | nil => intro counter; exact List.nodup_nil
  | cons op rest ih =>
    intro counter
    cases op with
    | add message type =>
      simp only [NotificationOp.added, List.map_cons, List.nodup_cons]
      refine ⟨?_, ih _⟩
      intro hmem
      obtain ⟨n, hn, hid⟩ := List.mem_map.mp hmem
      have := added_id_ge rest (counter + 1) n hn
      omega
    | remove id => exact ih _

theorem runAll_notifications (ops : List NotificationOp) :
    ∀ q : NotificationQueue, NotificationOp.RemovesIssued q.notificationId ops →
      (NotificationOp.runAll q ops).notifications
        = (q.notifications ++ NotificationOp.added q.notificationId ops).filter
            (fun n => !(NotificationOp.removed ops).contains n.id) := by
  induction ops with
  | nil =>
    intro q _
    simp [NotificationOp.runAll, NotificationOp.added, NotificationOp.removed]
  | cons op rest ih =>
    intro q h
    cases op with
    | add message type =>
      have := ih (q.addNotification message type) h
      simp only [NotificationOp.runAll, NotificationOp.run, this, NotificationOp.added,
        NotificationOp.removed]
      simp [NotificationQueue.addNotification]
    | remove id =>
      obtain ⟨hlt, hrest⟩ := h
      have := ih (q.removeNotification id) hrest
      simp only [NotificationOp.runAll, NotificationOp.run, this, NotificationOp.added,
        NotificationOp.removed]
      simp only [NotificationQueue.removeNotification, List.filter_append, List.filter_filter]
      congr 1
      · apply List.filter_congr
        intro n _
        by_cases hid : n.id = id <;> simp [hid]
      · apply List.filter_congr
        intro n hn
        have hge := added_id_ge rest q.notificationId n hn
        have hid : n.id ≠ id := by omega
        simp [hid]

theorem filter_id_length_le_one (l : List Notification)
    (h : (l.map (fun n => n.id)).Nodup) (id : Nat) :
    (l.filter (fun n => n.id == id)).length ≤ 1 := by
  induction l with
  | nil => simp
  | cons a rest ih =>
    simp only [List.map_cons, List.nodup_cons] at h
    obtain ⟨hnot, hrest⟩ := h
    by_cases ha : a.id = id
    · have hempty : rest.filter (fun n => n.id == id) = [] := by
        apply List.filter_eq_nil_iff.mpr
        intro n hn
        simp only [beq_iff_eq]
        intro hid
        exact hnot (List.mem_map.mpr ⟨n, hn, by rw [hid, ha]⟩)
      simp [List.filter_cons, ha, hempty]
    · have := ih hrest
      simp [List.filter_cons, ha, this]

theorem runAll_from_empty (counter : Nat) (ops : List NotificationOp)
    (hissued : NotificationOp.RemovesIssued counter ops) :
    (NotificationOp.runAll { notificationId := counter, notifications := [] } ops).notifications
      = (NotificationOp.added counter ops).filter
          (fun n => !(NotificationOp.removed ops).contains n.id) := by
  have := runAll_notifications ops { notificationId := counter, notifications := [] } hissued
  simpa using this

/-- C26: after any sequence of add and remove operations on an empty queue, in which
every removal names an id issued before it, the queue is exactly the list of the
notifications added so far, in the order they were added, without those whose id has been
removed (by dismissal or by the expiry timer); the ids in the queue are pairwise distinct.
Adding appends one new entry at the end, whatever messages the queue already holds, and
removing an id keeps every entry with another id, in order, and drops at most one
entry. -/
theorem notification_queue_order (counter : Nat) (ops : List NotificationOp)
    (hissued : NotificationOp.RemovesIssued counter ops) :
    (NotificationOp.runAll { notificationId := counter, notifications := [] } ops).notifications
      = (NotificationOp.added counter ops).filter
          (fun n => !(NotificationOp.removed ops).contains n.id) ∧
    ((NotificationOp.runAll { notificationId := counter, notifications := [] }
        ops).notifications.map (fun n => n.id)).Nodup ∧
    (∀ (message : JVal) (type : String),
      ((NotificationOp.runAll { notificationId := counter, notifications := [] }
          ops).addNotification message type).notifications
        = (NotificationOp.runAll { notificationId := counter, notifications := [] }
            ops).notifications
          ++ [{ id := (NotificationOp.runAll { notificationId := counter, notifications := [] }
                  ops).notificationId,
                message := message, type := type }]) ∧
    (∀ id : Nat,
      ((NotificationOp.runAll { notificationId := counter, notifications := [] }
          ops).removeNotification id).notifications
        = (NotificationOp.runAll { notificationId := counter, notifications := [] }
            ops).notifications.filter (fun n => n.id != id) ∧
      ((NotificationOp.runAll { notificationId := counter, notifications := [] }
          ops).notifications.filter (fun n => n.id == id)).length ≤ 1) := by
  have hq := runAll_from_empty counter ops hissued
  have hnodup : ((NotificationOp.runAll { notificationId := counter, notifications := [] }
      ops).notifications.map (fun n => n.id)).Nodup := by
    rw [hq]
    exact List.Nodup.sublist (List.Sublist.map _ (List.filter_sublist _))
      (added_ids_nodup ops counter)
  exact ⟨hq, hnodup, fun _ _ => rfl, fun id => ⟨rfl, filter_id_length_le_one _ hnodup id⟩⟩

/-- Witness for C26: two notifications with the same message, the first dismissed, then
a third one. -/
theorem notification_queue_order_witness :
    ((NotificationOp.runAll { notificationId := 7, notifications := [] }
      [.add (.str "Saved") "success", .add (.str "Saved") "success", .remove 7,
        .add (.str "Failed") "error"]).notifications.map (fun n => n.id)) = [8, 9] :=
  have h := (notification_queue_order 7
    [.add (.str "Saved") "success", .add (.str "Saved") "success", .remove 7,
      .add (.str "Failed") "error"] ⟨by decide, trivial⟩).1
  (congrArg (List.map (fun n => n.id)) h).trans (by decide)

/-! ## C25: the confirmation gate -/

/-- C25: pressing the confirm control invokes the bound action exactly once and then
closes the gate (`onConfirm` before `onClose`); pressing the cancel control closes the
gate and does not invoke the bound action.  On the admin screen the bound action is the
activate handler exactly when the pending action is `activate`, and the deactivate
handler otherwise; both controls leave the gate closed. -/
theorem confirm_gate :
    (∀ log : List ConfirmDialog.Callback,
      ConfirmDialog.confirmClick (ConfirmDialog.record .onConfirm)
          (ConfirmDialog.record .onClose) log = log ++ [.onConfirm, .onClose]) ∧
    (∀ log : List ConfirmDialog.Callback,
      ConfirmDialog.cancelClick (ConfirmDialog.record .onClose) log = log ++ [.onClose]) ∧
    (∀ (s : AdminDashboard.State) (st : Storage) (actionOutcome : Except JVal JVal)
        (refetchOutcome : Except JVal AdminDashboard.UsersPage),
      (s.confirmDialog.action = some .activate →
        AdminDashboard.onConfirm s st actionOutcome refetchOutcome
          = AdminDashboard.handleActivateUser s st actionOutcome refetchOutcome) ∧
      (s.confirmDialog.action ≠ some .activate →
        AdminDashboard.onConfirm s st actionOutcome refetchOutcome
          = AdminDashboard.handleDeactivateUser s st actionOutcome refetchOutcome) ∧
      (AdminDashboard.boundAction s = .activate ↔ s.confirmDialog.action = some .activate) ∧
      (AdminDashboard.confirmPressed s st actionOutcome refetchOutcome).state
        = AdminDashboard.closeConfirmDialog
            (AdminDashboard.onConfirm s st actionOutcome refetchOutcome).state ∧
      (AdminDashboard.confirmPressed s st actionOutcome refetchOutcome).calls
        = (AdminDashboard.onConfirm s st actionOutcome refetchOutcome).calls ∧
      (AdminDashboard.confirmPressed s st actionOutcome
        refetchOutcome).state.confirmDialog.isOpen = false) ∧
    (∀ s : AdminDashboard.State,
      (AdminDashboard.cancelPressed s).confirmDialog.isOpen = false ∧
      (AdminDashboard.cancelPressed s).users = s.users ∧
      (AdminDashboard.cancelPressed s).queue = s.queue ∧
      AdminDashboard.cancelPressed s = AdminDashboard.closeConfirmDialog s) := by
  refine ⟨fun log => ?_, fun log => rfl, fun s st o1 o2 => ?_, fun s => ⟨rfl, rfl, rfl, rfl⟩⟩
  · simp [ConfirmDialog.confirmClick, ConfirmDialog.record]
  · have hb : AdminDashboard.boundAction s = .activate ↔
        s.confirmDialog.action = some .activate := by
      unfold AdminDashboard.boundAction
      by_cases h : s.confirmDialog.action = some .activate <;> simp [h]
    refine ⟨fun h => ?_, fun h => ?_, hb, rfl, rfl, rfl⟩
    · unfold AdminDashboard.onConfirm
      rw [hb.mpr h]
    · have : AdminDashboard.boundAction s = .deactivate := by
        unfold AdminDashboard.boundAction
        simp [h]
      unfold AdminDashboard.onConfirm
      rw [this]

/-! ## C22: page changes -/

/-- C22: for every current page, total page count and requested page, `handlePageChange`
sets the current page to the requested page when `1 ≤ requested ≤ totalPages` and
otherwise leaves the current page unchanged (nothing else changes either way); hence
whenever the current page changes, the new page lies in `[1, totalPages]`, and a current
page inside `[1, totalPages]` stays inside. -/
theorem handlePageChange_spec (s : AdminDashboard.State) (newPage : Int) :
    ((1 ≤ newPage ∧ newPage ≤ s.totalPages) →
      AdminDashboard.handlePageChange s newPage = { s with currentPage := newPage }) ∧
    (¬ (1 ≤ newPage ∧ newPage ≤ s.totalPages) →
      AdminDashboard.handlePageChange s newPage = s) ∧
    (AdminDashboard.handlePageChange s newPage).totalPages = s.totalPages ∧
    ((AdminDashboard.handlePageChange s newPage).currentPage ≠ s.currentPage →
      1 ≤ (AdminDashboard.handlePageChange s newPage).currentPage ∧
      (AdminDashboard.handlePageChange s newPage).currentPage ≤ s.totalPages) ∧
    ((1 ≤ s.currentPage ∧ s.currentPage ≤ s.totalPages) →
      1 ≤ (AdminDashboard.handlePageChange s newPage).currentPage ∧
      (AdminDashboard.handlePageChange s newPage).currentPage ≤ s.totalPages) := by
  unfold AdminDashboard.handlePageChange
  by_cases h : newPage ≥ 1 ∧ newPage ≤ s.totalPages
  · rw [if_pos h]
    exact ⟨fun _ => rfl, fun hn => absurd ⟨h.1, h.2⟩ hn, rfl, fun _ => ⟨h.1, h.2⟩,
      fun _ => ⟨h.1, h.2⟩⟩
  · rw [if_neg h]
    exact ⟨fun hp => absurd ⟨hp.1, hp.2⟩ h, fun _ => rfl, rfl, fun hne => absurd rfl hne,
      fun hin => hin⟩

/-! ## C23: the first page of users -/

theorem renderRows_length (users : List JVal) (h : ∀ u ∈ users, u.isNullish = false) :
    ∃ rows, AdminDashboard.renderRows users = .ok rows ∧ rows.length = users.length := by
  induction users with
  | nil => exact ⟨[], rfl, rfl⟩
  | cons u rest ih =>
    obtain ⟨rows, hrows, hlen⟩ := ih (fun v hv => h v (List.mem_cons_of_mem _ hv))
    have hu := getProp_eq_ok_optProp u "id" (h u (List.mem_cons_self _ _))
    have hr : ∃ row, AdminDashboard.renderRow u = .ok row := by
      unfold AdminDashboard.renderRow
      rw [hu]
      exact ⟨_, rfl⟩
    obtain ⟨row, hrow⟩ := hr
    refine ⟨row :: rows, ?_, by simp [hlen]⟩
    simp only [AdminDashboard.renderRows, hrow, hrows]

/-- C23, as stated, fails: after `listUsers(1, 10)` resolves with the two users of the
test server, `total = 2` and `pages = 1`, the admin screen renders two rows and no
pagination control at all: the Previous and Next buttons are not presented. -/
theorem single_page_shows_no_pagination_controls :
    Except.map AdminDashboard.View.rowCount
      (AdminDashboard.view
        (AdminDashboard.fetchUsers (AdminDashboard.initial 0) [] 1
          (.ok { items := some
                  [.obj [("id", .str "76c901ec"), ("email", .str "abhishek001@gmail.com"),
                         ("status", .str "active")],
                   .obj [("id", .str "0827b88d"), ("email", .str "john.doe@example.com"),
                         ("status", .str "active")]],
                 total := some 2, pages := some 1 })).state) = .ok 2 ∧
    Except.map AdminDashboard.View.pagination
      (AdminDashboard.view
        (AdminDashboard.fetchUsers (AdminDashboard.initial 0) [] 1
          (.ok { items := some
                  [.obj [("id", .str "76c901ec"), ("email", .str "abhishek001@gmail.com"),
                         ("status", .str "active")],
                   .obj [("id", .str "0827b88d"), ("email", .str "john.doe@example.com"),
                         ("status", .str "active")]],
                 total := some 2, pages := some 1 })).state) = .ok none :=
  ⟨rfl, rfl⟩

/-- C23, amended: after `listUsers(1, 10)` resolves on mount with `n` user records,
`total = n` and `pages = 1`, the admin screen renders exactly `n` user rows and no
pagination control.  The Previous and Next controls are rendered only when the total page
count exceeds 1; Previous is then disabled exactly on page 1 and Next exactly on the last
page. -/
theorem single_page_rows_without_pagination (notificationId : Nat) (st : Storage)
    (items : List JVal) (hrecords : ∀ u ∈ items, u.isNullish = false) :
    (AdminDashboard.fetchUsers (AdminDashboard.initial notificationId) st 1
      (.ok { items := some items, total := some items.length, pages := some 1 })).calls
      = [AdminDashboard.usersRequest st 1 10] ∧
    Except.map AdminDashboard.View.rowCount
      (AdminDashboard.view
        (AdminDashboard.fetchUsers (AdminDashboard.initial notificationId) st 1
          (.ok { items := some items, total := some items.length, pages := some 1 })).state)
      = .ok items.length ∧
    Except.map AdminDashboard.View.pagination
      (AdminDashboard.view
        (AdminDashboard.fetchUsers (AdminDashboard.initial notificationId) st 1
          (.ok { items := some items, total := some items.length, pages := some 1 })).state)
      = .ok none ∧
    (∀ s : AdminDashboard.State, s.isLoading = false →
      (∀ u ∈ s.users, u.isNullish = false) →
      Except.map AdminDashboard.View.pagination (AdminDashboard.view s)
        = .ok (if s.totalPages > 1 then
            some { previousDisabled := s.currentPage == 1
                   nextDisabled := s.currentPage == s.totalPages }
          else none)) := by
  obtain ⟨rows, hrows, hlen⟩ := renderRows_length items hrecords
  refine ⟨rfl, ?_, ?_, ?_⟩
  · simp [AdminDashboard.view, AdminDashboard.fetchUsers, AdminDashboard.initial, hrows,
      Except.map, AdminDashboard.View.rowCount, hlen]
  · simp [AdminDashboard.view, AdminDashboard.fetchUsers, AdminDashboard.initial, hrows,
      Except.map, AdminDashboard.View.pagination]
  · intro s hload husers
    obtain ⟨rows2, hrows2, _⟩ := renderRows_length s.users husers
    simp [AdminDashboard.view, hload, hrows2, Except.map, AdminDashboard.View.pagination]

/-- Witness for C23: the two users of the test server. -/
theorem single_page_rows_without_pagination_witness :
    Except.map AdminDashboard.View.rowCount
      (AdminDashboard.view
        (AdminDashboard.fetchUsers (AdminDashboard.initial 0) [] 1
          (.ok { items := some
                  [.obj [("id", .str "76c901ec"), ("status", .str "active")],
                   .obj [("id", .str "0827b88d"), ("status", .str "inactive")]],
                 total := some (2 : Nat), pages := some 1 })).state) = .ok 2 :=
  (single_page_rows_without_pagination 0 []
    [.obj [("id", .str "76c901ec"), ("status", .str "active")],
     .obj [("id", .str "0827b88d"), ("status", .str "inactive")]]
    (fun u hu => by
      simp only [List.mem_cons, List.mem_singleton, List.not_mem_nil, or_false] at hu
      rcases hu with rfl | rfl <;> rfl)).2.1

/-! ## C24: activating and deactivating a user -/

theorem isPrefixOf_append_self (n b : List Char) : n.isPrefixOf (n ++ b) = true := by
  induction n with
  | nil => simp [List.isPrefixOf]
  | cons x n ih => simp [List.isPrefixOf, ih]

theorem includesChars_of_prefix (n l : List Char) (h : n.isPrefixOf l = true) :
    includesChars n l = true := by
  cases l with
  | nil => simpa [includesChars] using h
  | cons c t => simp [includesChars, h]

theorem includesChars_infix (n a b : List Char) : includesChars n (a ++ (n ++ b)) = true := by
  induction a with
  | nil => exact includesChars_of_prefix _ _ (isPrefixOf_append_self n b)
  | cons x a ih =>
    show includesChars n (x :: (a ++ (n ++ b))) = true
    simp only [includesChars, ih, Bool.or_true]

theorem failureMessage_of_not_nullish (fallback : String) (error : JVal)
    (h : error.isNullish = false) : ∃ message, failureMessage fallback error = .ok message := by
  unfold failureMessage
  rw [getProp_eq_ok_optProp _ _ h]
  simp only
  split_ifs
  · exact ⟨_, rfl⟩
  · exact ⟨_, rfl⟩
  · exact ⟨_, rfl⟩

theorem fetchUsers_calls (s : AdminDashboard.State) (st : Storage) (page : Int)
    (outcome : Except JVal AdminDashboard.UsersPage) :
    (AdminDashboard.fetchUsers s st page outcome).calls
      = [AdminDashboard.usersRequest st page AdminDashboard.usersPerPage] := by
  unfold AdminDashboard.fetchUsers
  cases outcome with
  | ok response => rfl
  | error e => cases h : failureMessage "Failed to fetch users" e <;> simp [h]

theorem fetchUsers_queue (s : AdminDashboard.State) (st : Storage) (page : Int)
    (outcome : Except JVal AdminDashboard.UsersPage) :
    ∃ extra, (AdminDashboard.fetchUsers s st page outcome).state.queue.notifications
        = s.queue.notifications ++ extra ∧ ∀ n ∈ extra, n.type = "error" := by
  unfold AdminDashboard.fetchUsers
  cases outcome with
  | ok response => exact ⟨[], by simp, by simp⟩
  | error e =>
    cases h : failureMessage "Failed to fetch users" e with
    | error te =>
      simp only [h]
      exact ⟨[], by simp, by simp⟩
    | ok m =>
      simp only [h]
      refine ⟨[{ id := s.queue.notificationId, message := m, type := "error" }], ?_, ?_⟩
      · simp [NotificationQueue.showError, NotificationQueue.addNotification]
      · simp

theorem handleStatusChange_success (path done : String) (s : AdminDashboard.State)
    (st : Storage) (result : JVal) (refetchOutcome : Except JVal AdminDashboard.UsersPage)
    (hselected : s.confirmDialog.user.truthy = true) (hresult : result.isNullish = false) :
    (AdminDashboard.handleStatusChange path done s st (.ok result) refetchOutcome).calls
      = [api.request st "post"
          ("/users/" ++ (s.confirmDialog.user.optProp "id").toStr ++ "/" ++ path) .undefined,
        AdminDashboard.usersRequest st s.currentPage 10] ∧
    (∃ extra,
      (AdminDashboard.handleStatusChange path done s st (.ok result)
          refetchOutcome).state.queue.notifications
        = s.queue.notifications
          ++ [{ id := s.queue.notificationId
                message := .str ("User "
                  ++ (if (result.optProp "email").truthy then result.optProp "email"
                      else s.confirmDialog.user.optProp "email").toStr
                  ++ " has been " ++ done)
                type := "success" }]
          ++ extra ∧
      ∀ n ∈ extra, n.type = "error") := by
  have hemail := getProp_eq_ok_optProp result "email" hresult
  unfold AdminDashboard.handleStatusChange
  simp only [hselected, hemail, Bool.not_true, Bool.false_eq_true, if_false]
  refine ⟨?_, ?_⟩
  · simp only [fetchUsers_calls]
    rfl
  · obtain ⟨extra, hq, hall⟩ := fetchUsers_queue
      (AdminDashboard.closeConfirmDialog
        { s with
          queue := s.queue.showSuccess (.str ("User "
            ++ (if (result.optProp "email").truthy then result.optProp "email"
                else s.confirmDialog.user.optProp "email").toStr
            ++ " has been " ++ done)) })
      st s.currentPage refetchOutcome
    exact ⟨extra, hq, hall⟩

theorem handleStatusChange_failure (path done : String) (s : AdminDashboard.State)
    (st : Storage) (error : JVal) (refetchOutcome : Except JVal AdminDashboard.UsersPage)
    (hselected : s.confirmDialog.user.truthy = true) (herror : error.isNullish = false) :
    (AdminDashboard.handleStatusChange path done s st (.error error) refetchOutcome).calls
      = [api.request st "post"
          ("/users/" ++ (s.confirmDialog.user.optProp "id").toStr ++ "/" ++ path) .undefined] ∧
    (AdminDashboard.handleStatusChange path done s st (.error error)
      refetchOutcome).state.users = s.users ∧
    (∃ message,
      (AdminDashboard.handleStatusChange path done s st (.error error)
          refetchOutcome).state.queue.notifications
        = s.queue.notifications
          ++ [{ id := s.queue.notificationId, message := message, type := "error" }]) := by
  obtain ⟨m, hm⟩ := failureMessage_of_not_nullish ("Failed to " ++ path ++ " user") error herror
  unfold AdminDashboard.handleStatusChange
  simp only [hselected, hm, Bool.not_true, Bool.false_eq_true, if_false]
  refine ⟨trivial, trivial, m, ?_⟩
  simp [NotificationQueue.showError, NotificationQueue.addNotification]

theorem confirmPressed_open (s : AdminDashboard.State) (st : Storage)
    (action : AdminDashboard.DialogAction) (user : JVal) (actionOutcome : Except JVal JVal)
    (refetchOutcome : Except JVal AdminDashboard.UsersPage) :
    (AdminDashboard.confirmPressed (AdminDashboard.openConfirmDialog s action user) st
        actionOutcome refetchOutcome).calls
      = (AdminDashboard.handleStatusChange
          (if action = .activate then "activate" else "deactivate")
          (if action = .activate then "activated" else "deactivated")
          (AdminDashboard.openConfirmDialog s action user) st actionOutcome
          refetchOutcome).calls ∧
    (AdminDashboard.confirmPressed (AdminDashboard.openConfirmDialog s action user) st
        actionOutcome refetchOutcome).state.queue
      = (AdminDashboard.handleStatusChange
          (if action = .activate then "activate" else "deactivate")
          (if action = .activate then "activated" else "deactivated")
          (AdminDashboard.openConfirmDialog s action user) st actionOutcome
          refetchOutcome).state.queue ∧
    (AdminDashboard.confirmPressed (AdminDashboard.openConfirmDialog s action user) st
        actionOutcome refetchOutcome).state.users
      = (AdminDashboard.handleStatusChange
          (if action = .activate then "activate" else "deactivate")
          (if action = .activate then "activated" else "deactivated")
          (AdminDashboard.openConfirmDialog s action user) st actionOutcome
          refetchOutcome).state.users := by
  cases action <;> exact ⟨rfl, rfl, rfl⟩

/-- C24: for every confirmed activate or deactivate action on a user (the dialog opened
on a user record and its confirm control pressed): if the API call succeeds with a user
record `result`, the flow issues the `POST` and then exactly one re-fetch, of the current
page with page size 10, and adds exactly one success notification, whose text contains
the affected user's email (`result.email`, or the selected row's email when that is
falsy); a failing re-fetch can only add error notifications after it.  If the API call
fails with an error object, the flow issues no re-fetch, leaves the displayed user list
unchanged, and adds exactly one notification, of type error. -/
theorem confirmed_status_change (s : AdminDashboard.State) (st : Storage)
    (action : AdminDashboard.DialogAction) (user : JVal)
    (refetchOutcome : Except JVal AdminDashboard.UsersPage)
    (huser : user.truthy = true) :
    (∀ result : JVal, result.isNullish = false →
      (AdminDashboard.confirmPressed (AdminDashboard.openConfirmDialog s action user) st
          (.ok result) refetchOutcome).calls
        = [api.request st "post"
            ("/users/" ++ (user.optProp "id").toStr ++ "/"
              ++ (if action = .activate then "activate" else "deactivate")) .undefined,
          AdminDashboard.usersRequest st s.currentPage 10] ∧
      ∃ text extra,
        (AdminDashboard.confirmPressed (AdminDashboard.openConfirmDialog s action user) st
            (.ok result) refetchOutcome).state.queue.notifications
          = s.queue.notifications
            ++ [{ id := s.queue.notificationId, message := .str text, type := "success" }]
            ++ extra ∧
        (∀ n ∈ extra, n.type = "error") ∧
        text = "User "
          ++ (if (result.optProp "email").truthy then result.optProp "email"
              else user.optProp "email").toStr
          ++ " has been " ++ (if action = .activate then "activated" else "deactivated") ∧
        includesChars
          (if (result.optProp "email").truthy then result.optProp "email"
            else user.optProp "email").toStr.data
          text.data = true) ∧
    (∀ error : JVal, error.isNullish = false →
      (AdminDashboard.confirmPressed (AdminDashboard.openConfirmDialog s action user) st
          (.error error) refetchOutcome).calls
        = [api.request st "post"
            ("/users/" ++ (user.optProp "id").toStr ++ "/"
              ++ (if action = .activate then "activate" else "deactivate")) .undefined] ∧
      (AdminDashboard.confirmPressed (AdminDashboard.openConfirmDialog s action user) st
          (.error error) refetchOutcome).state.users = s.users ∧
      ∃ message,
        (AdminDashboard.confirmPressed (AdminDashboard.openConfirmDialog s action user) st
            (.error error) refetchOutcome).state.queue.notifications
          = s.queue.notifications
            ++ [{ id := s.queue.notificationId, message := message, type := "error" }]) := by
  constructor
  · intro result hresult
    obtain ⟨hcalls, hqueue, -⟩ :=
      confirmPressed_open s st action user (.ok result) refetchOutcome
    obtain ⟨h1, extra, h2, h3⟩ := handleStatusChange_success
      (if action = .activate then "activate" else "deactivate")
      (if action = .activate then "activated" else "deactivated")
      (AdminDashboard.openConfirmDialog s action user) st result refetchOutcome huser hresult
    refine ⟨hcalls.trans h1, _, extra, (congrArg _ hqueue).trans h2, h3, rfl, ?_⟩
    simp only [String.data_append, List.append_assoc]
    exact includesChars_infix _ _ _
  · intro error herror
    obtain ⟨hcalls, hqueue, husers⟩ :=
      confirmPressed_open s st action user (.error error) refetchOutcome
    obtain ⟨h1, h2, message, h3⟩ := handleStatusChange_failure
      (if action = .activate then "activate" else "deactivate")
      (if action = .activate then "activated" else "deactivated")
      (AdminDashboard.openConfirmDialog s action user) st error refetchOutcome huser herror
    exact ⟨hcalls.trans h1, husers.trans h2, message, (congrArg _ hqueue).trans h3⟩

/-- Witness for C24: activating `john.doe@example.com` from the first page, the server
answering with the updated record. -/
theorem confirmed_status_change_witness :
    (AdminDashboard.confirmPressed
        (AdminDashboard.openConfirmDialog (AdminDashboard.initial 0) .activate
          (.obj [("id", .str "0827b88d"), ("email", .str "john.doe@example.com")]))
        [] (.ok (.obj [("email", .str "john.doe@example.com")]))
        (.ok { items := some [], total := some 0, pages := some 1 })).calls
      = [api.request [] "post" "/users/0827b88d/activate" .undefined,
         AdminDashboard.usersRequest [] 1 10] :=
  ((confirmed_status_change (AdminDashboard.initial 0) [] .activate
    (.obj [("id", .str "0827b88d"), ("email", .str "john.doe@example.com")])
    (.ok { items := some [], total := some 0, pages := some 1 }) rfl).1
    (.obj [("email", .str "john.doe@example.com")]) rfl).1

/-! ## C28: saving the profile -/

theorem validateProfile_eq_false_iff (profileData : UserProfile.ProfileData) :
    (UserProfile.validateProfile profileData).2 = false ↔
      (trim profileData.fullName = "" ∨ trim profileData.email = "" ∨
        emailRegExp.test profileData.email = false) := by
  unfold UserProfile.validateProfile
  by_cases h1 : trim profileData.fullName = ""
  · simp [h1]
  · by_cases h2 : trim profileData.email = ""
    · simp [h1, h2]
    · cases h3 : emailRegExp.test profileData.email <;> simp [h1, h2, h3]

/-- C28: Save on the profile screen.  When the edited `fullName` is blank, or the edited
`email` is blank or fails the email shape test, the handler makes no `updateProfile`
call and leaves the store, the rendered user, the edit mode and the saving flag as they
were, so the saving flag, `false` whenever the Save control is enabled, is `false`
afterwards.  Otherwise it issues exactly the `PUT /profile` request; if that succeeds
with response `r`, the stored `user` entry is the serialised `r`, the rendered user is
`r`, edit mode is exited; if it fails with an error object, edit mode is as before, the
store and the rendered user are unchanged, and exactly one notification, of type error,
is added; in both cases the saving flag is `false` afterwards. -/
theorem handleSaveProfile_spec (s : UserProfile.State) (st : Storage) :
    ((trim s.profileData.fullName = "" ∨ trim s.profileData.email = "" ∨
        emailRegExp.test s.profileData.email = false) →
      ∀ outcome : Except JVal JVal,
        (s.handleSaveProfile st outcome).calls = [] ∧
        (s.handleSaveProfile st outcome).store = st ∧
        (s.handleSaveProfile st outcome).state.user = s.user ∧
        (s.handleSaveProfile st outcome).state.isEditing = s.isEditing ∧
        (s.handleSaveProfile st outcome).state.queue = s.queue ∧
        (s.handleSaveProfile st outcome).state.isSaving = s.isSaving ∧
        (s.isSaving = false → (s.handleSaveProfile st outcome).state.isSaving = false)) ∧
    (¬(trim s.profileData.fullName = "" ∨ trim s.profileData.email = "" ∨
        emailRegExp.test s.profileData.email = false) →
      (∀ r : JVal,
        (s.handleSaveProfile st (.ok r)).calls
          = [api.request st "put" "/profile"
              (.obj [("fullName", .str s.profileData.fullName),
                     ("email", .str s.profileData.email)])] ∧
        (s.handleSaveProfile st (.ok r)).store.getItem "user" = some (serialise r) ∧
        (s.handleSaveProfile st (.ok r)).state.user = r ∧
        (s.handleSaveProfile st (.ok r)).state.isEditing = false ∧
        (s.handleSaveProfile st (.ok r)).state.isSaving = false) ∧
      (∀ error : JVal, error.isNullish = false →
        (s.handleSaveProfile st (.error error)).calls
          = [api.request st "put" "/profile"
              (.obj [("fullName", .str s.profileData.fullName),
                     ("email", .str s.profileData.email)])] ∧
        (s.handleSaveProfile st (.error error)).state.isEditing = s.isEditing ∧
        (s.handleSaveProfile st (.error error)).store = st ∧
        (s.handleSaveProfile st (.error error)).state.user = s.user ∧
        (∃ message,
          (s.handleSaveProfile st (.error error)).state.queue.notifications
            = s.queue.notifications
              ++ [{ id := s.queue.notificationId, message := message, type := "error" }]) ∧
        (s.handleSaveProfile st (.error error)).state.isSaving = false)) := by
  constructor
  · intro hinvalid outcome
    have hv := (validateProfile_eq_false_iff s.profileData).2 hinvalid
    unfold UserProfile.State.handleSaveProfile
    simp only [hv, Bool.not_false, if_true]
    exact ⟨trivial, trivial, trivial, trivial, trivial, trivial, fun h => h⟩
  · intro hvalid
    have hv : (UserProfile.validateProfile s.profileData).2 = true := by
      cases h : (UserProfile.validateProfile s.profileData).2
      · exact absurd ((validateProfile_eq_false_iff s.profileData).1 h) hvalid
      · rfl
    constructor
    · intro r
      unfold UserProfile.State.handleSaveProfile
      simp only [hv, Bool.not_true, Bool.false_eq_true, if_false]
      exact ⟨trivial, Storage.getItem_setItem_self _ _ _, trivial, trivial, trivial⟩
    · intro error herror
      obtain ⟨m, hm⟩ := failureMessage_of_not_nullish "Failed to update profile" error herror
      unfold UserProfile.State.handleSaveProfile
      simp only [hv, hm, Bool.not_true, Bool.false_eq_true, if_false]
      refine ⟨trivial, trivial, trivial, trivial, ⟨m, ?_⟩, trivial⟩
      simp [NotificationQueue.showError, NotificationQueue.addNotification]

/-- Witness for C28: saving the name `Updated Name` with `test@example.com`, the server
answering with the updated record. -/
theorem handleSaveProfile_spec_witness :
    (UserProfile.State.handleSaveProfile
      { user := .obj [("fullName", .str "Test User")], isEditing := true,
        isChangingPassword := false, isSaving := false,
        profileData := { fullName := "Updated Name", email := "test@example.com" },
        passwordData := { currentPassword := "", newPassword := "", confirmPassword := "" },
        errors := { fullName := none, email := none, currentPassword := none,
                    newPassword := none, confirmPassword := none },
        queue := { notificationId := 0, notifications := [] } }
      [] (.ok (.obj [("fullName", .str "Updated Name")]))).state.isEditing = false :=
  (((handleSaveProfile_spec
      { user := .obj [("fullName", .str "Test User")], isEditing := true,
        isChangingPassword := false, isSaving := false,
        profileData := { fullName := "Updated Name", email := "test@example.com" },
        passwordData := { currentPassword := "", newPassword := "", confirmPassword := "" },
        errors := { fullName := none, email := none, currentPassword := none,
                    newPassword := none, confirmPassword := none },
        queue := { notificationId := 0, notifications := [] } }
      []).2 (by decide)).1 (.obj [("fullName", .str "Updated Name")])).2.2.2.1

end UserDashboard
